import Mathlib

/-!
# Token-swap client: codec and instruction builders

A shallow embedding of `token-swap/js/client/index.js`.

* JavaScript byte buffers are lists of bytes (`Fin 256`).
* JavaScript strings are lists of characters.
* A thrown exception is `Except.error` carrying the message of the exception.
* A `BN` (the arbitrary-precision integer of `bn.js`) is the integer it holds.
* A JavaScript number is the integer it holds.
* An amount given to a builder is an `Amount`: a JavaScript number, a
  `Numberu64` or a plain `BN`. `new Numberu64(amount)` is `Numberu64.new`: it
  throws on a number of magnitude `2 ^ 53` or more and returns a `BN` as it is.
* The network is left out: `loadTokenSwap` starts from the fetched bytes and
  takes the derivation of the authority as a parameter.
-/

deriving instance DecidableEq for Except

namespace Client

/-! ## Buffers -/

/-- One octet of a `Buffer`. -/
abbrev Byte := Fin 256

/-- A Node `Buffer`: a sequence of octets. -/
abbrev Buffer := List Byte

/-- The octet a number is stored as in a `Buffer` (`value & 255`). -/
def Byte.ofNat (n : Nat) : Byte := ⟨n % 256, Nat.mod_lt n (by decide)⟩

/-- `Buffer.from(array)`: every entry of the array is stored as an octet. -/
def Buffer.from (a : List Nat) : Buffer := a.map Byte.ofNat

/-- `Buffer.alloc(size)`: a zero-filled buffer. -/
def Buffer.alloc (size : Nat) : Buffer := List.replicate size 0

/-- `source.copy(target, targetStart)`: the bytes of `source` are written into
`target` from `targetStart` on (as many as fit); the value is the target after
the call. `source.copy(target)` is the call with `targetStart = 0`. -/
def Buffer.copy (source target : Buffer) (targetStart : Nat) : Buffer :=
  target.take targetStart ++ source.take (target.length - targetStart)
    ++ target.drop (targetStart + source.length)

/-- `b.write(src.toString('hex'), offset, src.length, 'hex')`: the bytes of
`src` are written into `b` at `offset`. -/
def Buffer.write (b src : Buffer) (offset : Nat) : Buffer :=
  b.take offset ++ src ++ b.drop (offset + src.length)

/-- `b.slice(start, end)`, clamped to the buffer as in JavaScript. -/
def Buffer.slice (b : Buffer) (start stop : Nat) : Buffer :=
  (b.take stop).drop start

/-! ## `bn.js` -/

/-- The loop of `BN.prototype.toArrayLike` for big-endian output: the low byte
of `q` is stored in front of what is already there and `q` is shifted right by
eight bits, until `q` is zero. -/
def toArrayLoop : Nat → Nat → List Nat → List Nat
  | 0, _, res => res
  | fuel + 1, q, res =>
    if q = 0 then res else toArrayLoop fuel (q / 256) (q % 256 :: res)

/-- `BN.prototype.toArray()` with the default arguments, on the magnitude `m`
of the number: the big-endian bytes of `m` without leading zeros, of length
`max(1, byteLength)`, so zero gives `[0]`. -/
def BN.toArray (m : Nat) : List Nat :=
  if m = 0 then [0] else toArrayLoop m m []

/-- The value of one hexadecimal digit, as `parseHex4Bits` of `bn.js` reads it;
any other character is an assertion failure. -/
def parseHex4Bits (c : Char) : Except String Nat :=
  let n := c.toNat
  if 48 ≤ n ∧ n ≤ 57 then .ok (n - 48)
  else if 65 ≤ n ∧ n ≤ 70 then .ok (n - 55)
  else if 97 ≤ n ∧ n ≤ 102 then .ok (n - 87)
  else .error "Invalid character"

/-- The magnitude a string of hexadecimal digits stands for, most significant
digit first, starting from the accumulated value `acc`. -/
def parseHex : List Char → Nat → Except String Nat
  | [], acc => .ok acc
  | c :: cs, acc => do
    let d ← parseHex4Bits c
    parseHex cs (acc * 16 + d)

/-- `new BN(string, 16)`: a leading minus sign makes the number negative, the
rest is read as hexadecimal digits. -/
def BN.ofHex (s : List Char) : Except String Int :=
  if s.head? = some '-' then do
    let m ← parseHex s.tail 0
    .ok (-(m : Int))
  else do
    let m ← parseHex s 0
    .ok (m : Int)

/-! ## `Numberu64` -/

/-- Some amount of tokens: a `BN`, given by the integer it holds. -/
structure Numberu64 where
  /-- The integer held. -/
  value : Int
  deriving DecidableEq, Repr

/-- `Numberu64.prototype.toBuffer`. -/
def Numberu64.toBuffer (x : Numberu64) : Except String Buffer :=
  let a := (BN.toArray x.value.natAbs).reverse
  let b := Buffer.from a
  if b.length = 8 then .ok b
  else if b.length < 8 then
    let zeroPad := Buffer.alloc 8
    .ok (Buffer.copy b zeroPad 0)
  else .error "Numberu64 too large"

/-- `i.toString(16)` for a non-negative integer `i`. -/
def toString16 (i : Nat) : List Char := Nat.toDigits 16 i

/-- `s.slice(-2)`: the last two characters of `s` (all of `s` when shorter). -/
def sliceLast2 (s : List Char) : List Char := s.drop (s.length - 2)

/-- The callback of `map` in `fromBuffer`: `00` followed by the hexadecimal
digits of the byte, cut to the last two characters. -/
def hexByte (i : Byte) : List Char := sliceLast2 ('0' :: '0' :: toString16 i.val)

/-- `Numberu64.fromBuffer`. -/
def Numberu64.fromBuffer (buffer : Buffer) : Except String Numberu64 :=
  if buffer.length = 8 then do
    let v ← BN.ofHex ((buffer.reverse.map hexByte).flatten)
    .ok ⟨v⟩
  else .error ("Invalid buffer length: " ++ toString buffer.length)

/-- What a builder is given as an amount: a JavaScript number (the integer it
holds), a `Numberu64`, or a plain `BN` that is not a `Numberu64`. -/
inductive Amount
  | number (n : Int)
  | numberu64 (x : Numberu64)
  | bn (value : Int)
  deriving DecidableEq, Repr

/-- The object that `new Numberu64(amount)` evaluates to: a `Numberu64`, or the
plain `BN` that the constructor of `bn.js` was given and returns as it is. -/
inductive BNObject
  | numberu64 (x : Numberu64)
  | bn (value : Int)
  deriving DecidableEq, Repr

/-- `new Numberu64(amount)`. The constructor of `bn.js` returns a `BN` (so also
a `Numberu64`) that it is given unchanged; on a number it asserts that the
magnitude is below `2 ^ 53`, the bound of the safe integers, and throws
`Assertion failed` otherwise. -/
def Numberu64.new (amount : Amount) : Except String BNObject :=
  match amount with
  | .number n =>
    if n.natAbs < 2 ^ 53 then .ok (.numberu64 ⟨n⟩) else .error "Assertion failed"
  | .numberu64 x => .ok (.numberu64 x)
  | .bn value => .ok (.bn value)

/-- `BN.prototype.toBuffer()` with the default arguments: the big-endian bytes
of the magnitude, without leading zeros. -/
def BN.toBuffer (value : Int) : Buffer := Buffer.from (BN.toArray value.natAbs)

/-- The method `toBuffer` of the object that `new Numberu64(amount)` gave: that
of `Numberu64`, or that of `BN` on a plain `BN`. -/
def BNObject.toBuffer : BNObject → Except String Buffer
  | .numberu64 x => x.toBuffer
  | .bn value => .ok (BN.toBuffer value)

/-! ## `buffer-layout` -/

/-- A value of a property of a JavaScript object handed to, or produced by, a
layout: a number or a `Buffer`. The numbers of the client are integers: the
opcodes, the nonce, the curve type and the fee components. -/
inductive Value
  | num (n : Int)
  | buf (b : Buffer)
  deriving DecidableEq, Repr

/-- A JavaScript object: the bindings of its properties, the newest first, so
that the value of a property is the first binding of its name
(`List.lookup`). -/
abbrev Obj := List (String × Value)

/-- `dest[property] = value`: the new binding goes in front and hides an older
one of the same name. -/
def Obj.set (dest : Obj) (property : String) (value : Value) : Obj :=
  (property, value) :: dest

/-- The field layouts of `buffer-layout` that the client uses:
`BufferLayout.u8(property)`, `BufferLayout.nu64(property)` and
`BufferLayout.blob(length, property)`. -/
inductive BufferLayout
  | u8 (property : String)
  | nu64 (property : String)
  | blob (length : Nat) (property : String)
  deriving DecidableEq, Repr

/-- The number of bytes a field takes. -/
def BufferLayout.span : BufferLayout → Nat
  | .u8 _ => 1
  | .nu64 _ => 8
  | .blob length _ => length

/-- The name of the property a field is read from and stored to. -/
def BufferLayout.property : BufferLayout → String
  | .u8 property => property
  | .nu64 property => property
  | .blob _ property => property

/-- `b.writeUInt32LE(value, offset)`: the four little-endian bytes of `value`
are written at `offset`; a value outside `0 .. 2 ^ 32 - 1` or an offset
outside the buffer throws a `RangeError`. -/
def Buffer.writeUInt32LE (b : Buffer) (value : Int) (offset : Nat) : Except String Buffer :=
  if 0 ≤ value ∧ value ≤ 4294967295 ∧ offset + 4 ≤ b.length then
    .ok (b.write [Byte.ofNat value.toNat, Byte.ofNat (value.toNat / 256),
      Byte.ofNat (value.toNat / 65536), Byte.ofNat (value.toNat / 16777216)] offset)
  else .error "RangeError"

/-- `b.readUInt32LE(offset)`. -/
def Buffer.readUInt32LE (b : Buffer) (offset : Nat) : Except String Nat :=
  match b[offset]?, b[offset + 1]?, b[offset + 2]?, b[offset + 3]? with
  | some b0, some b1, some b2, some b3 =>
    .ok (b0.val + b1.val * 256 + b2.val * 65536 + b3.val * 16777216)
  | _, _, _, _ => .error "RangeError"

/-- The double nearest to a non-negative integer below `2 ^ 64`, ties to the
even significand: integers below `2 ^ 53` are kept, above that the low bits
that do not fit in 53 bits are rounded off. -/
def roundToDouble (n : Nat) : Nat :=
  if n < 2 ^ 53 then n
  else
    let e := Nat.log2 n - 52
    let q := n / 2 ^ e
    let r := n % 2 ^ e
    let half := 2 ^ (e - 1)
    if r > half ∨ (r = half ∧ q % 2 = 1) then (q + 1) * 2 ^ e else q * 2 ^ e

/-- `roundedInt64(hi32, lo32)` of `buffer-layout`: `hi32 * 2 ** 32 + lo32` in
double arithmetic. -/
def roundedInt64 (hi32 lo32 : Nat) : Nat := roundToDouble (hi32 * 4294967296 + lo32)

/-- `fd.encode(src, b, offset)`: the buffer after the call and the number of
bytes written. `u8` writes with `writeUIntLE`, which throws a `RangeError` for
a value outside `0 .. 255` or an offset outside the buffer. `nu64` splits the
number with `divmodInt64` into `hi32 = Math.floor(src / 2 ** 32)` and
`lo32 = src - hi32 * 2 ** 32` (both exact on integers) and writes `lo32`, then
`hi32`, with `writeUInt32LE`. `blob` throws a `TypeError` unless the source is
a `Buffer` of the length of the blob, and a `RangeError` when the bytes would
overrun the buffer. The client passes a number to every `u8` and `nu64` and a
`Buffer` to every `blob`; a `Buffer` given to a `u8` or `nu64` is reported as
a `TypeError` here. -/
def BufferLayout.encode (fd : BufferLayout) (src : Value) (b : Buffer) (offset : Nat) :
    Except String (Buffer × Nat) :=
  match fd, src with
  | .u8 _, .num n =>
    if 0 ≤ n ∧ n ≤ 255 ∧ offset + 1 ≤ b.length then
      .ok (b.write [Byte.ofNat n.toNat] offset, 1)
    else .error "RangeError"
  | .u8 _, .buf _ => .error "TypeError"
  | .nu64 _, .num n => do
    let hi32 := n / 4294967296
    let lo32 := n - hi32 * 4294967296
    let b1 ← b.writeUInt32LE lo32 offset
    let b2 ← b1.writeUInt32LE hi32 (offset + 4)
    .ok (b2, 8)
  | .nu64 _, .buf _ => .error "TypeError"
  | .blob length _, .buf s =>
    if length = s.length then
      if offset + length > b.length then .error "RangeError: encoding overruns Buffer"
      else .ok (b.write s offset, length)
    else .error "TypeError: Blob.encode requires (length) Buffer as src"
  | .blob _ _, .num _ => .error "TypeError: Blob.encode requires (length) Buffer as src"

/-- `fd.decode(b, offset)`. `u8` reads with `readUIntLE`, which throws a
`RangeError` outside the buffer; `nu64` reads two 32-bit halves and combines
them with `roundedInt64`; `blob` is `b.slice(offset, offset + length)`, which
does not throw. -/
def BufferLayout.decode (fd : BufferLayout) (b : Buffer) (offset : Nat) : Except String Value :=
  match fd with
  | .u8 _ =>
    match b[offset]? with
    | some x => .ok (.num (x.val : Int))
    | none => .error "RangeError"
  | .nu64 _ => do
    let lo32 ← b.readUInt32LE offset
    let hi32 ← b.readUInt32LE (offset + 4)
    .ok (.num (roundedInt64 hi32 lo32 : Nat))
  | .blob length _ => .ok (.buf (b.slice offset (offset + length)))

/-- The class `Structure` of `buffer-layout`: a sequence of fields. -/
structure Structure where
  /-- The fields in order. -/
  fields : List BufferLayout
  deriving DecidableEq, Repr

/-- `BufferLayout.struct(fields)`. -/
def BufferLayout.struct (fields : List BufferLayout) : Structure := ⟨fields⟩

/-- The span of a structure: the sum of the spans of its fields. -/
def Structure.span (s : Structure) : Nat :=
  s.fields.foldl (fun span fd => span + fd.span) 0

/-- The loop of `Structure.prototype.encode` over the fields that remain, with
the buffer, the running offset, and the offset and byte count of the field
written last. A field whose property is undefined in `src` is skipped over. -/
def Structure.encodeLoop :
    List BufferLayout → Obj → Buffer → Nat → Nat → Nat → Except String (Buffer × Nat)
  | [], _, b, _, lastOffset, lastWrote => .ok (b, lastOffset + lastWrote)
  | fd :: fds, src, b, offset, _, _ =>
    match src.lookup fd.property with
    | some fv => do
      let (b1, wrote) ← fd.encode fv b offset
      Structure.encodeLoop fds src b1 (offset + fd.span) offset wrote
    | none => Structure.encodeLoop fds src b (offset + fd.span) offset fd.span

/-- `layout.encode(src, b)`: the buffer after the call and the returned
encoded length. -/
def Structure.encode (s : Structure) (src : Obj) (b : Buffer) : Except String (Buffer × Nat) :=
  Structure.encodeLoop s.fields src b 0 0 0

/-- The loop of `Structure.prototype.decode` over the fields that remain. -/
def Structure.decodeLoop : List BufferLayout → Buffer → Nat → Obj → Except String Obj
  | [], _, _, dest => .ok dest
  | fd :: fds, b, offset, dest => do
    let v ← fd.decode b offset
    Structure.decodeLoop fds b (offset + fd.span) (dest.set fd.property v)

/-- `layout.decode(b)`. -/
def Structure.decode (s : Structure) (b : Buffer) : Except String Obj :=
  Structure.decodeLoop s.fields b 0 []

/-! ## The module `./layout` -/

/-- Modelled from the spec: `Layout.publicKey` of the module `./layout` of the
client, whose source is missing. A public key is a field of 32 bytes (the spec: "32-byte
public keys"). -/
def Layout.publicKey (property : String) : BufferLayout := BufferLayout.blob 32 property

/-- Modelled from the spec: `Layout.uint64` of the module `./layout` of the
client, whose source is missing. A 64-bit unsigned value is a field of 8 bytes (the spec:
"8-byte fee fields", "an exact 8-byte little-endian representation"). -/
def Layout.uint64 (property : String) : BufferLayout := BufferLayout.blob 8 property

/-! ## `@solana/web3.js` -/

/-- The big-endian magnitude of a byte sequence, which is what `new BN(buffer)`
holds. -/
def beValue (b : Buffer) : Nat := b.foldl (fun acc x => acc * 256 + x.val) 0

/-- A `PublicKey`: the number `_bn` it holds, which takes at most 32 bytes
(the constructor throws otherwise). -/
structure PublicKey where
  /-- The number held. -/
  bn : Nat
  /-- It takes at most 32 bytes. -/
  isLt : bn < 256 ^ 32
  deriving DecidableEq, Repr

/-- `new PublicKey(buffer)`. -/
def PublicKey.new (value : Buffer) : Except String PublicKey :=
  if h : beValue value < 256 ^ 32 then .ok ⟨beValue value, h⟩
  else .error "Invalid public key input"

/-- `PublicKey.prototype.toBuffer`: the 32 big-endian bytes of the key. -/
def PublicKey.toBuffer (k : PublicKey) : Buffer :=
  let b := Buffer.from (BN.toArray k.bn)
  if b.length = 32 then b
  else
    let zeroPad := Buffer.alloc 32
    Buffer.copy b zeroPad (32 - b.length)

/-- An `Account` of `@solana/web3.js`: a key pair, of which the client reads the
public key. -/
structure Account where
  publicKey : PublicKey
  deriving DecidableEq, Repr

/-- One entry of the `keys` of an instruction. -/
structure AccountMeta where
  pubkey : PublicKey
  isSigner : Bool
  isWritable : Bool
  deriving DecidableEq, Repr

/-- A `TransactionInstruction`. -/
structure TransactionInstruction where
  keys : List AccountMeta
  programId : PublicKey
  data : Buffer
  deriving DecidableEq, Repr

/-! ## The client -/

/-- The layout of a token-swap account. -/
def TokenSwapLayout : Structure :=
  BufferLayout.struct [
    BufferLayout.u8 "version",
    BufferLayout.u8 "isInitialized",
    BufferLayout.u8 "nonce",
    Layout.publicKey "tokenProgramId",
    Layout.publicKey "tokenAccountA",
    Layout.publicKey "tokenAccountB",
    Layout.publicKey "tokenPool",
    Layout.publicKey "mintA",
    Layout.publicKey "mintB",
    Layout.publicKey "feeAccount",
    Layout.uint64 "tradeFeeNumerator",
    Layout.uint64 "tradeFeeDenominator",
    Layout.uint64 "ownerTradeFeeNumerator",
    Layout.uint64 "ownerTradeFeeDenominator",
    Layout.uint64 "ownerWithdrawFeeNumerator",
    Layout.uint64 "ownerWithdrawFeeDenominator",
    Layout.uint64 "hostFeeNumerator",
    Layout.uint64 "hostFeeDenominator",
    BufferLayout.u8 "curveType",
    BufferLayout.blob 32 "curveParameters"]

/-- The frozen object `CurveType`: the constant-product curve. -/
def CurveType.ConstantProduct : Int := 0

/-- The frozen object `CurveType`: the constant-price curve. -/
def CurveType.ConstantPrice : Int := 1

/-- The frozen object `CurveType`: the offset curve. -/
def CurveType.Offset : Int := 3

/-- The class `TokenSwap`: what the constructor stores. The connection and the
payer are handles of types the client does not look into. -/
structure TokenSwap (Connection Account : Type) where
  connection : Connection
  tokenSwap : PublicKey
  swapProgramId : PublicKey
  tokenProgramId : PublicKey
  poolToken : PublicKey
  feeAccount : PublicKey
  authority : PublicKey
  tokenAccountA : PublicKey
  tokenAccountB : PublicKey
  mintA : PublicKey
  mintB : PublicKey
  tradeFeeNumerator : Numberu64
  tradeFeeDenominator : Numberu64
  ownerTradeFeeNumerator : Numberu64
  ownerTradeFeeDenominator : Numberu64
  ownerWithdrawFeeNumerator : Numberu64
  ownerWithdrawFeeDenominator : Numberu64
  hostFeeNumerator : Numberu64
  hostFeeDenominator : Numberu64
  curveType : Value
  payer : Account

/-- Whether a decoded property is falsy in a condition: it is undefined or the
number zero. -/
def falsy : Option Value → Bool
  | none => true
  | some (.num n) => n == 0
  | some (.buf _) => false

/-- The property `name` of a decoded object as the `Buffer` that a constructor
or `fromBuffer` receives; reading the length of an undefined property, or
building a key from a number, is reported as a `TypeError`. -/
def bufferOf (o : Obj) (name : String) : Except String Buffer :=
  match o.lookup name with
  | some (.buf b) => .ok b
  | _ => .error "TypeError"

/-- The property `name` of a decoded object as it is stored, which fails here
only when the property is undefined. -/
def valueOf (o : Obj) (name : String) : Except String Value :=
  match o.lookup name with
  | some v => .ok v
  | none => .error "TypeError"

/-- `TokenSwap.createInitSwapInstruction`. The nonce, the fee components and the
curve type are numbers. -/
def TokenSwap.createInitSwapInstruction (tokenSwapAccount : Account) (authority tokenAccountA
    tokenAccountB tokenPool feeAccount tokenAccountPool tokenProgramId swapProgramId : PublicKey)
    (nonce tradeFeeNumerator tradeFeeDenominator ownerTradeFeeNumerator
    ownerTradeFeeDenominator ownerWithdrawFeeNumerator ownerWithdrawFeeDenominator
    hostFeeNumerator hostFeeDenominator curveType : Int) :
    Except String TransactionInstruction := do
  let keys : List AccountMeta := [
    { pubkey := tokenSwapAccount.publicKey, isSigner := false, isWritable := true },
    { pubkey := authority, isSigner := false, isWritable := false },
    { pubkey := tokenAccountA, isSigner := false, isWritable := false },
    { pubkey := tokenAccountB, isSigner := false, isWritable := false },
    { pubkey := tokenPool, isSigner := false, isWritable := true },
    { pubkey := feeAccount, isSigner := false, isWritable := false },
    { pubkey := tokenAccountPool, isSigner := false, isWritable := true },
    { pubkey := tokenProgramId, isSigner := false, isWritable := false }]
  let commandDataLayout := BufferLayout.struct [
    BufferLayout.u8 "instruction",
    BufferLayout.u8 "nonce",
    BufferLayout.nu64 "tradeFeeNumerator",
    BufferLayout.nu64 "tradeFeeDenominator",
    BufferLayout.nu64 "ownerTradeFeeNumerator",
    BufferLayout.nu64 "ownerTradeFeeDenominator",
    BufferLayout.nu64 "ownerWithdrawFeeNumerator",
    BufferLayout.nu64 "ownerWithdrawFeeDenominator",
    BufferLayout.nu64 "hostFeeNumerator",
    BufferLayout.nu64 "hostFeeDenominator",
    BufferLayout.u8 "curveType",
    BufferLayout.blob 32 "curveParameters"]
  let data := Buffer.alloc 1024
  let (data, encodeLength) ← commandDataLayout.encode [
    ("instruction", .num 0),
    ("nonce", .num nonce),
    ("tradeFeeNumerator", .num tradeFeeNumerator),
    ("tradeFeeDenominator", .num tradeFeeDenominator),
    ("ownerTradeFeeNumerator", .num ownerTradeFeeNumerator),
    ("ownerTradeFeeDenominator", .num ownerTradeFeeDenominator),
    ("ownerWithdrawFeeNumerator", .num ownerWithdrawFeeNumerator),
    ("ownerWithdrawFeeDenominator", .num ownerWithdrawFeeDenominator),
    ("hostFeeNumerator", .num hostFeeNumerator),
    ("hostFeeDenominator", .num hostFeeDenominator),
    ("curveType", .num curveType)] data
  let data := data.slice 0 encodeLength
  .ok { keys := keys, programId := swapProgramId, data := data }

/-- `TokenSwap.loadTokenSwap` from the point where the bytes `data` of the
account have been fetched. `findProgramAddress` is the derivation of
`PublicKey.findProgramAddress`, applied to the seeds and the program id. -/
def TokenSwap.loadTokenSwap {Connection Account : Type}
    (findProgramAddress : List Buffer → PublicKey → Except String (PublicKey × Nat))
    (connection : Connection) (data : Buffer) (address programId : PublicKey)
    (payer : Account) : Except String (TokenSwap Connection Account) := do
  let tokenSwapData ← TokenSwapLayout.decode data
  if falsy (tokenSwapData.lookup "isInitialized") then
    .error "Invalid token swap state"
  else do
    let (authority, _) ← findProgramAddress [address.toBuffer] programId
    let poolToken ← (bufferOf tokenSwapData "tokenPool") >>= PublicKey.new
    let feeAccount ← (bufferOf tokenSwapData "feeAccount") >>= PublicKey.new
    let tokenAccountA ← (bufferOf tokenSwapData "tokenAccountA") >>= PublicKey.new
    let tokenAccountB ← (bufferOf tokenSwapData "tokenAccountB") >>= PublicKey.new
    let mintA ← (bufferOf tokenSwapData "mintA") >>= PublicKey.new
    let mintB ← (bufferOf tokenSwapData "mintB") >>= PublicKey.new
    let tokenProgramId ← (bufferOf tokenSwapData "tokenProgramId") >>= PublicKey.new
    let tradeFeeNumerator ←
      (bufferOf tokenSwapData "tradeFeeNumerator") >>= Numberu64.fromBuffer
    let tradeFeeDenominator ←
      (bufferOf tokenSwapData "tradeFeeDenominator") >>= Numberu64.fromBuffer
    let ownerTradeFeeNumerator ←
      (bufferOf tokenSwapData "ownerTradeFeeNumerator") >>= Numberu64.fromBuffer
    let ownerTradeFeeDenominator ←
      (bufferOf tokenSwapData "ownerTradeFeeDenominator") >>= Numberu64.fromBuffer
    let ownerWithdrawFeeNumerator ←
      (bufferOf tokenSwapData "ownerWithdrawFeeNumerator") >>= Numberu64.fromBuffer
    let ownerWithdrawFeeDenominator ←
      (bufferOf tokenSwapData "ownerWithdrawFeeDenominator") >>= Numberu64.fromBuffer
    let hostFeeNumerator ←
      (bufferOf tokenSwapData "hostFeeNumerator") >>= Numberu64.fromBuffer
    let hostFeeDenominator ←
      (bufferOf tokenSwapData "hostFeeDenominator") >>= Numberu64.fromBuffer
    let curveType ← valueOf tokenSwapData "curveType"
    .ok {
      connection := connection, tokenSwap := address, swapProgramId := programId,
      tokenProgramId := tokenProgramId, poolToken := poolToken, feeAccount := feeAccount,
      authority := authority, tokenAccountA := tokenAccountA, tokenAccountB := tokenAccountB,
      mintA := mintA, mintB := mintB, tradeFeeNumerator := tradeFeeNumerator,
      tradeFeeDenominator := tradeFeeDenominator,
      ownerTradeFeeNumerator := ownerTradeFeeNumerator,
      ownerTradeFeeDenominator := ownerTradeFeeDenominator,
      ownerWithdrawFeeNumerator := ownerWithdrawFeeNumerator,
      ownerWithdrawFeeDenominator := ownerWithdrawFeeDenominator,
      hostFeeNumerator := hostFeeNumerator, hostFeeDenominator := hostFeeDenominator,
      curveType := curveType, payer := payer }

/-- `TokenSwap.swapInstruction`; `hostFeeAccount` is `none` for `null`. Each
amount goes through `new Numberu64(amount).toBuffer()`. -/
def TokenSwap.swapInstruction (tokenSwap authority userTransferAuthority userSource poolSource
    poolDestination userDestination poolMint feeAccount : PublicKey)
    (hostFeeAccount : Option PublicKey) (swapProgramId tokenProgramId : PublicKey)
    (amountIn minimumAmountOut : Amount) : Except String TransactionInstruction := do
  let dataLayout := BufferLayout.struct [
    BufferLayout.u8 "instruction",
    Layout.uint64 "amountIn",
    Layout.uint64 "minimumAmountOut"]
  let data := Buffer.alloc dataLayout.span
  let amountInBuffer ← Numberu64.new amountIn >>= BNObject.toBuffer
  let minimumAmountOutBuffer ← Numberu64.new minimumAmountOut >>= BNObject.toBuffer
  let (data, _) ← dataLayout.encode [
    ("instruction", .num 1),
    ("amountIn", .buf amountInBuffer),
    ("minimumAmountOut", .buf minimumAmountOutBuffer)] data
  let keys : List AccountMeta := [
    { pubkey := tokenSwap, isSigner := false, isWritable := false },
    { pubkey := authority, isSigner := false, isWritable := false },
    { pubkey := userTransferAuthority, isSigner := true, isWritable := false },
    { pubkey := userSource, isSigner := false, isWritable := true },
    { pubkey := poolSource, isSigner := false, isWritable := true },
    { pubkey := poolDestination, isSigner := false, isWritable := true },
    { pubkey := userDestination, isSigner := false, isWritable := true },
    { pubkey := poolMint, isSigner := false, isWritable := true },
    { pubkey := feeAccount, isSigner := false, isWritable := true },
    { pubkey := tokenProgramId, isSigner := false, isWritable := false }]
  let keys :=
    match hostFeeAccount with
    | some h => keys ++ [{ pubkey := h, isSigner := false, isWritable := true }]
    | none => keys
  .ok { keys := keys, programId := swapProgramId, data := data }

/-- `TokenSwap.depositAllTokenTypesInstruction`. -/
def TokenSwap.depositAllTokenTypesInstruction (tokenSwap authority userTransferAuthority sourceA
    sourceB intoA intoB poolToken poolAccount swapProgramId tokenProgramId : PublicKey)
    (poolTokenAmount maximumTokenA maximumTokenB : Amount) :
    Except String TransactionInstruction := do
  let dataLayout := BufferLayout.struct [
    BufferLayout.u8 "instruction",
    Layout.uint64 "poolTokenAmount",
    Layout.uint64 "maximumTokenA",
    Layout.uint64 "maximumTokenB"]
  let data := Buffer.alloc dataLayout.span
  let poolTokenAmountBuffer ← Numberu64.new poolTokenAmount >>= BNObject.toBuffer
  let maximumTokenABuffer ← Numberu64.new maximumTokenA >>= BNObject.toBuffer
  let maximumTokenBBuffer ← Numberu64.new maximumTokenB >>= BNObject.toBuffer
  let (data, _) ← dataLayout.encode [
    ("instruction", .num 2),
    ("poolTokenAmount", .buf poolTokenAmountBuffer),
    ("maximumTokenA", .buf maximumTokenABuffer),
    ("maximumTokenB", .buf maximumTokenBBuffer)] data
  let keys : List AccountMeta := [
    { pubkey := tokenSwap, isSigner := false, isWritable := false },
    { pubkey := authority, isSigner := false, isWritable := false },
    { pubkey := userTransferAuthority, isSigner := true, isWritable := false },
    { pubkey := sourceA, isSigner := false, isWritable := true },
    { pubkey := sourceB, isSigner := false, isWritable := true },
    { pubkey := intoA, isSigner := false, isWritable := true },
    { pubkey := intoB, isSigner := false, isWritable := true },
    { pubkey := poolToken, isSigner := false, isWritable := true },
    { pubkey := poolAccount, isSigner := false, isWritable := true },
    { pubkey := tokenProgramId, isSigner := false, isWritable := false }]
  .ok { keys := keys, programId := swapProgramId, data := data }

/-- `TokenSwap.withdrawAllTokenTypesInstruction`. -/
def TokenSwap.withdrawAllTokenTypesInstruction (tokenSwap authority userTransferAuthority
    poolMint feeAccount sourcePoolAccount fromA fromB userAccountA userAccountB swapProgramId
    tokenProgramId : PublicKey) (poolTokenAmount minimumTokenA minimumTokenB : Amount) :
    Except String TransactionInstruction := do
  let dataLayout := BufferLayout.struct [
    BufferLayout.u8 "instruction",
    Layout.uint64 "poolTokenAmount",
    Layout.uint64 "minimumTokenA",
    Layout.uint64 "minimumTokenB"]
  let data := Buffer.alloc dataLayout.span
  let poolTokenAmountBuffer ← Numberu64.new poolTokenAmount >>= BNObject.toBuffer
  let minimumTokenABuffer ← Numberu64.new minimumTokenA >>= BNObject.toBuffer
  let minimumTokenBBuffer ← Numberu64.new minimumTokenB >>= BNObject.toBuffer
  let (data, _) ← dataLayout.encode [
    ("instruction", .num 3),
    ("poolTokenAmount", .buf poolTokenAmountBuffer),
    ("minimumTokenA", .buf minimumTokenABuffer),
    ("minimumTokenB", .buf minimumTokenBBuffer)] data
  let keys : List AccountMeta := [
    { pubkey := tokenSwap, isSigner := false, isWritable := false },
    { pubkey := authority, isSigner := false, isWritable := false },
    { pubkey := userTransferAuthority, isSigner := true, isWritable := false },
    { pubkey := poolMint, isSigner := false, isWritable := true },
    { pubkey := sourcePoolAccount, isSigner := false, isWritable := true },
    { pubkey := fromA, isSigner := false, isWritable := true },
    { pubkey := fromB, isSigner := false, isWritable := true },
    { pubkey := userAccountA, isSigner := false, isWritable := true },
    { pubkey := userAccountB, isSigner := false, isWritable := true },
    { pubkey := feeAccount, isSigner := false, isWritable := true },
    { pubkey := tokenProgramId, isSigner := false, isWritable := false }]
  .ok { keys := keys, programId := swapProgramId, data := data }

/-- `TokenSwap.depositSingleTokenTypeExactAmountInInstruction`. -/
def TokenSwap.depositSingleTokenTypeExactAmountInInstruction (tokenSwap authority
    userTransferAuthority source intoA intoB poolToken poolAccount swapProgramId
    tokenProgramId : PublicKey) (sourceTokenAmount minimumPoolTokenAmount : Amount) :
    Except String TransactionInstruction := do
  let dataLayout := BufferLayout.struct [
    BufferLayout.u8 "instruction",
    Layout.uint64 "sourceTokenAmount",
    Layout.uint64 "minimumPoolTokenAmount"]
  let data := Buffer.alloc dataLayout.span
  let sourceTokenAmountBuffer ← Numberu64.new sourceTokenAmount >>= BNObject.toBuffer
  let minimumPoolTokenAmountBuffer ← Numberu64.new minimumPoolTokenAmount >>= BNObject.toBuffer
  let (data, _) ← dataLayout.encode [
    ("instruction", .num 4),
    ("sourceTokenAmount", .buf sourceTokenAmountBuffer),
    ("minimumPoolTokenAmount", .buf minimumPoolTokenAmountBuffer)] data
  let keys : List AccountMeta := [
    { pubkey := tokenSwap, isSigner := false, isWritable := false },
    { pubkey := authority, isSigner := false, isWritable := false },
    { pubkey := userTransferAuthority, isSigner := true, isWritable := false },
    { pubkey := source, isSigner := false, isWritable := true },
    { pubkey := intoA, isSigner := false, isWritable := true },
    { pubkey := intoB, isSigner := false, isWritable := true },
    { pubkey := poolToken, isSigner := false, isWritable := true },
    { pubkey := poolAccount, isSigner := false, isWritable := true },
    { pubkey := tokenProgramId, isSigner := false, isWritable := false }]
  .ok { keys := keys, programId := swapProgramId, data := data }

/-- `TokenSwap.withdrawSingleTokenTypeExactAmountOutInstruction`. -/
def TokenSwap.withdrawSingleTokenTypeExactAmountOutInstruction (tokenSwap authority
    userTransferAuthority poolMint feeAccount sourcePoolAccount fromA fromB userAccount
    swapProgramId tokenProgramId : PublicKey)
    (destinationTokenAmount maximumPoolTokenAmount : Amount) :
    Except String TransactionInstruction := do
  let dataLayout := BufferLayout.struct [
    BufferLayout.u8 "instruction",
    Layout.uint64 "destinationTokenAmount",
    Layout.uint64 "maximumPoolTokenAmount"]
  let data := Buffer.alloc dataLayout.span
  let destinationTokenAmountBuffer ← Numberu64.new destinationTokenAmount >>= BNObject.toBuffer
  let maximumPoolTokenAmountBuffer ← Numberu64.new maximumPoolTokenAmount >>= BNObject.toBuffer
  let (data, _) ← dataLayout.encode [
    ("instruction", .num 5),
    ("destinationTokenAmount", .buf destinationTokenAmountBuffer),
    ("maximumPoolTokenAmount", .buf maximumPoolTokenAmountBuffer)] data
  let keys : List AccountMeta := [
    { pubkey := tokenSwap, isSigner := false, isWritable := false },
    { pubkey := authority, isSigner := false, isWritable := false },
    { pubkey := userTransferAuthority, isSigner := true, isWritable := false },
    { pubkey := poolMint, isSigner := false, isWritable := true },
    { pubkey := sourcePoolAccount, isSigner := false, isWritable := true },
    { pubkey := fromA, isSigner := false, isWritable := true },
    { pubkey := fromB, isSigner := false, isWritable := true },
    { pubkey := userAccount, isSigner := false, isWritable := true },
    { pubkey := feeAccount, isSigner := false, isWritable := true },
    { pubkey := tokenProgramId, isSigner := false, isWritable := false }]
  .ok { keys := keys, programId := swapProgramId, data := data }

/-! ## Reference functions used in the statements -/

/-- The `k` low bytes of `n` as numbers, least significant first:
entry `i` is `n / 256 ^ i % 256`. -/
def leBytes : Nat → Nat → List Nat
  | 0, _ => []
  | k + 1, n => n % 256 :: leBytes k (n / 256)

/-- The unsigned little-endian magnitude of a byte sequence:
the sum of `b[i] * 256 ^ i`. -/
def leValue : Buffer → Nat
  | [] => 0
  | x :: xs => x.val + 256 * leValue xs

/-- The integer `v` as an amount of one of the two documented kinds: given as
a JavaScript number when `asNumber` is true, held by a `Numberu64` otherwise. -/
def Amount.ofInt (asNumber : Bool) (v : Int) : Amount :=
  match asNumber with
  | true => .number v
  | false => .numberu64 ⟨v⟩

/-- The bound on the magnitude of an amount of a documented kind: `2 ^ 53` for
a JavaScript number, `2 ^ 64` for a `Numberu64`. -/
def Amount.limit (asNumber : Bool) : Int :=
  match asNumber with
  | true => 2 ^ 53
  | false => 2 ^ 64

/-- The object that `TokenSwapLayout.decode` gives for the bytes `data` whose
bytes at the offsets 0, 1, 2 and 291 are `v`, `i`, `n` and `c`. -/
def decodedAccount (data : Buffer) (v i n c : Byte) : Obj := [
  ("curveParameters", .buf (data.slice 292 324)),
  ("curveType", .num c.val),
  ("hostFeeDenominator", .buf (data.slice 283 291)),
  ("hostFeeNumerator", .buf (data.slice 275 283)),
  ("ownerWithdrawFeeDenominator", .buf (data.slice 267 275)),
  ("ownerWithdrawFeeNumerator", .buf (data.slice 259 267)),
  ("ownerTradeFeeDenominator", .buf (data.slice 251 259)),
  ("ownerTradeFeeNumerator", .buf (data.slice 243 251)),
  ("tradeFeeDenominator", .buf (data.slice 235 243)),
  ("tradeFeeNumerator", .buf (data.slice 227 235)),
  ("feeAccount", .buf (data.slice 195 227)),
  ("mintB", .buf (data.slice 163 195)),
  ("mintA", .buf (data.slice 131 163)),
  ("tokenPool", .buf (data.slice 99 131)),
  ("tokenAccountB", .buf (data.slice 67 99)),
  ("tokenAccountA", .buf (data.slice 35 67)),
  ("tokenProgramId", .buf (data.slice 3 35)),
  ("nonce", .num n.val),
  ("isInitialized", .num i.val),
  ("version", .num v.val)]

end Client

namespace Client

/-! ## Lemmas on the codec -/

theorem ok_bind {ε α β : Type} (a : α) (f : α → Except ε β) :
    (Except.ok a >>= f) = f a := rfl

theorem error_bind {ε α β : Type} (e : ε) (f : α → Except ε β) :
    (Except.error e >>= f) = Except.error e := rfl

theorem toArrayLoop_eq_digits (fuel : Nat) :
    ∀ q res, q ≤ fuel → toArrayLoop fuel q res = (Nat.digits 256 q).reverse ++ res := by
  induction fuel with
  | zero =>
    intro q res h
    have hq : q = 0 := by omega
    subst hq
    simp [toArrayLoop]
  | succ fuel ih =>
    intro q res h
    by_cases hq : q = 0
    · subst hq
      simp [toArrayLoop]
    · have hlt : q / 256 < q := Nat.div_lt_self (Nat.pos_of_ne_zero hq) (by decide)
      have hd : Nat.digits 256 q = q % 256 :: Nat.digits 256 (q / 256) :=
        Nat.digits_def' (by decide) (Nat.pos_of_ne_zero hq)
      rw [toArrayLoop, if_neg hq, ih _ _ (by omega), hd]
      simp

theorem leBytes_length (k n : Nat) : (leBytes k n).length = k := by
  induction k generalizing n with
  | zero => rfl
  | succ k ih => simp [leBytes, ih]

theorem leBytes_zero (k : Nat) : leBytes k 0 = List.replicate k 0 := by
  induction k with
  | zero => rfl
  | succ k ih => simp [leBytes, ih, List.replicate_succ]

theorem digits_pad (k : Nat) :
    ∀ v, v < 256 ^ k →
      (Nat.digits 256 v).length ≤ k ∧
      Nat.digits 256 v ++ List.replicate (k - (Nat.digits 256 v).length) 0 = leBytes k v := by
  induction k with
  | zero =>
    intro v hv
    have h0 : v = 0 := by simpa using hv
    subst h0
    simp [leBytes]
  | succ k ih =>
    intro v hv
    by_cases h0 : v = 0
    · subst h0
      simp [leBytes_zero]
    · have hd : Nat.digits 256 v = v % 256 :: Nat.digits 256 (v / 256) :=
        Nat.digits_def' (by decide) (Nat.pos_of_ne_zero h0)
      have hdiv : v / 256 < 256 ^ k := by
        rw [Nat.div_lt_iff_lt_mul (by decide)]
        calc v < 256 ^ (k + 1) := hv
          _ = 256 ^ k * 256 := by rw [Nat.pow_succ]
      obtain ⟨hlen, hpad⟩ := ih _ hdiv
      rw [hd]
      refine ⟨by simpa using hlen, ?_⟩
      simp only [List.length_cons, Nat.add_sub_add_right, List.cons_append, leBytes, hpad]

theorem digits_length_gt (k v : Nat) (h : 256 ^ k ≤ v) : k < (Nat.digits 256 v).length := by
  have h1 : v < 256 ^ (Nat.digits 256 v).length := Nat.lt_base_pow_length_digits (by decide)
  exact (Nat.pow_lt_pow_iff_right (by decide)).1 (lt_of_le_of_lt h h1)

theorem toArray_reverse (m : Nat) (h : m ≠ 0) : (BN.toArray m).reverse = Nat.digits 256 m := by
  simp [BN.toArray, h, toArrayLoop_eq_digits m m [] (Nat.le_refl m)]

theorem from_length (a : List Nat) : (Buffer.from a).length = a.length := by
  simp [Buffer.from]

theorem toBuffer_of_lt (x : Numberu64) (h : x.value.natAbs < 2 ^ 64) :
    x.toBuffer = .ok (Buffer.from (leBytes 8 x.value.natAbs)) := by
  by_cases h0 : x.value.natAbs = 0
  · have : x.toBuffer = .ok (Buffer.from (leBytes 8 0)) := by
      unfold Numberu64.toBuffer
      rw [h0]
      decide
    rw [this, h0]
  · obtain ⟨hlen, hpad⟩ := digits_pad 8 x.value.natAbs (by simpa using h)
    unfold Numberu64.toBuffer
    simp only [toArray_reverse _ h0, from_length]
    by_cases h8 : (Nat.digits 256 x.value.natAbs).length = 8
    · rw [if_pos h8]
      rw [← hpad, h8]
      simp
    · have hlt : (Nat.digits 256 x.value.natAbs).length < 8 := by omega
      rw [if_neg h8, if_pos hlt, ← hpad]
      simp only [Buffer.copy, Buffer.alloc, Buffer.from, List.length_replicate, List.length_map,
        List.drop_replicate, List.map_append, List.map_replicate, List.take_zero, List.nil_append,
        Nat.sub_zero, Nat.zero_add]
      rw [List.take_of_length_le (by simpa using hlen)]
      rfl

theorem toBuffer_of_ge (x : Numberu64) (h : 2 ^ 64 ≤ x.value.natAbs) :
    x.toBuffer = .error "Numberu64 too large" := by
  have h0 : x.value.natAbs ≠ 0 := by
    intro h0
    rw [h0] at h
    exact absurd h (by decide)
  have hlen : 8 < (Nat.digits 256 x.value.natAbs).length :=
    digits_length_gt 8 _ (by simpa using h)
  unfold Numberu64.toBuffer
  simp only [toArray_reverse _ h0, from_length]
  rw [if_neg (by omega), if_neg (by omega)]

theorem leBytes_getElem? (k : Nat) :
    ∀ n i, i < k → (leBytes k n)[i]? = some (n / 256 ^ i % 256) := by
  induction k with
  | zero => intro n i h; omega
  | succ k ih =>
    intro n i h
    cases i with
    | zero => simp [leBytes]
    | succ i =>
      simp only [leBytes, List.getElem?_cons_succ]
      rw [ih _ _ (by omega), Nat.pow_succ, Nat.mul_comm, Nat.div_div_eq_div_mul]

theorem leValue_lt (b : Buffer) : leValue b < 256 ^ b.length := by
  induction b with
  | nil => simp [leValue]
  | cons x xs ih =>
    have hx : x.val < 256 := x.isLt
    simp only [leValue, List.length_cons, Nat.pow_succ]
    omega

theorem leValue_from_leBytes (k : Nat) :
    ∀ n, leValue (Buffer.from (leBytes k n)) = n % 256 ^ k := by
  induction k with
  | zero => intro n; simp [leBytes, Buffer.from, leValue, Nat.mod_one]
  | succ k ih =>
    intro n
    have h := ih (n / 256)
    simp only [Buffer.from] at h
    simp only [leBytes, Buffer.from, List.map_cons, leValue, Byte.ofNat, h]
    rw [Nat.pow_succ, Nat.mul_comm (256 ^ k) 256, Nat.mod_mul, Nat.mod_mod]

set_option maxRecDepth 100000 in
theorem hexByte_eq : ∀ x : Byte,
    hexByte x = [Nat.digitChar (x.val / 16), Nat.digitChar (x.val % 16)] := by
  decide

set_option maxRecDepth 100000 in
theorem parseHex4Bits_digitChar : ∀ x : Fin 16,
    parseHex4Bits (Nat.digitChar x.val) = .ok x.val ∧ Nat.digitChar x.val ≠ '-' := by
  decide

theorem parseHex_hexByte (x : Byte) (rest : List Char) (acc : Nat) :
    parseHex (hexByte x ++ rest) acc = parseHex rest (acc * 256 + x.val) := by
  have hx : x.val < 256 := x.isLt
  have hhi := (parseHex4Bits_digitChar ⟨x.val / 16, by omega⟩).1
  have hlo := (parseHex4Bits_digitChar ⟨x.val % 16, by omega⟩).1
  simp only at hhi hlo
  rw [hexByte_eq]
  simp only [List.cons_append, List.nil_append, parseHex, hhi, hlo, ok_bind]
  congr 1
  omega

theorem parseHex_hexBytes (l : Buffer) :
    ∀ acc, parseHex (l.map hexByte).flatten acc
      = .ok (l.foldl (fun a x => a * 256 + x.val) acc) := by
  induction l with
  | nil => intro acc; simp [parseHex]
  | cons x xs ih =>
    intro acc
    simp only [List.map_cons, List.flatten_cons, parseHex_hexByte, ih, List.foldl_cons]

theorem foldl_reverse_eq_leValue (b : Buffer) :
    b.reverse.foldl (fun a x => a * 256 + x.val) 0 = leValue b := by
  rw [List.foldl_reverse]
  induction b with
  | nil => rfl
  | cons x xs ih =>
    simp only [List.foldr_cons, ih, leValue]
    omega

theorem head?_hexBytes (l : Buffer) : (l.map hexByte).flatten.head? ≠ some '-' := by
  cases l with
  | nil => simp
  | cons x xs =>
    have hx : x.val < 256 := x.isLt
    have h := (parseHex4Bits_digitChar ⟨x.val / 16, by omega⟩).2
    simp only at h
    simp only [List.map_cons, List.flatten_cons, hexByte_eq, List.cons_append, List.head?_cons]
    intro hc
    exact h (Option.some.inj hc)

theorem ofHex_hexBytes (b : Buffer) :
    BN.ofHex (b.reverse.map hexByte).flatten = .ok (leValue b : Int) := by
  unfold BN.ofHex
  rw [if_neg (head?_hexBytes _), parseHex_hexBytes, foldl_reverse_eq_leValue]
  rfl

theorem fromBuffer_of_length (b : Buffer) (h : b.length = 8) :
    Numberu64.fromBuffer b = .ok ⟨(leValue b : Int)⟩ := by
  unfold Numberu64.fromBuffer
  rw [if_pos h, ofHex_hexBytes]
  rfl

theorem fromBuffer_of_length_ne (b : Buffer) (h : b.length ≠ 8) :
    Numberu64.fromBuffer b = .error ("Invalid buffer length: " ++ toString b.length) := by
  unfold Numberu64.fromBuffer
  rw [if_neg h]

theorem leValue_eq_sum (b : Buffer) :
    leValue b = ∑ i : Fin b.length, (b.get i).val * 256 ^ i.val := by
  induction b with
  | nil => simp [leValue]
  | cons x xs ih =>
    rw [leValue, ih]
    simp only [List.length_cons]
    rw [Fin.sum_univ_succ, Finset.mul_sum]
    simp only [Fin.val_zero, pow_zero, mul_one, List.get_cons_zero, Fin.val_succ,
      List.get_cons_succ]
    congr 1
    refine Finset.sum_congr rfl (fun i _ => ?_)
    have hg : (x :: xs).get i.succ = xs.get i := rfl
    rw [hg]
    ring

theorem leValue_eq_sum_eight (b : Buffer) (h : b.length = 8) :
    leValue b = ∑ i : Fin 8, (b.get (i.cast h.symm)).val * 256 ^ i.val := by
  rw [leValue_eq_sum]
  exact Fintype.sum_equiv (finCongr h) _ _ (fun i => rfl)

/-! ## Lemmas on the layouts and the instruction builders -/

theorem natAbs_lt_of_nonneg (a : Int) (h0 : 0 ≤ a) : a.natAbs < 2 ^ 64 ↔ a < 2 ^ 64 := by
  obtain ⟨n, rfl⟩ := Int.eq_ofNat_of_zero_le h0
  simp only [Int.natAbs_ofNat]
  norm_cast

theorem decode_tokenSwapLayout (data : Buffer) (v i n c : Byte) (h0 : data[0]? = some v)
    (h1 : data[1]? = some i) (h2 : data[2]? = some n) (h291 : data[291]? = some c) :
    TokenSwapLayout.decode data = .ok [
      ("curveParameters", .buf (data.slice 292 324)),
      ("curveType", .num c.val),
      ("hostFeeDenominator", .buf (data.slice 283 291)),
      ("hostFeeNumerator", .buf (data.slice 275 283)),
      ("ownerWithdrawFeeDenominator", .buf (data.slice 267 275)),
      ("ownerWithdrawFeeNumerator", .buf (data.slice 259 267)),
      ("ownerTradeFeeDenominator", .buf (data.slice 251 259)),
      ("ownerTradeFeeNumerator", .buf (data.slice 243 251)),
      ("tradeFeeDenominator", .buf (data.slice 235 243)),
      ("tradeFeeNumerator", .buf (data.slice 227 235)),
      ("feeAccount", .buf (data.slice 195 227)),
      ("mintB", .buf (data.slice 163 195)),
      ("mintA", .buf (data.slice 131 163)),
      ("tokenPool", .buf (data.slice 99 131)),
      ("tokenAccountB", .buf (data.slice 67 99)),
      ("tokenAccountA", .buf (data.slice 35 67)),
      ("tokenProgramId", .buf (data.slice 3 35)),
      ("nonce", .num n.val),
      ("isInitialized", .num i.val),
      ("version", .num v.val)] := by
  simp only [TokenSwapLayout, Structure.decode, BufferLayout.struct, Layout.publicKey,
    Layout.uint64]
  simp only [Structure.decodeLoop, BufferLayout.decode, BufferLayout.span,
    BufferLayout.property, h0, ok_bind]
  simp only [Nat.zero_add, Nat.reduceAdd, h1, h2, ok_bind]
  rw [h291]
  rfl

theorem write_at_end (pre src : Buffer) (m : Nat) :
    Buffer.write (pre ++ List.replicate m 0) src pre.length
      = (pre ++ src) ++ List.replicate (m - src.length) 0 := by
  unfold Buffer.write
  rw [List.take_left', List.drop_append, List.drop_replicate]
  rfl

theorem leBytes_mod (k : Nat) : ∀ n, leBytes k (n % 256 ^ k) = leBytes k n := by
  induction k with
  | zero => intro n; rfl
  | succ k ih =>
    intro n
    have h1 : n % 256 ^ (k + 1) % 256 = n % 256 := by
      rw [Nat.pow_succ, Nat.mul_comm, Nat.mod_mul_right_mod]
    have h2 : n % 256 ^ (k + 1) / 256 = n / 256 % 256 ^ k := by
      rw [Nat.pow_succ, Nat.mul_comm, Nat.mod_mul_right_div_self]
    simp only [leBytes, h1, h2, ih]

theorem leBytes_add (j k : Nat) :
    ∀ n, leBytes (j + k) n = leBytes j n ++ leBytes k (n / 256 ^ j) := by
  induction j with
  | zero => intro n; simp [leBytes]
  | succ j ih =>
    intro n
    have h : j + 1 + k = (j + k) + 1 := by omega
    rw [h]
    simp only [leBytes, ih, List.cons_append, Nat.div_div_eq_div_mul, Nat.pow_succ]
    rw [Nat.mul_comm 256 (256 ^ j)]

theorem writeUInt32LE_at_end (pre : Buffer) (m v : Nat) (hv : v < 2 ^ 32) (hm : 4 ≤ m) :
    Buffer.writeUInt32LE (pre ++ List.replicate m 0) (v : Int) pre.length
      = .ok ((pre ++ Buffer.from (leBytes 4 v)) ++ List.replicate (m - 4) 0) := by
  have hv' : (v : Int) ≤ 4294967295 := by
    have : v ≤ 4294967295 := by
      have h32 : (2 : Nat) ^ 32 = 4294967296 := by norm_num
      omega
    exact_mod_cast this
  have hbytes : ([Byte.ofNat v, Byte.ofNat (v / 256), Byte.ofNat (v / 65536),
      Byte.ofNat (v / 16777216)] : Buffer) = Buffer.from (leBytes 4 v) := by
    simp only [leBytes, Buffer.from, List.map_cons, List.map_nil, Byte.ofNat, List.cons.injEq,
      Fin.mk.injEq, and_true]
    refine ⟨?_, ?_, ?_, ?_⟩ <;> omega
  unfold Buffer.writeUInt32LE
  rw [if_pos ⟨Int.ofNat_nonneg v, hv', by simp; omega⟩]
  simp only [Int.toNat_ofNat, hbytes]
  rw [write_at_end]
  simp [from_length, leBytes_length]

theorem encode_nu64_at_end (p : String) (pre : Buffer) (m : Nat) (n : Int) (h0 : 0 ≤ n)
    (hn : n < 2 ^ 64) (hm : 8 ≤ m) :
    (BufferLayout.nu64 p).encode (.num n) (pre ++ List.replicate m 0) pre.length
      = .ok ((pre ++ Buffer.from (leBytes 8 n.natAbs)) ++ List.replicate (m - 8) 0, 8) := by
  obtain ⟨v, rfl⟩ := Int.eq_ofNat_of_zero_le h0
  have hv : v < 2 ^ 64 := by exact_mod_cast hn
  have hhi : (v : Int) / 4294967296 = ((v / 4294967296 : Nat) : Int) := by omega
  have hlo : (v : Int) - ((v / 4294967296 : Nat) : Int) * 4294967296
      = ((v % 4294967296 : Nat) : Int) := by
    have := Nat.div_add_mod v 4294967296
    omega
  have hlo32 : v % 4294967296 < 2 ^ 32 := by
    have h32 : (2 : Nat) ^ 32 = 4294967296 := by norm_num
    omega
  have hhi32 : v / 4294967296 < 2 ^ 32 := by
    have h32 : (2 : Nat) ^ 32 = 4294967296 := by norm_num
    have h64 : (2 : Nat) ^ 64 = 18446744073709551616 := by norm_num
    omega
  have hsplit : leBytes 4 (v % 4294967296) ++ leBytes 4 (v / 4294967296) = leBytes 8 v := by
    have h1 := leBytes_mod 4 v
    have h2 := leBytes_add 4 4 v
    have h256 : (256 : Nat) ^ 4 = 4294967296 := by norm_num
    rw [h256] at h1 h2
    rw [h1, h2]
  have hlen : (pre ++ Buffer.from (leBytes 4 (v % 4294967296))).length = pre.length + 4 := by
    simp [from_length, leBytes_length]
  unfold BufferLayout.encode
  simp only [hhi, hlo]
  rw [writeUInt32LE_at_end pre m _ hlo32 (by omega), ok_bind, ← hlen,
    writeUInt32LE_at_end _ (m - 4) _ hhi32 (by omega), ok_bind]
  simp only [Int.natAbs_ofNat, List.append_assoc, Buffer.from, ← List.map_append, hsplit,
    Nat.sub_sub]

theorem encodeLoop_u8 (p : String) (fds : List BufferLayout) (src : Obj) (pre : Buffer)
    (m lo lw : Nat) (n : Int) (hl : src.lookup p = some (.num n)) (h0 : 0 ≤ n)
    (h1 : n ≤ 255) :
    Structure.encodeLoop (BufferLayout.u8 p :: fds) src (pre ++ List.replicate (m + 1) 0)
        pre.length lo lw
      = Structure.encodeLoop fds src
          ((pre ++ [Byte.ofNat n.toNat]) ++ List.replicate m 0)
          (pre ++ [Byte.ofNat n.toNat]).length pre.length 1 := by
  rw [Structure.encodeLoop]
  simp only [BufferLayout.property, hl, BufferLayout.encode, BufferLayout.span]
  rw [if_pos ⟨h0, h1, by simp⟩, ok_bind, write_at_end]
  simp

theorem encodeLoop_nu64 (p : String) (fds : List BufferLayout) (src : Obj) (pre : Buffer)
    (m lo lw : Nat) (n : Int) (hl : src.lookup p = some (.num n)) (h0 : 0 ≤ n)
    (hn : n < 2 ^ 64) :
    Structure.encodeLoop (BufferLayout.nu64 p :: fds) src (pre ++ List.replicate (m + 8) 0)
        pre.length lo lw
      = Structure.encodeLoop fds src
          ((pre ++ Buffer.from (leBytes 8 n.natAbs)) ++ List.replicate m 0)
          (pre ++ Buffer.from (leBytes 8 n.natAbs)).length pre.length 8 := by
  rw [Structure.encodeLoop]
  simp only [BufferLayout.property, hl, BufferLayout.span]
  rw [encode_nu64_at_end p pre (m + 8) n h0 hn (by omega), ok_bind]
  simp [from_length, leBytes_length]

theorem encodeLoop_skip (fd : BufferLayout) (fds : List BufferLayout) (src : Obj) (b : Buffer)
    (off lo lw : Nat) (hl : src.lookup fd.property = none) :
    Structure.encodeLoop (fd :: fds) src b off lo lw
      = Structure.encodeLoop fds src b (off + fd.span) off fd.span := by
  rw [Structure.encodeLoop]
  simp only [hl]

theorem createInitSwapInstruction_eq (tokenSwapAccount : Account) (authority tokenAccountA
    tokenAccountB tokenPool feeAccount tokenAccountPool tokenProgramId swapProgramId : PublicKey)
    (nonce f1 f2 f3 f4 f5 f6 f7 f8 curveType : Int)
    (hn0 : 0 ≤ nonce) (hn : nonce ≤ 255) (hc0 : 0 ≤ curveType) (hc : curveType ≤ 255)
    (h1 : 0 ≤ f1 ∧ f1 < 2 ^ 64) (h2 : 0 ≤ f2 ∧ f2 < 2 ^ 64) (h3 : 0 ≤ f3 ∧ f3 < 2 ^ 64)
    (h4 : 0 ≤ f4 ∧ f4 < 2 ^ 64) (h5 : 0 ≤ f5 ∧ f5 < 2 ^ 64) (h6 : 0 ≤ f6 ∧ f6 < 2 ^ 64)
    (h7 : 0 ≤ f7 ∧ f7 < 2 ^ 64) (h8 : 0 ≤ f8 ∧ f8 < 2 ^ 64) :
    TokenSwap.createInitSwapInstruction tokenSwapAccount authority tokenAccountA tokenAccountB
      tokenPool feeAccount tokenAccountPool tokenProgramId swapProgramId nonce f1 f2 f3 f4 f5 f6
      f7 f8 curveType
    = .ok {
        keys := [
          { pubkey := tokenSwapAccount.publicKey, isSigner := false, isWritable := true },
          { pubkey := authority, isSigner := false, isWritable := false },
          { pubkey := tokenAccountA, isSigner := false, isWritable := false },
          { pubkey := tokenAccountB, isSigner := false, isWritable := false },
          { pubkey := tokenPool, isSigner := false, isWritable := true },
          { pubkey := feeAccount, isSigner := false, isWritable := false },
          { pubkey := tokenAccountPool, isSigner := false, isWritable := true },
          { pubkey := tokenProgramId, isSigner := false, isWritable := false }],
        programId := swapProgramId,
        data := 0 :: Byte.ofNat nonce.toNat ::
          (Buffer.from (leBytes 8 f1.natAbs) ++ (Buffer.from (leBytes 8 f2.natAbs)
          ++ (Buffer.from (leBytes 8 f3.natAbs) ++ (Buffer.from (leBytes 8 f4.natAbs)
          ++ (Buffer.from (leBytes 8 f5.natAbs) ++ (Buffer.from (leBytes 8 f6.natAbs)
          ++ (Buffer.from (leBytes 8 f7.natAbs) ++ (Buffer.from (leBytes 8 f8.natAbs)
          ++ Byte.ofNat curveType.toNat :: List.replicate 32 0)))))))) } := by
  unfold TokenSwap.createInitSwapInstruction
  simp only [Structure.encode, BufferLayout.struct]
  set src : Obj := [
    ("instruction", .num 0),
    ("nonce", .num nonce),
    ("tradeFeeNumerator", .num f1),
    ("tradeFeeDenominator", .num f2),
    ("ownerTradeFeeNumerator", .num f3),
    ("ownerTradeFeeDenominator", .num f4),
    ("ownerWithdrawFeeNumerator", .num f5),
    ("ownerWithdrawFeeDenominator", .num f6),
    ("hostFeeNumerator", .num f7),
    ("hostFeeDenominator", .num f8),
    ("curveType", .num curveType)] with hsrc
  have halloc : Buffer.alloc 1024 = ([] : Buffer) ++ List.replicate (1023 + 1) 0 := rfl
  have hzero : (0 : Nat) = ([] : Buffer).length := rfl
  rw [halloc]
  nth_rewrite 1 [hzero]
  rw [encodeLoop_u8 "instruction" _ src _ _ _ _ 0 rfl (by decide) (by decide),
    encodeLoop_u8 "nonce" _ src _ _ _ _ nonce rfl hn0 hn,
    encodeLoop_nu64 "tradeFeeNumerator" _ src _ _ _ _ f1 rfl h1.1 h1.2,
    encodeLoop_nu64 "tradeFeeDenominator" _ src _ _ _ _ f2 rfl h2.1 h2.2,
    encodeLoop_nu64 "ownerTradeFeeNumerator" _ src _ _ _ _ f3 rfl h3.1 h3.2,
    encodeLoop_nu64 "ownerTradeFeeDenominator" _ src _ _ _ _ f4 rfl h4.1 h4.2,
    encodeLoop_nu64 "ownerWithdrawFeeNumerator" _ src _ _ _ _ f5 rfl h5.1 h5.2,
    encodeLoop_nu64 "ownerWithdrawFeeDenominator" _ src _ _ _ _ f6 rfl h6.1 h6.2,
    encodeLoop_nu64 "hostFeeNumerator" _ src _ _ _ _ f7 rfl h7.1 h7.2,
    encodeLoop_nu64 "hostFeeDenominator" _ src _ _ _ _ f8 rfl h8.1 h8.2,
    encodeLoop_u8 "curveType" _ src _ _ _ _ curveType rfl hc0 hc,
    encodeLoop_skip (BufferLayout.blob 32 "curveParameters") _ src _ _ _ _ rfl]
  rfl

theorem decode_eq_decodedAccount (data : Buffer) (v i n c : Byte) (h0 : data[0]? = some v)
    (h1 : data[1]? = some i) (h2 : data[2]? = some n) (h291 : data[291]? = some c) :
    TokenSwapLayout.decode data = .ok (decodedAccount data v i n c) :=
  decode_tokenSwapLayout data v i n c h0 h1 h2 h291

theorem lookup_decodedAccount (data : Buffer) (v i n c : Byte) :
    List.lookup "isInitialized" (decodedAccount data v i n c) = some (.num i.val) ∧
    valueOf (decodedAccount data v i n c) "curveType" = .ok (.num c.val) ∧
    bufferOf (decodedAccount data v i n c) "tokenProgramId" = .ok (data.slice 3 35) ∧
    bufferOf (decodedAccount data v i n c) "tokenAccountA" = .ok (data.slice 35 67) ∧
    bufferOf (decodedAccount data v i n c) "tokenAccountB" = .ok (data.slice 67 99) ∧
    bufferOf (decodedAccount data v i n c) "tokenPool" = .ok (data.slice 99 131) ∧
    bufferOf (decodedAccount data v i n c) "mintA" = .ok (data.slice 131 163) ∧
    bufferOf (decodedAccount data v i n c) "mintB" = .ok (data.slice 163 195) ∧
    bufferOf (decodedAccount data v i n c) "feeAccount" = .ok (data.slice 195 227) ∧
    bufferOf (decodedAccount data v i n c) "tradeFeeNumerator" = .ok (data.slice 227 235) ∧
    bufferOf (decodedAccount data v i n c) "tradeFeeDenominator" = .ok (data.slice 235 243) ∧
    bufferOf (decodedAccount data v i n c) "ownerTradeFeeNumerator"
      = .ok (data.slice 243 251) ∧
    bufferOf (decodedAccount data v i n c) "ownerTradeFeeDenominator"
      = .ok (data.slice 251 259) ∧
    bufferOf (decodedAccount data v i n c) "ownerWithdrawFeeNumerator"
      = .ok (data.slice 259 267) ∧
    bufferOf (decodedAccount data v i n c) "ownerWithdrawFeeDenominator"
      = .ok (data.slice 267 275) ∧
    bufferOf (decodedAccount data v i n c) "hostFeeNumerator" = .ok (data.slice 275 283) ∧
    bufferOf (decodedAccount data v i n c) "hostFeeDenominator" = .ok (data.slice 283 291) :=
  ⟨rfl, rfl, rfl, rfl, rfl, rfl, rfl, rfl, rfl, rfl, rfl, rfl, rfl, rfl, rfl, rfl, rfl⟩

theorem slice_length (data : Buffer) (start stop : Nat) (h : stop ≤ data.length) :
    (data.slice start stop).length = stop - start := by
  simp [Buffer.slice, Nat.min_eq_left h]

theorem beValue_eq_leValue (b : Buffer) : beValue b = leValue b.reverse := by
  have h := foldl_reverse_eq_leValue b.reverse
  rw [List.reverse_reverse] at h
  exact h

theorem beValue_lt (b : Buffer) : beValue b < 256 ^ b.length := by
  rw [beValue_eq_leValue]
  simpa using leValue_lt b.reverse

theorem new_of_length (b : Buffer) (h : b.length = 32) :
    ∃ k : PublicKey, PublicKey.new b = .ok k ∧ k.bn = beValue b := by
  have hlt : beValue b < 256 ^ 32 := by
    have := beValue_lt b
    rwa [h] at this
  exact ⟨⟨beValue b, hlt⟩, by unfold PublicKey.new; rw [dif_pos hlt], rfl⟩

theorem ofNat_val (x : Byte) : Byte.ofNat x.val = x := by
  apply Fin.ext
  simp only [Byte.ofNat]
  exact Nat.mod_eq_of_lt x.isLt

theorem from_leBytes_leValue (r : Buffer) : Buffer.from (leBytes r.length (leValue r)) = r := by
  induction r with
  | nil => rfl
  | cons x xs ih =>
    have hx : x.val < 256 := x.isLt
    have h1 : (x.val + 256 * leValue xs) % 256 = x.val := by omega
    have h2 : (x.val + 256 * leValue xs) / 256 = leValue xs := by omega
    simp only [List.length_cons, leValue, leBytes, h1, h2, Buffer.from, List.map_cons, ofNat_val]
    simp only [Buffer.from] at ih
    rw [ih]

theorem toBuffer_of_bn (k : PublicKey) (b : Buffer) (h : b.length = 32)
    (hk : k.bn = beValue b) : k.toBuffer = b := by
  have hr : Buffer.from (leBytes 32 k.bn) = b.reverse := by
    have := from_leBytes_leValue b.reverse
    rwa [List.length_reverse, h, ← beValue_eq_leValue, ← hk] at this
  by_cases h0 : k.bn = 0
  · have hz : b = List.replicate 32 0 := by
      rw [h0] at hr
      have : b.reverse = List.replicate 32 0 := by rw [← hr]; decide
      have h2 := congrArg List.reverse this
      rwa [List.reverse_reverse, List.reverse_replicate] at h2
    unfold PublicKey.toBuffer
    rw [h0, hz]
    decide
  · obtain ⟨hlen, hpad⟩ := digits_pad 32 k.bn k.isLt
    have harr : BN.toArray k.bn = (Nat.digits 256 k.bn).reverse := by
      rw [← toArray_reverse k.bn h0, List.reverse_reverse]
    have hb : b = List.replicate (32 - (Nat.digits 256 k.bn).length) 0
        ++ (Buffer.from (Nat.digits 256 k.bn)).reverse := by
      have h2 := congrArg List.reverse hr
      rw [List.reverse_reverse, ← hpad] at h2
      rw [← h2]
      simp only [Buffer.from, List.map_append, List.map_replicate, List.reverse_append,
        List.reverse_replicate]
      rfl
    unfold PublicKey.toBuffer
    simp only [harr, from_length, List.length_reverse]
    by_cases h32 : (Nat.digits 256 k.bn).length = 32
    · rw [if_pos h32, hb, h32]
      simp [Buffer.from]
    · rw [if_neg h32, hb]
      simp only [Buffer.copy, Buffer.alloc, Buffer.from, List.length_replicate,
        List.take_replicate, List.drop_replicate, List.map_reverse, List.length_reverse,
        List.length_map]
      have e1 : min (32 - (Nat.digits 256 k.bn).length) 32
          = 32 - (Nat.digits 256 k.bn).length := by omega
      have e2 : 32 - (32 - (Nat.digits 256 k.bn).length) = (Nat.digits 256 k.bn).length := by
        omega
      have e3 : 32 - (32 - (Nat.digits 256 k.bn).length + (Nat.digits 256 k.bn).length)
          = 0 := by omega
      rw [e1, e2, e3, List.take_of_length_le (by simp)]
      simp

theorem loadTokenSwap_initialized {Connection Account : Type}
    (findProgramAddress : List Buffer → PublicKey → Except String (PublicKey × Nat))
    (connection : Connection) (data : Buffer) (address programId : PublicKey) (payer : Account)
    (authority : PublicKey) (nonce : Nat) (i c : Byte)
    (hlen : 292 ≤ data.length) (hinit : data[1]? = some i) (hne : i ≠ 0)
    (hcurve : data[291]? = some c)
    (hfind : findProgramAddress [address.toBuffer] programId = .ok (authority, nonce)) :
    ∃ t : TokenSwap Connection Account,
      TokenSwap.loadTokenSwap findProgramAddress connection data address programId payer
        = .ok t ∧
      t.connection = connection ∧ t.payer = payer ∧
      t.tokenSwap = address ∧ t.swapProgramId = programId ∧ t.authority = authority ∧
      PublicKey.new (data.slice 3 35) = .ok t.tokenProgramId ∧
      PublicKey.new (data.slice 35 67) = .ok t.tokenAccountA ∧
      PublicKey.new (data.slice 67 99) = .ok t.tokenAccountB ∧
      PublicKey.new (data.slice 99 131) = .ok t.poolToken ∧
      PublicKey.new (data.slice 131 163) = .ok t.mintA ∧
      PublicKey.new (data.slice 163 195) = .ok t.mintB ∧
      PublicKey.new (data.slice 195 227) = .ok t.feeAccount ∧
      Numberu64.fromBuffer (data.slice 227 235) = .ok t.tradeFeeNumerator ∧
      Numberu64.fromBuffer (data.slice 235 243) = .ok t.tradeFeeDenominator ∧
      Numberu64.fromBuffer (data.slice 243 251) = .ok t.ownerTradeFeeNumerator ∧
      Numberu64.fromBuffer (data.slice 251 259) = .ok t.ownerTradeFeeDenominator ∧
      Numberu64.fromBuffer (data.slice 259 267) = .ok t.ownerWithdrawFeeNumerator ∧
      Numberu64.fromBuffer (data.slice 267 275) = .ok t.ownerWithdrawFeeDenominator ∧
      Numberu64.fromBuffer (data.slice 275 283) = .ok t.hostFeeNumerator ∧
      Numberu64.fromBuffer (data.slice 283 291) = .ok t.hostFeeDenominator ∧
      t.curveType = .num c.val := by
  have h0 : data[0]? = some (data[0]) := List.getElem?_eq_getElem (by omega)
  have h2 : data[2]? = some (data[2]) := List.getElem?_eq_getElem (by omega)
  have hs : ∀ start stop, stop ≤ 292 → (data.slice start stop).length = stop - start :=
    fun start stop h => slice_length data start stop (by omega)
  obtain ⟨k1, hk1, -⟩ := new_of_length (data.slice 3 35) (hs _ _ (by decide))
  obtain ⟨k2, hk2, -⟩ := new_of_length (data.slice 35 67) (hs _ _ (by decide))
  obtain ⟨k3, hk3, -⟩ := new_of_length (data.slice 67 99) (hs _ _ (by decide))
  obtain ⟨k4, hk4, -⟩ := new_of_length (data.slice 99 131) (hs _ _ (by decide))
  obtain ⟨k5, hk5, -⟩ := new_of_length (data.slice 131 163) (hs _ _ (by decide))
  obtain ⟨k6, hk6, -⟩ := new_of_length (data.slice 163 195) (hs _ _ (by decide))
  obtain ⟨k7, hk7, -⟩ := new_of_length (data.slice 195 227) (hs _ _ (by decide))
  have hf1 := fromBuffer_of_length (data.slice 227 235) (hs _ _ (by decide))
  have hf2 := fromBuffer_of_length (data.slice 235 243) (hs _ _ (by decide))
  have hf3 := fromBuffer_of_length (data.slice 243 251) (hs _ _ (by decide))
  have hf4 := fromBuffer_of_length (data.slice 251 259) (hs _ _ (by decide))
  have hf5 := fromBuffer_of_length (data.slice 259 267) (hs _ _ (by decide))
  have hf6 := fromBuffer_of_length (data.slice 267 275) (hs _ _ (by decide))
  have hf7 := fromBuffer_of_length (data.slice 275 283) (hs _ _ (by decide))
  have hf8 := fromBuffer_of_length (data.slice 283 291) (hs _ _ (by decide))
  obtain ⟨l0, l1, l2, l3, l4, l5, l6, l7, l8, l9, l10, l11, l12, l13, l14, l15, l16⟩ :=
    lookup_decodedAccount data (data[0]) i (data[2]) c
  have hfalsy : falsy (some (Value.num (i.val : Int))) = false := by
    have hv : i.val ≠ 0 := fun h => hne (Fin.ext h)
    simp only [falsy, beq_eq_false_iff_ne, ne_eq]
    exact_mod_cast hv
  refine ⟨{
      connection := connection, tokenSwap := address, swapProgramId := programId,
      tokenProgramId := k1, poolToken := k4, feeAccount := k7, authority := authority,
      tokenAccountA := k2, tokenAccountB := k3, mintA := k5, mintB := k6,
      tradeFeeNumerator := ⟨(leValue (data.slice 227 235) : Int)⟩,
      tradeFeeDenominator := ⟨(leValue (data.slice 235 243) : Int)⟩,
      ownerTradeFeeNumerator := ⟨(leValue (data.slice 243 251) : Int)⟩,
      ownerTradeFeeDenominator := ⟨(leValue (data.slice 251 259) : Int)⟩,
      ownerWithdrawFeeNumerator := ⟨(leValue (data.slice 259 267) : Int)⟩,
      ownerWithdrawFeeDenominator := ⟨(leValue (data.slice 267 275) : Int)⟩,
      hostFeeNumerator := ⟨(leValue (data.slice 275 283) : Int)⟩,
      hostFeeDenominator := ⟨(leValue (data.slice 283 291) : Int)⟩,
      curveType := .num c.val, payer := payer },
    ?_, rfl, rfl, rfl, rfl, rfl, hk1, hk2, hk3, hk4, hk5, hk6, hk7, hf1, hf2, hf3, hf4,
    hf5, hf6, hf7, hf8, rfl⟩
  unfold TokenSwap.loadTokenSwap
  rw [decode_eq_decodedAccount data _ _ _ _ h0 hinit h2 hcurve, ok_bind, l0, hfalsy]
  simp only [Bool.false_eq_true, ↓reduceIte, hfind, ok_bind, l1, l2, l3, l4, l5, l6, l7, l8, l9,
    l10, l11, l12, l13, l14, l15, l16, hk1, hk2, hk3, hk4, hk5, hk6, hk7, hf1, hf2, hf3, hf4,
    hf5, hf6, hf7, hf8]

theorem toBuffer_natAbs (v : Int) :
    (Numberu64.mk v).toBuffer = (Numberu64.mk (v.natAbs : Int)).toBuffer := by
  unfold Numberu64.toBuffer
  simp only [Int.natAbs_ofNat]

theorem toBuffer_fromBuffer_of_length (b : Buffer) (h : b.length = 8) :
    (Numberu64.mk (leValue b : Int)).toBuffer = .ok b := by
  have hlt : leValue b < 2 ^ 64 := by
    have := leValue_lt b
    rw [h] at this
    simpa using this
  rw [toBuffer_of_lt _ (by simpa using hlt)]
  have hb := from_leBytes_leValue b
  rw [h] at hb
  simp only [Int.natAbs_ofNat, hb]

theorem from_leBytes_get (n i : Nat) (hi : i < (Buffer.from (leBytes 8 n)).length) :
    (((Buffer.from (leBytes 8 n)).get ⟨i, hi⟩).val : Int) = (n : Int) / 256 ^ i % 256 := by
  have hi8 : i < 8 := by simpa [from_length, leBytes_length] using hi
  have hget : (Buffer.from (leBytes 8 n))[i]? = some (Byte.ofNat (n / 256 ^ i % 256)) := by
    simp [Buffer.from, leBytes_getElem? 8 n i hi8]
  have hval : (Buffer.from (leBytes 8 n)).get ⟨i, hi⟩ = Byte.ofNat (n / 256 ^ i % 256) := by
    have h2 := List.getElem?_eq_getElem hi
    rw [hget] at h2
    exact (Option.some.inj h2).symm
  rw [hval]
  simp only [Byte.ofNat, Nat.mod_mod]
  rw [Int.natCast_mod, Int.natCast_div, Int.natCast_pow]
  rfl

theorem decode_of_short (data : Buffer) (h : data[291]? = none) :
    TokenSwapLayout.decode data = .error "RangeError" := by
  simp only [TokenSwapLayout, Structure.decode, BufferLayout.struct, Layout.publicKey,
    Layout.uint64]
  rcases h0 : data[0]? with _ | v
  · simp only [Structure.decodeLoop, BufferLayout.decode, h0]
    rfl
  · rcases h1 : data[1]? with _ | i
    · simp only [Structure.decodeLoop, BufferLayout.decode, BufferLayout.span, h0, ok_bind,
        Nat.zero_add, h1]
      rfl
    · rcases h2 : data[2]? with _ | n
      · simp only [Structure.decodeLoop, BufferLayout.decode, BufferLayout.span, h0, ok_bind,
          Nat.zero_add, Nat.reduceAdd, h1, h2]
        rfl
      · simp only [Structure.decodeLoop, BufferLayout.decode, BufferLayout.span, h0, ok_bind,
          Nat.zero_add, Nat.reduceAdd, h1, h2]
        rw [h]
        rfl

theorem decode_error_iff (data : Buffer) :
    (∃ e, TokenSwapLayout.decode data = .error e) ↔ data.length < 292 := by
  constructor
  · rintro ⟨e, he⟩
    by_contra hge
    have h0 : data[0]? = some (data[0]) := List.getElem?_eq_getElem (by omega)
    have h1 : data[1]? = some (data[1]) := List.getElem?_eq_getElem (by omega)
    have h2 : data[2]? = some (data[2]) := List.getElem?_eq_getElem (by omega)
    have h291 : data[291]? = some (data[291]) := List.getElem?_eq_getElem (by omega)
    rw [decode_tokenSwapLayout data _ _ _ _ h0 h1 h2 h291] at he
    exact Except.noConfusion he
  · intro hlt
    exact ⟨_, decode_of_short data (List.getElem?_eq_none (by omega))⟩

theorem encode_u8_error (p : String) (n : Int) (h : n < 0 ∨ 255 < n) (b : Buffer) (off : Nat) :
    (BufferLayout.u8 p).encode (.num n) b off = .error "RangeError" := by
  unfold BufferLayout.encode
  simp only
  rw [if_neg (by omega)]

theorem writeUInt32LE_error (b : Buffer) (v : Int) (off : Nat)
    (h : v < 0 ∨ 4294967295 < v) : b.writeUInt32LE v off = .error "RangeError" := by
  unfold Buffer.writeUInt32LE
  rw [if_neg (by omega)]

theorem writeUInt32LE_cases (b : Buffer) (v : Int) (off : Nat) :
    b.writeUInt32LE v off = .error "RangeError" ∨ ∃ b1, b.writeUInt32LE v off = .ok b1 := by
  unfold Buffer.writeUInt32LE
  by_cases hc : 0 ≤ v ∧ v ≤ 4294967295 ∧ off + 4 ≤ b.length
  · rw [if_pos hc]
    exact Or.inr ⟨_, rfl⟩
  · rw [if_neg hc]
    exact Or.inl rfl

theorem encode_nu64_error (p : String) (n : Int) (h : n < 0 ∨ 2 ^ 64 ≤ n) (b : Buffer)
    (off : Nat) : (BufferLayout.nu64 p).encode (.num n) b off = .error "RangeError" := by
  have h64 : (2 : Int) ^ 64 = 18446744073709551616 := by norm_num
  rw [h64] at h
  have hhi : n / 4294967296 < 0 ∨ 4294967295 < n / 4294967296 := by omega
  unfold BufferLayout.encode
  simp only
  rcases writeUInt32LE_cases b (n - n / 4294967296 * 4294967296) off with he | ⟨b1, hb1⟩
  · rw [he]
    rfl
  · rw [hb1, ok_bind, writeUInt32LE_error b1 _ _ hhi]
    rfl

theorem encodeLoop_error (src : Obj) (fd : BufferLayout) (fv : Value)
    (hl : src.lookup fd.property = some fv)
    (hfail : ∀ b off, fd.encode fv b off = .error "RangeError") (fds : List BufferLayout) :
    fd ∈ fds → ∀ b off lo lw, ∃ e, Structure.encodeLoop fds src b off lo lw = .error e := by
  induction fds with
  | nil => intro hmem; exact absurd hmem (List.not_mem_nil _)
  | cons fd1 rest ih =>
    intro hmem b off lo lw
    rw [Structure.encodeLoop]
    by_cases heq : fd = fd1
    · subst heq
      simp only [hl, hfail]
      exact ⟨_, rfl⟩
    · have hrest : fd ∈ rest := by
        rcases List.mem_cons.1 hmem with h | h
        · exact absurd h heq
        · exact h
      cases hl1 : src.lookup fd1.property with
      | none => exact ih hrest _ _ _ _
      | some fv1 =>
        simp only
        cases he : fd1.encode fv1 b off with
        | error e => exact ⟨e, rfl⟩
        | ok r => exact ih hrest _ _ _ _

theorem createInitSwapInstruction_error (tokenSwapAccount : Account) (authority tokenAccountA
    tokenAccountB tokenPool feeAccount tokenAccountPool tokenProgramId swapProgramId : PublicKey)
    (nonce f1 f2 f3 f4 f5 f6 f7 f8 curveType : Int)
    (h : (nonce < 0 ∨ 255 < nonce) ∨ (curveType < 0 ∨ 255 < curveType) ∨
      ∃ f ∈ [f1, f2, f3, f4, f5, f6, f7, f8], f < 0 ∨ 2 ^ 64 ≤ f) :
    ∃ e, TokenSwap.createInitSwapInstruction tokenSwapAccount authority tokenAccountA
      tokenAccountB tokenPool feeAccount tokenAccountPool tokenProgramId swapProgramId nonce f1
      f2 f3 f4 f5 f6 f7 f8 curveType = .error e := by
  unfold TokenSwap.createInitSwapInstruction
  simp only [Structure.encode, BufferLayout.struct]
  set src : Obj := [
    ("instruction", .num 0),
    ("nonce", .num nonce),
    ("tradeFeeNumerator", .num f1),
    ("tradeFeeDenominator", .num f2),
    ("ownerTradeFeeNumerator", .num f3),
    ("ownerTradeFeeDenominator", .num f4),
    ("ownerWithdrawFeeNumerator", .num f5),
    ("ownerWithdrawFeeDenominator", .num f6),
    ("hostFeeNumerator", .num f7),
    ("hostFeeDenominator", .num f8),
    ("curveType", .num curveType)] with hsrc
  set fields : List BufferLayout := [
    BufferLayout.u8 "instruction",
    BufferLayout.u8 "nonce",
    BufferLayout.nu64 "tradeFeeNumerator",
    BufferLayout.nu64 "tradeFeeDenominator",
    BufferLayout.nu64 "ownerTradeFeeNumerator",
    BufferLayout.nu64 "ownerTradeFeeDenominator",
    BufferLayout.nu64 "ownerWithdrawFeeNumerator",
    BufferLayout.nu64 "ownerWithdrawFeeDenominator",
    BufferLayout.nu64 "hostFeeNumerator",
    BufferLayout.nu64 "hostFeeDenominator",
    BufferLayout.u8 "curveType",
    BufferLayout.blob 32 "curveParameters"] with hfields
  suffices hs : ∃ e, Structure.encodeLoop fields src (Buffer.alloc 1024) 0 0 0 = .error e by
    obtain ⟨e, he⟩ := hs
    rw [he]
    exact ⟨e, rfl⟩
  have key : ∀ (fd : BufferLayout) (fv : Value), src.lookup fd.property = some fv →
      (∀ b off, fd.encode fv b off = .error "RangeError") → fd ∈ fields →
      ∃ e, Structure.encodeLoop fields src (Buffer.alloc 1024) 0 0 0 = .error e :=
    fun fd fv hl hfail hmem => encodeLoop_error src fd fv hl hfail fields hmem _ 0 0 0
  rcases h with hn | hc | ⟨f, hf, hbad⟩
  · exact key (BufferLayout.u8 "nonce") (.num nonce) rfl (encode_u8_error _ _ hn) (by rw [hfields]; simp)
  · exact key (BufferLayout.u8 "curveType") (.num curveType) rfl (encode_u8_error _ _ hc)
      (by rw [hfields]; simp)
  · simp only [List.mem_cons, List.mem_singleton, List.not_mem_nil, or_false] at hf
    rcases hf with rfl | rfl | rfl | rfl | rfl | rfl | rfl | rfl
    · exact key (BufferLayout.nu64 "tradeFeeNumerator") (.num f) rfl
        (encode_nu64_error _ _ hbad) (by rw [hfields]; simp)
    · exact key (BufferLayout.nu64 "tradeFeeDenominator") (.num f) rfl
        (encode_nu64_error _ _ hbad) (by rw [hfields]; simp)
    · exact key (BufferLayout.nu64 "ownerTradeFeeNumerator") (.num f) rfl
        (encode_nu64_error _ _ hbad) (by rw [hfields]; simp)
    · exact key (BufferLayout.nu64 "ownerTradeFeeDenominator") (.num f) rfl
        (encode_nu64_error _ _ hbad) (by rw [hfields]; simp)
    · exact key (BufferLayout.nu64 "ownerWithdrawFeeNumerator") (.num f) rfl
        (encode_nu64_error _ _ hbad) (by rw [hfields]; simp)
    · exact key (BufferLayout.nu64 "ownerWithdrawFeeDenominator") (.num f) rfl
        (encode_nu64_error _ _ hbad) (by rw [hfields]; simp)
    · exact key (BufferLayout.nu64 "hostFeeNumerator") (.num f) rfl
        (encode_nu64_error _ _ hbad) (by rw [hfields]; simp)
    · exact key (BufferLayout.nu64 "hostFeeDenominator") (.num f) rfl
        (encode_nu64_error _ _ hbad) (by rw [hfields]; simp)

theorem createInitSwapInstruction_valid (tokenSwapAccount : Account) (authority tokenAccountA
    tokenAccountB tokenPool feeAccount tokenAccountPool tokenProgramId swapProgramId : PublicKey)
    (nonce f1 f2 f3 f4 f5 f6 f7 f8 curveType : Int) (i : TransactionInstruction)
    (h : TokenSwap.createInitSwapInstruction tokenSwapAccount authority tokenAccountA
      tokenAccountB tokenPool feeAccount tokenAccountPool tokenProgramId swapProgramId nonce f1
      f2 f3 f4 f5 f6 f7 f8 curveType = .ok i) :
    (0 ≤ nonce ∧ nonce ≤ 255) ∧ (0 ≤ curveType ∧ curveType ≤ 255) ∧
      ∀ f ∈ [f1, f2, f3, f4, f5, f6, f7, f8], 0 ≤ f ∧ f < 2 ^ 64 := by
  have hno : ¬((nonce < 0 ∨ 255 < nonce) ∨ (curveType < 0 ∨ 255 < curveType) ∨
      ∃ f ∈ [f1, f2, f3, f4, f5, f6, f7, f8], f < 0 ∨ 2 ^ 64 ≤ f) := by
    intro hbad
    obtain ⟨e, he⟩ := createInitSwapInstruction_error tokenSwapAccount authority tokenAccountA
      tokenAccountB tokenPool feeAccount tokenAccountPool tokenProgramId swapProgramId nonce f1
      f2 f3 f4 f5 f6 f7 f8 curveType hbad
    rw [h] at he
    exact Except.noConfusion he
  refine ⟨?_, ?_, ?_⟩
  · constructor
    · by_contra hc
      exact hno (Or.inl (Or.inl (lt_of_not_le hc)))
    · by_contra hc
      exact hno (Or.inl (Or.inr (lt_of_not_le hc)))
  · constructor
    · by_contra hc
      exact hno (Or.inr (Or.inl (Or.inl (lt_of_not_le hc))))
    · by_contra hc
      exact hno (Or.inr (Or.inl (Or.inr (lt_of_not_le hc))))
  · intro f hf
    constructor
    · by_contra hc
      exact hno (Or.inr (Or.inr ⟨f, hf, Or.inl (lt_of_not_le hc)⟩))
    · by_contra hc
      exact hno (Or.inr (Or.inr ⟨f, hf, Or.inr (le_of_not_lt hc)⟩))

theorem length_eight (b : Buffer) (h : b.length = 8) :
    ∃ b0 b1 b2 b3 b4 b5 b6 b7 : Byte, b = [b0, b1, b2, b3, b4, b5, b6, b7] := by
  match b, h with
  | [b0, b1, b2, b3, b4, b5, b6, b7], _ => exact ⟨b0, b1, b2, b3, b4, b5, b6, b7, rfl⟩

theorem result_cases_any {α : Type} (r : Except String α) (P : Prop) (x : α)
    (hok : ¬P → r = .ok x) (herr : P → ∃ e, r = .error e) :
    ((∃ e, r = .error e) ↔ P) ∧ ∀ i, r = .ok i → ¬P ∧ i = x := by
  by_cases hP : P
  · obtain ⟨e, he⟩ := herr hP
    rw [he]
    refine ⟨⟨fun _ => hP, fun _ => ⟨_, rfl⟩⟩, ?_⟩
    intro i hi
    exact Except.noConfusion hi
  · rw [hok hP]
    refine ⟨⟨?_, fun h => absurd h hP⟩, ?_⟩
    · rintro ⟨e, he⟩
      exact Except.noConfusion he
    · intro i hi
      cases hi
      exact ⟨hP, rfl⟩

theorem limit_le (k : Bool) : Amount.limit k ≤ 2 ^ 64 := by
  cases k <;> simp only [Amount.limit] <;> norm_num

theorem amount_ok (k : Bool) (v : Int) (h : (v.natAbs : Int) < Amount.limit k) :
    (Numberu64.new (Amount.ofInt k v) >>= BNObject.toBuffer)
      = .ok (Buffer.from (leBytes 8 v.natAbs)) := by
  cases k with
  | true =>
    have h53 : v.natAbs < 2 ^ 53 := by
      simp only [Amount.limit] at h
      exact_mod_cast h
    have h64 : v.natAbs < 2 ^ 64 := lt_trans h53 (by norm_num)
    simp only [Amount.ofInt, Numberu64.new, if_pos h53, ok_bind, BNObject.toBuffer]
    exact toBuffer_of_lt ⟨v⟩ h64
  | false =>
    have h64 : v.natAbs < 2 ^ 64 := by
      simp only [Amount.limit] at h
      exact_mod_cast h
    simp only [Amount.ofInt, Numberu64.new, ok_bind, BNObject.toBuffer]
    exact toBuffer_of_lt ⟨v⟩ h64

theorem amount_error (k : Bool) (v : Int) (h : Amount.limit k ≤ (v.natAbs : Int)) :
    ∃ e, (Numberu64.new (Amount.ofInt k v) >>= BNObject.toBuffer) = .error e := by
  cases k with
  | true =>
    have h53 : ¬ v.natAbs < 2 ^ 53 := by
      simp only [Amount.limit] at h
      have : (2 : Nat) ^ 53 ≤ v.natAbs := by exact_mod_cast h
      omega
    simp only [Amount.ofInt, Numberu64.new, if_neg h53]
    exact ⟨_, rfl⟩
  | false =>
    have h64 : 2 ^ 64 ≤ v.natAbs := by
      simp only [Amount.limit] at h
      exact_mod_cast h
    simp only [Amount.ofInt, Numberu64.new, ok_bind, BNObject.toBuffer]
    exact ⟨_, toBuffer_of_ge ⟨v⟩ h64⟩

theorem amount_natAbs (k : Bool) (v : Int) :
    (Numberu64.new (Amount.ofInt k v) >>= BNObject.toBuffer)
      = (Numberu64.new (Amount.ofInt k (v.natAbs : Int)) >>= BNObject.toBuffer) := by
  cases k with
  | true =>
    simp only [Amount.ofInt, Numberu64.new, Int.natAbs_ofNat]
    by_cases h53 : v.natAbs < 2 ^ 53
    · simp only [if_pos h53, ok_bind, BNObject.toBuffer]
      exact toBuffer_natAbs v
    · simp only [if_neg h53]
  | false =>
    simp only [Amount.ofInt, Numberu64.new, ok_bind, BNObject.toBuffer]
    exact toBuffer_natAbs v

theorem swapInstruction_eq (tokenSwap authority userTransferAuthority userSource poolSource
    poolDestination userDestination poolMint feeAccount : PublicKey)
    (hostFeeAccount : Option PublicKey) (swapProgramId tokenProgramId : PublicKey)
    (amountIn minimumAmountOut : Amount) (ea eb : Buffer)
    (ha : (Numberu64.new amountIn >>= BNObject.toBuffer) = .ok ea)
    (hb : (Numberu64.new minimumAmountOut >>= BNObject.toBuffer) = .ok eb)
    (hla : ea.length = 8) (hlb : eb.length = 8) :
    TokenSwap.swapInstruction tokenSwap authority userTransferAuthority userSource poolSource
      poolDestination userDestination poolMint feeAccount hostFeeAccount swapProgramId
      tokenProgramId amountIn minimumAmountOut
    = .ok {
        keys := [
          { pubkey := tokenSwap, isSigner := false, isWritable := false },
          { pubkey := authority, isSigner := false, isWritable := false },
          { pubkey := userTransferAuthority, isSigner := true, isWritable := false },
          { pubkey := userSource, isSigner := false, isWritable := true },
          { pubkey := poolSource, isSigner := false, isWritable := true },
          { pubkey := poolDestination, isSigner := false, isWritable := true },
          { pubkey := userDestination, isSigner := false, isWritable := true },
          { pubkey := poolMint, isSigner := false, isWritable := true },
          { pubkey := feeAccount, isSigner := false, isWritable := true },
          { pubkey := tokenProgramId, isSigner := false, isWritable := false }]
          ++ (match hostFeeAccount with
              | some h => [{ pubkey := h, isSigner := false, isWritable := true }]
              | none => []),
        programId := swapProgramId,
        data := 1 :: (ea ++ eb) } := by
  obtain ⟨a0, a1, a2, a3, a4, a5, a6, a7, rfl⟩ := length_eight ea hla
  obtain ⟨b0, b1, b2, b3, b4, b5, b6, b7, rfl⟩ := length_eight eb hlb
  unfold TokenSwap.swapInstruction
  rw [ha, hb]
  cases hostFeeAccount <;> rfl

theorem swapInstruction_error (tokenSwap authority userTransferAuthority userSource poolSource
    poolDestination userDestination poolMint feeAccount : PublicKey)
    (hostFeeAccount : Option PublicKey) (swapProgramId tokenProgramId : PublicKey)
    (amountIn minimumAmountOut : Amount)
    (h : (∃ e, (Numberu64.new amountIn >>= BNObject.toBuffer) = .error e) ∨
      ∃ e, (Numberu64.new minimumAmountOut >>= BNObject.toBuffer) = .error e) :
    ∃ e, TokenSwap.swapInstruction tokenSwap authority userTransferAuthority userSource
      poolSource poolDestination userDestination poolMint feeAccount hostFeeAccount
      swapProgramId tokenProgramId amountIn minimumAmountOut = .error e := by
  unfold TokenSwap.swapInstruction
  cases ha : (Numberu64.new amountIn >>= BNObject.toBuffer) with
  | error e => exact ⟨e, rfl⟩
  | ok ea =>
    rcases h with ⟨e, he⟩ | ⟨e, he⟩
    · rw [ha] at he
      exact Except.noConfusion he
    · rw [he]
      exact ⟨e, rfl⟩

theorem depositAllTokenTypesInstruction_eq (tokenSwap authority userTransferAuthority sourceA
    sourceB intoA intoB poolToken poolAccount swapProgramId tokenProgramId : PublicKey)
    (poolTokenAmount maximumTokenA maximumTokenB : Amount) (ea eb ec : Buffer)
    (ha : (Numberu64.new poolTokenAmount >>= BNObject.toBuffer) = .ok ea)
    (hb : (Numberu64.new maximumTokenA >>= BNObject.toBuffer) = .ok eb)
    (hc : (Numberu64.new maximumTokenB >>= BNObject.toBuffer) = .ok ec)
    (hla : ea.length = 8) (hlb : eb.length = 8) (hlc : ec.length = 8) :
    TokenSwap.depositAllTokenTypesInstruction tokenSwap authority userTransferAuthority sourceA
      sourceB intoA intoB poolToken poolAccount swapProgramId tokenProgramId
      poolTokenAmount maximumTokenA maximumTokenB
    = .ok {
        keys := [
          { pubkey := tokenSwap, isSigner := false, isWritable := false },
          { pubkey := authority, isSigner := false, isWritable := false },
          { pubkey := userTransferAuthority, isSigner := true, isWritable := false },
          { pubkey := sourceA, isSigner := false, isWritable := true },
          { pubkey := sourceB, isSigner := false, isWritable := true },
          { pubkey := intoA, isSigner := false, isWritable := true },
          { pubkey := intoB, isSigner := false, isWritable := true },
          { pubkey := poolToken, isSigner := false, isWritable := true },
          { pubkey := poolAccount, isSigner := false, isWritable := true },
          { pubkey := tokenProgramId, isSigner := false, isWritable := false }],
        programId := swapProgramId,
        data := 2 :: (ea ++ (eb ++ ec)) } := by
  obtain ⟨a0, a1, a2, a3, a4, a5, a6, a7, rfl⟩ := length_eight ea hla
  obtain ⟨b0, b1, b2, b3, b4, b5, b6, b7, rfl⟩ := length_eight eb hlb
  obtain ⟨c0, c1, c2, c3, c4, c5, c6, c7, rfl⟩ := length_eight ec hlc
  unfold TokenSwap.depositAllTokenTypesInstruction
  rw [ha, hb, hc]
  rfl

theorem depositAllTokenTypesInstruction_error (tokenSwap authority userTransferAuthority sourceA
    sourceB intoA intoB poolToken poolAccount swapProgramId tokenProgramId : PublicKey)
    (poolTokenAmount maximumTokenA maximumTokenB : Amount)
    (h : (∃ e, (Numberu64.new poolTokenAmount >>= BNObject.toBuffer) = .error e) ∨
      (∃ e, (Numberu64.new maximumTokenA >>= BNObject.toBuffer) = .error e) ∨
      (∃ e, (Numberu64.new maximumTokenB >>= BNObject.toBuffer) = .error e)) :
    ∃ e, TokenSwap.depositAllTokenTypesInstruction tokenSwap authority userTransferAuthority sourceA
      sourceB intoA intoB poolToken poolAccount swapProgramId tokenProgramId
      poolTokenAmount maximumTokenA maximumTokenB = .error e := by
  unfold TokenSwap.depositAllTokenTypesInstruction
  cases ha : (Numberu64.new poolTokenAmount >>= BNObject.toBuffer) with
  | error e => exact ⟨e, rfl⟩
  | ok ea =>
    cases hb : (Numberu64.new maximumTokenA >>= BNObject.toBuffer) with
    | error e => exact ⟨e, rfl⟩
    | ok eb =>
      rcases h with ⟨e, he⟩ | ⟨e, he⟩ | ⟨e, he⟩
      · rw [ha] at he
        exact Except.noConfusion he
      · rw [hb] at he
        exact Except.noConfusion he
      · rw [he]
        exact ⟨e, rfl⟩

theorem withdrawAllTokenTypesInstruction_eq (tokenSwap authority userTransferAuthority
    poolMint feeAccount sourcePoolAccount fromA fromB userAccountA userAccountB swapProgramId
    tokenProgramId : PublicKey)
    (poolTokenAmount minimumTokenA minimumTokenB : Amount) (ea eb ec : Buffer)
    (ha : (Numberu64.new poolTokenAmount >>= BNObject.toBuffer) = .ok ea)
    (hb : (Numberu64.new minimumTokenA >>= BNObject.toBuffer) = .ok eb)
    (hc : (Numberu64.new minimumTokenB >>= BNObject.toBuffer) = .ok ec)
    (hla : ea.length = 8) (hlb : eb.length = 8) (hlc : ec.length = 8) :
    TokenSwap.withdrawAllTokenTypesInstruction tokenSwap authority userTransferAuthority poolMint
      feeAccount sourcePoolAccount fromA fromB userAccountA userAccountB swapProgramId
      tokenProgramId
      poolTokenAmount minimumTokenA minimumTokenB
    = .ok {
        keys := [
          { pubkey := tokenSwap, isSigner := false, isWritable := false },
          { pubkey := authority, isSigner := false, isWritable := false },
          { pubkey := userTransferAuthority, isSigner := true, isWritable := false },
          { pubkey := poolMint, isSigner := false, isWritable := true },
          { pubkey := sourcePoolAccount, isSigner := false, isWritable := true },
          { pubkey := fromA, isSigner := false, isWritable := true },
          { pubkey := fromB, isSigner := false, isWritable := true },
          { pubkey := userAccountA, isSigner := false, isWritable := true },
          { pubkey := userAccountB, isSigner := false, isWritable := true },
          { pubkey := feeAccount, isSigner := false, isWritable := true },
          { pubkey := tokenProgramId, isSigner := false, isWritable := false }],
        programId := swapProgramId,
        data := 3 :: (ea ++ (eb ++ ec)) } := by
  obtain ⟨a0, a1, a2, a3, a4, a5, a6, a7, rfl⟩ := length_eight ea hla
  obtain ⟨b0, b1, b2, b3, b4, b5, b6, b7, rfl⟩ := length_eight eb hlb
  obtain ⟨c0, c1, c2, c3, c4, c5, c6, c7, rfl⟩ := length_eight ec hlc
  unfold TokenSwap.withdrawAllTokenTypesInstruction
  rw [ha, hb, hc]
  rfl

theorem withdrawAllTokenTypesInstruction_error (tokenSwap authority userTransferAuthority
    poolMint feeAccount sourcePoolAccount fromA fromB userAccountA userAccountB swapProgramId
    tokenProgramId : PublicKey)
    (poolTokenAmount minimumTokenA minimumTokenB : Amount)
    (h : (∃ e, (Numberu64.new poolTokenAmount >>= BNObject.toBuffer) = .error e) ∨
      (∃ e, (Numberu64.new minimumTokenA >>= BNObject.toBuffer) = .error e) ∨
      (∃ e, (Numberu64.new minimumTokenB >>= BNObject.toBuffer) = .error e)) :
    ∃ e, TokenSwap.withdrawAllTokenTypesInstruction tokenSwap authority userTransferAuthority
      poolMint
      feeAccount sourcePoolAccount fromA fromB userAccountA userAccountB swapProgramId
      tokenProgramId
      poolTokenAmount minimumTokenA minimumTokenB = .error e := by
  unfold TokenSwap.withdrawAllTokenTypesInstruction
  cases ha : (Numberu64.new poolTokenAmount >>= BNObject.toBuffer) with
  | error e => exact ⟨e, rfl⟩
  | ok ea =>
    cases hb : (Numberu64.new minimumTokenA >>= BNObject.toBuffer) with
    | error e => exact ⟨e, rfl⟩
    | ok eb =>
      rcases h with ⟨e, he⟩ | ⟨e, he⟩ | ⟨e, he⟩
      · rw [ha] at he
        exact Except.noConfusion he
      · rw [hb] at he
        exact Except.noConfusion he
      · rw [he]
        exact ⟨e, rfl⟩

theorem depositSingleTokenTypeExactAmountInInstruction_eq (tokenSwap authority
    userTransferAuthority source intoA intoB poolToken poolAccount swapProgramId
    tokenProgramId : PublicKey)
    (sourceTokenAmount minimumPoolTokenAmount : Amount) (ea eb : Buffer)
    (ha : (Numberu64.new sourceTokenAmount >>= BNObject.toBuffer) = .ok ea)
    (hb : (Numberu64.new minimumPoolTokenAmount >>= BNObject.toBuffer) = .ok eb)
    (hla : ea.length = 8) (hlb : eb.length = 8) :
    TokenSwap.depositSingleTokenTypeExactAmountInInstruction tokenSwap authority
      userTransferAuthority source intoA intoB poolToken poolAccount swapProgramId tokenProgramId
      sourceTokenAmount minimumPoolTokenAmount
    = .ok {
        keys := [
          { pubkey := tokenSwap, isSigner := false, isWritable := false },
          { pubkey := authority, isSigner := false, isWritable := false },
          { pubkey := userTransferAuthority, isSigner := true, isWritable := false },
          { pubkey := source, isSigner := false, isWritable := true },
          { pubkey := intoA, isSigner := false, isWritable := true },
          { pubkey := intoB, isSigner := false, isWritable := true },
          { pubkey := poolToken, isSigner := false, isWritable := true },
          { pubkey := poolAccount, isSigner := false, isWritable := true },
          { pubkey := tokenProgramId, isSigner := false, isWritable := false }],
        programId := swapProgramId,
        data := 4 :: (ea ++ eb) } := by
  obtain ⟨a0, a1, a2, a3, a4, a5, a6, a7, rfl⟩ := length_eight ea hla
  obtain ⟨b0, b1, b2, b3, b4, b5, b6, b7, rfl⟩ := length_eight eb hlb
  unfold TokenSwap.depositSingleTokenTypeExactAmountInInstruction
  rw [ha, hb]
  rfl

theorem depositSingleTokenTypeExactAmountInInstruction_error (tokenSwap authority
    userTransferAuthority source intoA intoB poolToken poolAccount swapProgramId
    tokenProgramId : PublicKey)
    (sourceTokenAmount minimumPoolTokenAmount : Amount)
    (h : (∃ e, (Numberu64.new sourceTokenAmount >>= BNObject.toBuffer) = .error e) ∨
      (∃ e, (Numberu64.new minimumPoolTokenAmount >>= BNObject.toBuffer) = .error e)) :
    ∃ e, TokenSwap.depositSingleTokenTypeExactAmountInInstruction tokenSwap authority
      userTransferAuthority source intoA intoB poolToken poolAccount swapProgramId tokenProgramId
      sourceTokenAmount minimumPoolTokenAmount = .error e := by
  unfold TokenSwap.depositSingleTokenTypeExactAmountInInstruction
  cases ha : (Numberu64.new sourceTokenAmount >>= BNObject.toBuffer) with
  | error e => exact ⟨e, rfl⟩
  | ok ea =>
    rcases h with ⟨e, he⟩ | ⟨e, he⟩
    · rw [ha] at he
      exact Except.noConfusion he
    · rw [he]
      exact ⟨e, rfl⟩

theorem withdrawSingleTokenTypeExactAmountOutInstruction_eq (tokenSwap authority
    userTransferAuthority poolMint feeAccount sourcePoolAccount fromA fromB userAccount
    swapProgramId tokenProgramId : PublicKey)
    (destinationTokenAmount maximumPoolTokenAmount : Amount) (ea eb : Buffer)
    (ha : (Numberu64.new destinationTokenAmount >>= BNObject.toBuffer) = .ok ea)
    (hb : (Numberu64.new maximumPoolTokenAmount >>= BNObject.toBuffer) = .ok eb)
    (hla : ea.length = 8) (hlb : eb.length = 8) :
    TokenSwap.withdrawSingleTokenTypeExactAmountOutInstruction tokenSwap authority
      userTransferAuthority poolMint feeAccount sourcePoolAccount fromA fromB userAccount
      swapProgramId tokenProgramId
      destinationTokenAmount maximumPoolTokenAmount
    = .ok {
        keys := [
          { pubkey := tokenSwap, isSigner := false, isWritable := false },
          { pubkey := authority, isSigner := false, isWritable := false },
          { pubkey := userTransferAuthority, isSigner := true, isWritable := false },
          { pubkey := poolMint, isSigner := false, isWritable := true },
          { pubkey := sourcePoolAccount, isSigner := false, isWritable := true },
          { pubkey := fromA, isSigner := false, isWritable := true },
          { pubkey := fromB, isSigner := false, isWritable := true },
          { pubkey := userAccount, isSigner := false, isWritable := true },
          { pubkey := feeAccount, isSigner := false, isWritable := true },
          { pubkey := tokenProgramId, isSigner := false, isWritable := false }],
        programId := swapProgramId,
        data := 5 :: (ea ++ eb) } := by
  obtain ⟨a0, a1, a2, a3, a4, a5, a6, a7, rfl⟩ := length_eight ea hla
  obtain ⟨b0, b1, b2, b3, b4, b5, b6, b7, rfl⟩ := length_eight eb hlb
  unfold TokenSwap.withdrawSingleTokenTypeExactAmountOutInstruction
  rw [ha, hb]
  rfl

theorem withdrawSingleTokenTypeExactAmountOutInstruction_error (tokenSwap authority
    userTransferAuthority poolMint feeAccount sourcePoolAccount fromA fromB userAccount
    swapProgramId tokenProgramId : PublicKey)
    (destinationTokenAmount maximumPoolTokenAmount : Amount)
    (h : (∃ e, (Numberu64.new destinationTokenAmount >>= BNObject.toBuffer) = .error e) ∨
      (∃ e, (Numberu64.new maximumPoolTokenAmount >>= BNObject.toBuffer) = .error e)) :
    ∃ e, TokenSwap.withdrawSingleTokenTypeExactAmountOutInstruction tokenSwap authority
      userTransferAuthority poolMint feeAccount sourcePoolAccount fromA fromB userAccount
      swapProgramId tokenProgramId
      destinationTokenAmount maximumPoolTokenAmount = .error e := by
  unfold TokenSwap.withdrawSingleTokenTypeExactAmountOutInstruction
  cases ha : (Numberu64.new destinationTokenAmount >>= BNObject.toBuffer) with
  | error e => exact ⟨e, rfl⟩
  | ok ea =>
    rcases h with ⟨e, he⟩ | ⟨e, he⟩
    · rw [ha] at he
      exact Except.noConfusion he
    · rw [he]
      exact ⟨e, rfl⟩

/-! ## The claims on the `Numberu64` codec -/

/-- C1: for every integer `v` with `0 ≤ v < 2 ^ 64`, `Numberu64.fromBuffer` applied to
`new Numberu64(v).toBuffer()` succeeds and gives `v` back. -/
theorem fromBuffer_toBuffer (v : Int) (h0 : 0 ≤ v) (h : v < 2 ^ 64) :
    ((Numberu64.mk v).toBuffer >>= Numberu64.fromBuffer) = .ok ⟨v⟩ := by
  obtain ⟨n, rfl⟩ := Int.eq_ofNat_of_zero_le h0
  have hn : n < 2 ^ 64 := by exact_mod_cast h
  rw [toBuffer_of_lt _ (by simpa using hn), ok_bind,
    fromBuffer_of_length _ (by simp [from_length, leBytes_length]), leValue_from_leBytes]
  simp only [Int.natAbs_ofNat]
  rw [Nat.mod_eq_of_lt (by simpa using hn)]

/-- Witness of C1 at `v = 258`. -/
theorem fromBuffer_toBuffer_witness :
    (0 : Int) ≤ 258 ∧ (258 : Int) < 2 ^ 64 ∧
      ((Numberu64.mk 258).toBuffer >>= Numberu64.fromBuffer) = .ok ⟨258⟩ :=
  ⟨by decide, by decide, fromBuffer_toBuffer 258 (by decide) (by decide)⟩

/-- C2: for every integer `v` with `0 ≤ v < 2 ^ 64`, `toBuffer` returns exactly 8 bytes in
little-endian order: byte `i` is `⌊v / 256 ^ i⌋ mod 256`. -/
theorem toBuffer_little_endian (v : Int) (h0 : 0 ≤ v) (h : v < 2 ^ 64) :
    ∃ b : Buffer, (Numberu64.mk v).toBuffer = .ok b ∧ b.length = 8 ∧
      ∀ i (hi : i < b.length), ((b.get ⟨i, hi⟩).val : Int) = v / 256 ^ i % 256 := by
  obtain ⟨n, rfl⟩ := Int.eq_ofNat_of_zero_le h0
  have hn : n < 2 ^ 64 := by exact_mod_cast h
  refine ⟨_, toBuffer_of_lt _ (by simpa using hn), by simp [from_length, leBytes_length], ?_⟩
  intro i hi
  have hi8 : i < 8 := by simpa [from_length, leBytes_length] using hi
  have hget : (Buffer.from (leBytes 8 n))[i]? = some (Byte.ofNat (n / 256 ^ i % 256)) := by
    simp [Buffer.from, leBytes_getElem? 8 n i hi8]
  have hval : (Buffer.from (leBytes 8 (Numberu64.mk (n : Int)).value.natAbs)).get ⟨i, hi⟩
      = Byte.ofNat (n / 256 ^ i % 256) := by
    have h2 := List.getElem?_eq_getElem hi
    simp only [Int.natAbs_ofNat] at h2 ⊢
    rw [hget] at h2
    exact (Option.some.inj h2).symm
  rw [hval]
  simp only [Byte.ofNat, Nat.mod_mod]
  rw [Int.natCast_mod, Int.natCast_div, Int.natCast_pow]
  rfl

/-- Witness of C2 at `v = 0`. -/
theorem toBuffer_little_endian_witness :
    ∃ b : Buffer, (Numberu64.mk 0).toBuffer = .ok b ∧ b.length = 8 ∧
      ∀ i (hi : i < b.length), ((b.get ⟨i, hi⟩).val : Int) = 0 / 256 ^ i % 256 :=
  toBuffer_little_endian 0 (by decide) (by decide)

/-- C3: for every non-negative integer `v`, `toBuffer` fails if and only if `2 ^ 64 ≤ v`, and
then with the assertion message `Numberu64 too large`; `toBuffer` of `2 ^ 64 - 1` is eight
bytes `0xFF` and `toBuffer` of `2 ^ 64` fails. -/
theorem toBuffer_fails_iff (v : Int) (h0 : 0 ≤ v) :
    ((∃ e, (Numberu64.mk v).toBuffer = .error e) ↔ 2 ^ 64 ≤ v) ∧
    ((Numberu64.mk v).toBuffer = .error "Numberu64 too large" ↔ 2 ^ 64 ≤ v) ∧
    (Numberu64.mk (2 ^ 64 - 1)).toBuffer = .ok (List.replicate 8 255) ∧
    (Numberu64.mk (2 ^ 64)).toBuffer = .error "Numberu64 too large" := by
  obtain ⟨n, rfl⟩ := Int.eq_ofNat_of_zero_le h0
  have key : (Numberu64.mk (n : Int)).toBuffer = .error "Numberu64 too large" ↔ 2 ^ 64 ≤ n := by
    constructor
    · intro he
      by_contra hlt
      rw [toBuffer_of_lt _ (by simpa using hlt)] at he
      exact Except.noConfusion he
    · intro hge
      exact toBuffer_of_ge _ (by simpa using hge)
  refine ⟨?_, ?_, by decide, by decide⟩
  · constructor
    · rintro ⟨e, he⟩
      by_contra hlt
      have hlt' : n < 2 ^ 64 := by
        by_contra hge
        exact hlt (by exact_mod_cast Nat.le_of_not_lt hge)
      rw [toBuffer_of_lt _ (by simpa using hlt')] at he
      exact Except.noConfusion he
    · intro hge
      exact ⟨_, key.2 (by exact_mod_cast hge)⟩
  · rw [key]
    norm_cast

/-- Witness of C3 at `v = 2 ^ 64 + 1`. -/
theorem toBuffer_fails_iff_witness :
    ((∃ e, (Numberu64.mk (2 ^ 64 + 1)).toBuffer = .error e) ↔ (2 : Int) ^ 64 ≤ 2 ^ 64 + 1) ∧
    ((Numberu64.mk (2 ^ 64 + 1)).toBuffer = .error "Numberu64 too large"
      ↔ (2 : Int) ^ 64 ≤ 2 ^ 64 + 1) ∧
    (Numberu64.mk (2 ^ 64 - 1)).toBuffer = .ok (List.replicate 8 255) ∧
    (Numberu64.mk (2 ^ 64)).toBuffer = .error "Numberu64 too large" :=
  toBuffer_fails_iff (2 ^ 64 + 1) (by decide)

/-- C4: for every byte sequence `b`, `Numberu64.fromBuffer` fails if and only if the length
of `b` is not 8, and it succeeds if and only if the length is 8. -/
theorem fromBuffer_fails_iff (b : Buffer) :
    ((∃ e, Numberu64.fromBuffer b = .error e) ↔ b.length ≠ 8) ∧
    ((∃ x, Numberu64.fromBuffer b = .ok x) ↔ b.length = 8) := by
  by_cases h : b.length = 8
  · rw [fromBuffer_of_length b h]
    simp [h]
  · rw [fromBuffer_of_length_ne b h]
    simp [h]

/-- C5: for every 8-byte sequence `b`, `Numberu64.fromBuffer` gives the unsigned
little-endian magnitude, the sum of `b[i] * 256 ^ i` over `i` in `0..7`, which is
non-negative and below `2 ^ 64`. -/
theorem fromBuffer_little_endian (b : Buffer) (h : b.length = 8) :
    ∃ x : Numberu64, Numberu64.fromBuffer b = .ok x ∧
      x.value = ((∑ i : Fin 8, (b.get (i.cast h.symm)).val * 256 ^ i.val : Nat) : Int) ∧
      0 ≤ x.value ∧ x.value < 2 ^ 64 := by
  refine ⟨_, fromBuffer_of_length b h, ?_, ?_, ?_⟩
  · rw [leValue_eq_sum_eight b h]
  · exact Int.ofNat_nonneg _
  · have hlt := leValue_lt b
    rw [h] at hlt
    show (leValue b : Int) < 2 ^ 64
    exact_mod_cast hlt

/-- Witness of C5 at a buffer with a high byte of `0x80` and bytes below `0x10`. -/
theorem fromBuffer_little_endian_witness :
    ∃ x : Numberu64, Numberu64.fromBuffer [1, 0, 15, 16, 255, 9, 0, 128] = .ok x ∧
      x.value = ((∑ i : Fin 8,
        (([1, 0, 15, 16, 255, 9, 0, 128] : Buffer).get (i.cast rfl)).val * 256 ^ i.val : Nat)
          : Int) ∧
      0 ≤ x.value ∧ x.value < 2 ^ 64 :=
  fromBuffer_little_endian [1, 0, 15, 16, 255, 9, 0, 128] rfl

/-! ## The claims on the instruction builders of opcodes 1 to 5 -/

/-- C6, as stated, fails: the amount `2 ^ 53`, which is below `2 ^ 64`, given as a JavaScript
number makes `swapInstruction` throw `Assertion failed` in `new Numberu64(amountIn)`, so no
account references are returned. -/
theorem swapInstruction_amountIn_number :
    (0 : Int) ≤ 2 ^ 53 ∧ (2 : Int) ^ 53 < 2 ^ 64 ∧
    TokenSwap.swapInstruction ⟨1, by decide⟩ ⟨2, by decide⟩ ⟨3, by decide⟩ ⟨4, by decide⟩
      ⟨5, by decide⟩ ⟨6, by decide⟩ ⟨7, by decide⟩ ⟨8, by decide⟩ ⟨9, by decide⟩ none
      ⟨11, by decide⟩ ⟨12, by decide⟩ (.number (2 ^ 53)) (.number 0)
      = .error "Assertion failed" :=
  ⟨by decide, by decide, by decide⟩

/-- C6, amended: for amounts of magnitude below `2 ^ 53` when given as a JavaScript number
and below `2 ^ 64` when held by a `Numberu64`, `swapInstruction` without a host-fee account
(`null`) gives exactly 10 account references, and with a host-fee address `h` exactly 11:
the same 10 in the same order, followed by `h` as a non-signer, writable reference. -/
theorem swapInstruction_host_fee (tokenSwap authority userTransferAuthority userSource
    poolSource poolDestination userDestination poolMint feeAccount h swapProgramId
    tokenProgramId : PublicKey) (asNumberIn asNumberOut : Bool)
    (amountIn minimumAmountOut : Int)
    (ha : (amountIn.natAbs : Int) < Amount.limit asNumberIn)
    (hb : (minimumAmountOut.natAbs : Int) < Amount.limit asNumberOut) :
    ∃ i0 i1 : TransactionInstruction,
      TokenSwap.swapInstruction tokenSwap authority userTransferAuthority userSource poolSource
        poolDestination userDestination poolMint feeAccount none swapProgramId tokenProgramId
        (Amount.ofInt asNumberIn amountIn) (Amount.ofInt asNumberOut minimumAmountOut)
        = .ok i0 ∧
      TokenSwap.swapInstruction tokenSwap authority userTransferAuthority userSource poolSource
        poolDestination userDestination poolMint feeAccount (some h) swapProgramId
        tokenProgramId (Amount.ofInt asNumberIn amountIn)
        (Amount.ofInt asNumberOut minimumAmountOut) = .ok i1 ∧
      i0.keys.length = 10 ∧ i1.keys.length = 11 ∧
      i1.keys = i0.keys ++ [{ pubkey := h, isSigner := false, isWritable := true }] := by
  have ea := amount_ok asNumberIn amountIn ha
  have eb := amount_ok asNumberOut minimumAmountOut hb
  have la : (Buffer.from (leBytes 8 amountIn.natAbs)).length = 8 := by
    simp [from_length, leBytes_length]
  have lb : (Buffer.from (leBytes 8 minimumAmountOut.natAbs)).length = 8 := by
    simp [from_length, leBytes_length]
  exact ⟨_, _, swapInstruction_eq _ _ _ _ _ _ _ _ _ none _ _ _ _ _ _ ea eb la lb,
    swapInstruction_eq _ _ _ _ _ _ _ _ _ (some h) _ _ _ _ _ _ ea eb la lb, rfl, rfl, rfl⟩

/-- Witness of the amended C6 at the keys `1 .. 12`, the amount `2 ^ 53 - 1` as a number and
the amount `2 ^ 64 - 1` held by a `Numberu64`. -/
theorem swapInstruction_host_fee_witness :
    ∃ i0 i1 : TransactionInstruction,
      TokenSwap.swapInstruction ⟨1, by decide⟩ ⟨2, by decide⟩ ⟨3, by decide⟩ ⟨4, by decide⟩
        ⟨5, by decide⟩ ⟨6, by decide⟩ ⟨7, by decide⟩ ⟨8, by decide⟩ ⟨9, by decide⟩ none
        ⟨11, by decide⟩ ⟨12, by decide⟩ (Amount.ofInt true (2 ^ 53 - 1))
        (Amount.ofInt false (2 ^ 64 - 1)) = .ok i0 ∧
      TokenSwap.swapInstruction ⟨1, by decide⟩ ⟨2, by decide⟩ ⟨3, by decide⟩ ⟨4, by decide⟩
        ⟨5, by decide⟩ ⟨6, by decide⟩ ⟨7, by decide⟩ ⟨8, by decide⟩ ⟨9, by decide⟩
        (some ⟨10, by decide⟩) ⟨11, by decide⟩ ⟨12, by decide⟩ (Amount.ofInt true (2 ^ 53 - 1))
        (Amount.ofInt false (2 ^ 64 - 1)) = .ok i1 ∧
      i0.keys.length = 10 ∧ i1.keys.length = 11 ∧
      i1.keys = i0.keys ++ [{ pubkey := ⟨10, by decide⟩, isSigner := false, isWritable := true }] :=
  swapInstruction_host_fee ⟨1, by decide⟩ ⟨2, by decide⟩ ⟨3, by decide⟩ ⟨4, by decide⟩
    ⟨5, by decide⟩ ⟨6, by decide⟩ ⟨7, by decide⟩ ⟨8, by decide⟩ ⟨9, by decide⟩ ⟨10, by decide⟩
    ⟨11, by decide⟩ ⟨12, by decide⟩ true false (2 ^ 53 - 1) (2 ^ 64 - 1) (by decide) (by decide)

/-- C7, as stated, fails: with a host-fee account and the second amount `2 ^ 53 + 2`, below
`2 ^ 64`, given as a JavaScript number, `swapInstruction` throws `Assertion failed` and
returns no instruction. -/
theorem swapInstruction_minimumAmountOut_number :
    (0 : Int) ≤ 2 ^ 53 + 2 ∧ (2 : Int) ^ 53 + 2 < 2 ^ 64 ∧
    TokenSwap.swapInstruction ⟨1, by decide⟩ ⟨2, by decide⟩ ⟨3, by decide⟩ ⟨4, by decide⟩
      ⟨5, by decide⟩ ⟨6, by decide⟩ ⟨7, by decide⟩ ⟨8, by decide⟩ ⟨9, by decide⟩
      (some ⟨10, by decide⟩) ⟨11, by decide⟩ ⟨12, by decide⟩ (.number 7) (.number (2 ^ 53 + 2))
      = .error "Assertion failed" :=
  ⟨by decide, by decide, by decide⟩

/-- C7, amended: for amounts of magnitude below `2 ^ 53` when given as a JavaScript number
and below `2 ^ 64` when held by a `Numberu64`, the first 10 account references of the
instruction of `swapInstruction` are, in this order: tokenSwap, authority (both non-signer,
read-only), userTransferAuthority (signer, read-only), userSource, poolSource,
poolDestination, userDestination, poolMint, feeAccount (all non-signer, writable),
tokenProgramId (non-signer, read-only); the program of the instruction is `swapProgramId`. -/
theorem swapInstruction_keys (tokenSwap authority userTransferAuthority userSource poolSource
    poolDestination userDestination poolMint feeAccount : PublicKey)
    (hostFeeAccount : Option PublicKey) (swapProgramId tokenProgramId : PublicKey)
    (asNumberIn asNumberOut : Bool) (amountIn minimumAmountOut : Int)
    (ha : (amountIn.natAbs : Int) < Amount.limit asNumberIn)
    (hb : (minimumAmountOut.natAbs : Int) < Amount.limit asNumberOut) :
    ∃ i : TransactionInstruction,
      TokenSwap.swapInstruction tokenSwap authority userTransferAuthority userSource poolSource
        poolDestination userDestination poolMint feeAccount hostFeeAccount swapProgramId
        tokenProgramId (Amount.ofInt asNumberIn amountIn)
        (Amount.ofInt asNumberOut minimumAmountOut) = .ok i ∧
      i.keys.take 10 = [
        { pubkey := tokenSwap, isSigner := false, isWritable := false },
        { pubkey := authority, isSigner := false, isWritable := false },
        { pubkey := userTransferAuthority, isSigner := true, isWritable := false },
        { pubkey := userSource, isSigner := false, isWritable := true },
        { pubkey := poolSource, isSigner := false, isWritable := true },
        { pubkey := poolDestination, isSigner := false, isWritable := true },
        { pubkey := userDestination, isSigner := false, isWritable := true },
        { pubkey := poolMint, isSigner := false, isWritable := true },
        { pubkey := feeAccount, isSigner := false, isWritable := true },
        { pubkey := tokenProgramId, isSigner := false, isWritable := false }] ∧
      i.programId = swapProgramId := by
  have ea := amount_ok asNumberIn amountIn ha
  have eb := amount_ok asNumberOut minimumAmountOut hb
  refine ⟨_, swapInstruction_eq _ _ _ _ _ _ _ _ _ hostFeeAccount _ _ _ _ _ _ ea eb
    (by simp [from_length, leBytes_length]) (by simp [from_length, leBytes_length]), ?_, rfl⟩
  cases hostFeeAccount <;> rfl

/-- Witness of the amended C7 at the keys `1 .. 12`, with a host-fee account, the amount `0`
as a number and the amount `2 ^ 63` held by a `Numberu64`. -/
theorem swapInstruction_keys_witness :
    ∃ i : TransactionInstruction,
      TokenSwap.swapInstruction ⟨1, by decide⟩ ⟨2, by decide⟩ ⟨3, by decide⟩ ⟨4, by decide⟩
        ⟨5, by decide⟩ ⟨6, by decide⟩ ⟨7, by decide⟩ ⟨8, by decide⟩ ⟨9, by decide⟩
        (some ⟨10, by decide⟩) ⟨11, by decide⟩ ⟨12, by decide⟩ (Amount.ofInt true 0)
        (Amount.ofInt false (2 ^ 63)) = .ok i ∧
      i.keys.take 10 = [
        { pubkey := ⟨1, by decide⟩, isSigner := false, isWritable := false },
        { pubkey := ⟨2, by decide⟩, isSigner := false, isWritable := false },
        { pubkey := ⟨3, by decide⟩, isSigner := true, isWritable := false },
        { pubkey := ⟨4, by decide⟩, isSigner := false, isWritable := true },
        { pubkey := ⟨5, by decide⟩, isSigner := false, isWritable := true },
        { pubkey := ⟨6, by decide⟩, isSigner := false, isWritable := true },
        { pubkey := ⟨7, by decide⟩, isSigner := false, isWritable := true },
        { pubkey := ⟨8, by decide⟩, isSigner := false, isWritable := true },
        { pubkey := ⟨9, by decide⟩, isSigner := false, isWritable := true },
        { pubkey := ⟨12, by decide⟩, isSigner := false, isWritable := false }] ∧
      i.programId = ⟨11, by decide⟩ :=
  swapInstruction_keys ⟨1, by decide⟩ ⟨2, by decide⟩ ⟨3, by decide⟩ ⟨4, by decide⟩
    ⟨5, by decide⟩ ⟨6, by decide⟩ ⟨7, by decide⟩ ⟨8, by decide⟩ ⟨9, by decide⟩
    (some ⟨10, by decide⟩) ⟨11, by decide⟩ ⟨12, by decide⟩ true false 0 (2 ^ 63) (by decide)
    (by decide)

/-- C8, as stated, fails: the amount `2 ^ 63`, below `2 ^ 64`, given as a JavaScript number
makes the builder of opcode 4 throw `Assertion failed`, so there is no instruction data; and
the amount `0x0102030405060708` given as a plain `BN` is placed in the data with its most
significant byte first, the reverse of the bytes of `Numberu64.toBuffer`. -/
theorem depositSingle_data_not_little_endian :
    (2 : Int) ^ 63 < 2 ^ 64 ∧
    TokenSwap.depositSingleTokenTypeExactAmountInInstruction ⟨1, by decide⟩ ⟨2, by decide⟩
      ⟨3, by decide⟩ ⟨4, by decide⟩ ⟨5, by decide⟩ ⟨6, by decide⟩ ⟨7, by decide⟩ ⟨8, by decide⟩
      ⟨9, by decide⟩ ⟨10, by decide⟩ (.number (2 ^ 63)) (.number 0)
      = .error "Assertion failed" ∧
    (0x0102030405060708 : Int) < 2 ^ 64 ∧
    (Numberu64.mk 0x0102030405060708).toBuffer = .ok [8, 7, 6, 5, 4, 3, 2, 1] ∧
    (TokenSwap.depositSingleTokenTypeExactAmountInInstruction ⟨1, by decide⟩ ⟨2, by decide⟩
      ⟨3, by decide⟩ ⟨4, by decide⟩ ⟨5, by decide⟩ ⟨6, by decide⟩ ⟨7, by decide⟩ ⟨8, by decide⟩
      ⟨9, by decide⟩ ⟨10, by decide⟩ (.bn 0x0102030405060708) (.number 0)).map
        (fun i => i.data)
      = .ok [4, 1, 2, 3, 4, 5, 6, 7, 8, 0, 0, 0, 0, 0, 0, 0, 0] :=
  ⟨by decide, by decide, by decide, by decide, by decide⟩

/-- C8, amended: for amounts `a`, `b`, `c` of magnitude below `2 ^ 53` when given as a
JavaScript number and below `2 ^ 64` when held by a `Numberu64`, and any keys, the data of
the instruction of each builder of opcode `1 .. 5` is the byte of the opcode followed by the
8-byte encodings (`Numberu64.toBuffer`) of its amounts in declared order: 17 bytes for swap
(1), deposit single (4) and withdraw single (5), 25 bytes for deposit all (2) and withdraw
all (3). -/
theorem instruction_data (k : Nat → PublicKey) (host : Option PublicKey) (ka kb kc : Bool)
    (a b c : Int) (ha : (a.natAbs : Int) < Amount.limit ka)
    (hb : (b.natAbs : Int) < Amount.limit kb) (hc : (c.natAbs : Int) < Amount.limit kc) :
    ∃ ea eb ec : Buffer,
      (Numberu64.mk a).toBuffer = .ok ea ∧ (Numberu64.mk b).toBuffer = .ok eb ∧
      (Numberu64.mk c).toBuffer = .ok ec ∧
      (∃ i,
          TokenSwap.swapInstruction (k 0) (k 1) (k 2) (k 3) (k 4) (k 5) (k 6) (k 7) (k 8) host
            (k 9) (k 10) (Amount.ofInt ka a) (Amount.ofInt kb b) = .ok i ∧
        i.data = 1 :: (ea ++ eb) ∧ i.data.length = 17) ∧
      (∃ i,
          TokenSwap.depositAllTokenTypesInstruction (k 0) (k 1) (k 2) (k 3) (k 4) (k 5) (k 6)
            (k 7) (k 8) (k 9) (k 10) (Amount.ofInt ka a) (Amount.ofInt kb b) (Amount.ofInt kc c) =
              .ok i ∧
        i.data = 2 :: (ea ++ (eb ++ ec)) ∧ i.data.length = 25) ∧
      (∃ i,
          TokenSwap.withdrawAllTokenTypesInstruction (k 0) (k 1) (k 2) (k 3) (k 4) (k 5) (k 6)
            (k 7) (k 8) (k 9) (k 10) (k 11) (Amount.ofInt ka a) (Amount.ofInt kb b)
            (Amount.ofInt kc c) = .ok i ∧
        i.data = 3 :: (ea ++ (eb ++ ec)) ∧ i.data.length = 25) ∧
      (∃ i,
          TokenSwap.depositSingleTokenTypeExactAmountInInstruction (k 0) (k 1) (k 2) (k 3) (k 4)
            (k 5) (k 6) (k 7) (k 8) (k 9) (Amount.ofInt ka a) (Amount.ofInt kb b) = .ok i ∧
        i.data = 4 :: (ea ++ eb) ∧ i.data.length = 17) ∧
      (∃ i,
          TokenSwap.withdrawSingleTokenTypeExactAmountOutInstruction (k 0) (k 1) (k 2) (k 3) (k 4)
            (k 5) (k 6) (k 7) (k 8) (k 9) (k 10) (Amount.ofInt ka a) (Amount.ofInt kb b) = .ok i ∧
        i.data = 5 :: (ea ++ eb) ∧ i.data.length = 17) := by
  have la := limit_le ka
  have lb := limit_le kb
  have lc := limit_le kc
  have ea := amount_ok ka a ha
  have eb := amount_ok kb b hb
  have ec := amount_ok kc c hc
  have l8 : ∀ n : Nat, (Buffer.from (leBytes 8 n)).length = 8 := fun n => by
    simp [from_length, leBytes_length]
  refine ⟨_, _, _, toBuffer_of_lt ⟨a⟩ (by show a.natAbs < 2 ^ 64; omega),
    toBuffer_of_lt ⟨b⟩ (by show b.natAbs < 2 ^ 64; omega),
    toBuffer_of_lt ⟨c⟩ (by show c.natAbs < 2 ^ 64; omega),
    ⟨_, swapInstruction_eq _ _ _ _ _ _ _ _ _ host _ _ _ _ _ _ ea eb (l8 _) (l8 _), rfl, ?_⟩,
    ⟨_, depositAllTokenTypesInstruction_eq _ _ _ _ _ _ _ _ _ _ _ _ _ _ _ _ _ ea eb ec (l8 _)
      (l8 _) (l8 _), rfl, ?_⟩,
    ⟨_, withdrawAllTokenTypesInstruction_eq _ _ _ _ _ _ _ _ _ _ _ _ _ _ _ _ _ _ ea eb ec (l8 _)
      (l8 _) (l8 _), rfl, ?_⟩,
    ⟨_, depositSingleTokenTypeExactAmountInInstruction_eq _ _ _ _ _ _ _ _ _ _ _ _ _ _ ea eb (l8 _)
      (l8 _), rfl, ?_⟩,
    ⟨_, withdrawSingleTokenTypeExactAmountOutInstruction_eq _ _ _ _ _ _ _ _ _ _ _ _ _ _ _ ea eb
      (l8 _) (l8 _), rfl, ?_⟩⟩ <;>
  simp [from_length, leBytes_length]

/-- Witness of the amended C8 at the amounts `1` and `2 ^ 53 - 1` as numbers and
`2 ^ 64 - 1` held by a `Numberu64`, all keys equal. -/
theorem instruction_data_witness :
    ∃ ea eb ec : Buffer,
      (Numberu64.mk 1).toBuffer = .ok ea ∧ (Numberu64.mk (2 ^ 53 - 1)).toBuffer = .ok eb ∧
      (Numberu64.mk (2 ^ 64 - 1)).toBuffer = .ok ec ∧
      (∃ i, TokenSwap.swapInstruction ⟨0, by decide⟩ ⟨0, by decide⟩ ⟨0, by decide⟩
          ⟨0, by decide⟩ ⟨0, by decide⟩ ⟨0, by decide⟩ ⟨0, by decide⟩ ⟨0, by decide⟩
          ⟨0, by decide⟩ none ⟨0, by decide⟩ ⟨0, by decide⟩ (Amount.ofInt true 1)
          (Amount.ofInt true (2 ^ 53 - 1)) = .ok i ∧
        i.data = 1 :: (ea ++ eb) ∧ i.data.length = 17) ∧
      (∃ i, TokenSwap.depositAllTokenTypesInstruction ⟨0, by decide⟩ ⟨0, by decide⟩
          ⟨0, by decide⟩ ⟨0, by decide⟩ ⟨0, by decide⟩ ⟨0, by decide⟩ ⟨0, by decide⟩
          ⟨0, by decide⟩ ⟨0, by decide⟩ ⟨0, by decide⟩ ⟨0, by decide⟩ (Amount.ofInt true 1)
          (Amount.ofInt true (2 ^ 53 - 1)) (Amount.ofInt false (2 ^ 64 - 1)) = .ok i ∧
        i.data = 2 :: (ea ++ (eb ++ ec)) ∧ i.data.length = 25) :=
  let ⟨ea, eb, ec, h1, h2, h3, h4, h5, _⟩ :=
    instruction_data (fun _ => ⟨0, by decide⟩) none true true false 1 (2 ^ 53 - 1) (2 ^ 64 - 1)
      (by decide) (by decide) (by decide)
  ⟨ea, eb, ec, h1, h2, h3, h4, h5⟩

/-- C9, as stated, fails: with the non-negative amounts `5`, `7` and `2 ^ 60` given as
JavaScript numbers, none of them `2 ^ 64` or more, the builder of opcode 3 fails: it throws
`Assertion failed`. -/
theorem withdrawAll_fails_below_2_64 :
    ((0 : Int) ≤ 5 ∧ (0 : Int) ≤ 7 ∧ (0 : Int) ≤ 2 ^ 60) ∧
    ¬((2 : Int) ^ 64 ≤ 5 ∨ (2 : Int) ^ 64 ≤ 7 ∨ (2 : Int) ^ 64 ≤ 2 ^ 60) ∧
    TokenSwap.withdrawAllTokenTypesInstruction ⟨1, by decide⟩ ⟨2, by decide⟩ ⟨3, by decide⟩
      ⟨4, by decide⟩ ⟨5, by decide⟩ ⟨6, by decide⟩ ⟨7, by decide⟩ ⟨8, by decide⟩ ⟨9, by decide⟩
      ⟨10, by decide⟩ ⟨11, by decide⟩ ⟨12, by decide⟩ (.number 5) (.number 7)
      (.number (2 ^ 60)) = .error "Assertion failed" :=
  ⟨by decide, by decide, by decide⟩

/-- C9, amended: for non-negative amounts `a`, `b`, `c`, each given as a JavaScript number or
held by a `Numberu64`, and any keys, each builder of opcode `1 .. 5` fails if and only if one
of its amounts is at least `2 ^ 53` and given as a number, or at least `2 ^ 64` and held by
a `Numberu64`; an instruction that is returned carries the whole data, the opcode followed
by the 8-byte encoding of every amount. -/
theorem instruction_fails_iff (k : Nat → PublicKey) (host : Option PublicKey)
    (ka kb kc : Bool) (a b c : Int) (ha0 : 0 ≤ a) (hb0 : 0 ≤ b) (hc0 : 0 ≤ c) :
    (((∃ e,
          TokenSwap.swapInstruction (k 0) (k 1) (k 2) (k 3) (k 4) (k 5) (k 6) (k 7) (k 8) host
            (k 9) (k 10) (Amount.ofInt ka a) (Amount.ofInt kb b) = .error e)
        ↔ (Amount.limit ka ≤ a ∨ Amount.limit kb ≤ b)) ∧
      ∀ i,
          TokenSwap.swapInstruction (k 0) (k 1) (k 2) (k 3) (k 4) (k 5) (k 6) (k 7) (k 8) host
            (k 9) (k 10) (Amount.ofInt ka a) (Amount.ofInt kb b) = .ok i →
        ∃ ea eb, (Numberu64.mk a).toBuffer = .ok ea ∧ (Numberu64.mk b).toBuffer = .ok eb ∧
          i.data = 1 :: (ea ++ eb)) ∧
    (((∃ e,
          TokenSwap.depositAllTokenTypesInstruction (k 0) (k 1) (k 2) (k 3) (k 4) (k 5) (k 6)
            (k 7) (k 8) (k 9) (k 10) (Amount.ofInt ka a) (Amount.ofInt kb b) (Amount.ofInt kc c) =
              .error e)
        ↔ (Amount.limit ka ≤ a ∨ Amount.limit kb ≤ b ∨ Amount.limit kc ≤ c)) ∧
      ∀ i,
          TokenSwap.depositAllTokenTypesInstruction (k 0) (k 1) (k 2) (k 3) (k 4) (k 5) (k 6)
            (k 7) (k 8) (k 9) (k 10) (Amount.ofInt ka a) (Amount.ofInt kb b) (Amount.ofInt kc c) =
              .ok i →
        ∃ ea eb ec, (Numberu64.mk a).toBuffer = .ok ea ∧ (Numberu64.mk b).toBuffer = .ok eb ∧
          (Numberu64.mk c).toBuffer = .ok ec ∧ i.data = 2 :: (ea ++ (eb ++ ec))) ∧
    (((∃ e,
          TokenSwap.withdrawAllTokenTypesInstruction (k 0) (k 1) (k 2) (k 3) (k 4) (k 5) (k 6)
            (k 7) (k 8) (k 9) (k 10) (k 11) (Amount.ofInt ka a) (Amount.ofInt kb b)
            (Amount.ofInt kc c) = .error e)
        ↔ (Amount.limit ka ≤ a ∨ Amount.limit kb ≤ b ∨ Amount.limit kc ≤ c)) ∧
      ∀ i,
          TokenSwap.withdrawAllTokenTypesInstruction (k 0) (k 1) (k 2) (k 3) (k 4) (k 5) (k 6)
            (k 7) (k 8) (k 9) (k 10) (k 11) (Amount.ofInt ka a) (Amount.ofInt kb b)
            (Amount.ofInt kc c) = .ok i →
        ∃ ea eb ec, (Numberu64.mk a).toBuffer = .ok ea ∧ (Numberu64.mk b).toBuffer = .ok eb ∧
          (Numberu64.mk c).toBuffer = .ok ec ∧ i.data = 3 :: (ea ++ (eb ++ ec))) ∧
    (((∃ e,
          TokenSwap.depositSingleTokenTypeExactAmountInInstruction (k 0) (k 1) (k 2) (k 3) (k 4)
            (k 5) (k 6) (k 7) (k 8) (k 9) (Amount.ofInt ka a) (Amount.ofInt kb b) = .error e)
        ↔ (Amount.limit ka ≤ a ∨ Amount.limit kb ≤ b)) ∧
      ∀ i,
          TokenSwap.depositSingleTokenTypeExactAmountInInstruction (k 0) (k 1) (k 2) (k 3) (k 4)
            (k 5) (k 6) (k 7) (k 8) (k 9) (Amount.ofInt ka a) (Amount.ofInt kb b) = .ok i →
        ∃ ea eb, (Numberu64.mk a).toBuffer = .ok ea ∧ (Numberu64.mk b).toBuffer = .ok eb ∧
          i.data = 4 :: (ea ++ eb)) ∧
    (((∃ e,
          TokenSwap.withdrawSingleTokenTypeExactAmountOutInstruction (k 0) (k 1) (k 2) (k 3) (k 4)
            (k 5) (k 6) (k 7) (k 8) (k 9) (k 10) (Amount.ofInt ka a) (Amount.ofInt kb b) = .error e)
        ↔ (Amount.limit ka ≤ a ∨ Amount.limit kb ≤ b)) ∧
      ∀ i,
          TokenSwap.withdrawSingleTokenTypeExactAmountOutInstruction (k 0) (k 1) (k 2) (k 3) (k 4)
            (k 5) (k 6) (k 7) (k 8) (k 9) (k 10) (Amount.ofInt ka a) (Amount.ofInt kb b) = .ok i →
        ∃ ea eb, (Numberu64.mk a).toBuffer = .ok ea ∧ (Numberu64.mk b).toBuffer = .ok eb ∧
          i.data = 5 :: (ea ++ eb)) := by
  have la := limit_le ka
  have lb := limit_le kb
  have lc := limit_le kc
  have l8 : ∀ n : Nat, (Buffer.from (leBytes 8 n)).length = 8 := fun n => by
    simp [from_length, leBytes_length]
  have ok : ∀ (kv : Bool) (v : Int), 0 ≤ v → ¬ Amount.limit kv ≤ v →
      (Numberu64.new (Amount.ofInt kv v) >>= BNObject.toBuffer)
        = .ok (Buffer.from (leBytes 8 v.natAbs)) ∧
      (Numberu64.mk v).toBuffer = .ok (Buffer.from (leBytes 8 v.natAbs)) := fun kv v h0 h =>
    ⟨amount_ok kv v (by omega),
      toBuffer_of_lt ⟨v⟩ (by have := limit_le kv; show v.natAbs < 2 ^ 64; omega)⟩
  have err : ∀ (kv : Bool) (v : Int), 0 ≤ v → Amount.limit kv ≤ v →
      ∃ e, (Numberu64.new (Amount.ofInt kv v) >>= BNObject.toBuffer) = .error e :=
    fun kv v h0 h => amount_error kv v (by omega)
  have two : ∀ {α : Type} (r : Except String α) (x : α),
      (¬ Amount.limit ka ≤ a → ¬ Amount.limit kb ≤ b → r = .ok x) →
      (Amount.limit ka ≤ a ∨ Amount.limit kb ≤ b → ∃ e, r = .error e) →
      ((∃ e, r = .error e) ↔ (Amount.limit ka ≤ a ∨ Amount.limit kb ≤ b)) ∧
        ∀ i, r = .ok i → (¬ Amount.limit ka ≤ a ∧ ¬ Amount.limit kb ≤ b) ∧ i = x := by
    intro α r x hok herr
    obtain ⟨h1, h2⟩ := result_cases_any r (Amount.limit ka ≤ a ∨ Amount.limit kb ≤ b) x
      (fun h => hok (fun h' => h (Or.inl h')) (fun h' => h (Or.inr h'))) herr
    refine ⟨h1, fun i hi => ?_⟩
    obtain ⟨hn, rfl⟩ := h2 i hi
    exact ⟨⟨fun h' => hn (Or.inl h'), fun h' => hn (Or.inr h')⟩, rfl⟩
  have three : ∀ {α : Type} (r : Except String α) (x : α),
      (¬ Amount.limit ka ≤ a → ¬ Amount.limit kb ≤ b → ¬ Amount.limit kc ≤ c → r = .ok x) →
      (Amount.limit ka ≤ a ∨ Amount.limit kb ≤ b ∨ Amount.limit kc ≤ c → ∃ e, r = .error e) →
      ((∃ e, r = .error e) ↔ (Amount.limit ka ≤ a ∨ Amount.limit kb ≤ b ∨ Amount.limit kc ≤ c)) ∧
        ∀ i, r = .ok i →
          (¬ Amount.limit ka ≤ a ∧ ¬ Amount.limit kb ≤ b ∧ ¬ Amount.limit kc ≤ c) ∧ i = x := by
    intro α r x hok herr
    obtain ⟨h1, h2⟩ := result_cases_any r
      (Amount.limit ka ≤ a ∨ Amount.limit kb ≤ b ∨ Amount.limit kc ≤ c) x
      (fun h => hok (fun h' => h (Or.inl h')) (fun h' => h (Or.inr (Or.inl h')))
        (fun h' => h (Or.inr (Or.inr h')))) herr
    refine ⟨h1, fun i hi => ?_⟩
    obtain ⟨hn, rfl⟩ := h2 i hi
    exact ⟨⟨fun h' => hn (Or.inl h'), fun h' => hn (Or.inr (Or.inl h')),
      fun h' => hn (Or.inr (Or.inr h'))⟩, rfl⟩
  refine ⟨?_, ?_, ?_, ?_, ?_⟩
  · obtain ⟨h1, h2⟩ := two _ _
      (fun pa pb => swapInstruction_eq _ _ _ _ _ _ _ _ _ _ _ _ _ _ _ _
        (ok ka a ha0 pa).1 (ok kb b hb0 pb).1 (l8 _) (l8 _))
      (fun h => swapInstruction_error _ _ _ _ _ _ _ _ _ _ _ _ _ _
        (h.imp (err ka a ha0) (err kb b hb0)))
    refine ⟨h1, fun i hi => ?_⟩
    obtain ⟨⟨pa, pb⟩, rfl⟩ := h2 i hi
    exact ⟨_, _, (ok ka a ha0 pa).2, (ok kb b hb0 pb).2, rfl⟩
  · obtain ⟨h1, h2⟩ := three _ _
      (fun pa pb pc => depositAllTokenTypesInstruction_eq _ _ _ _ _ _ _ _ _ _ _ _ _ _ _ _ _
        (ok ka a ha0 pa).1 (ok kb b hb0 pb).1 (ok kc c hc0 pc).1 (l8 _) (l8 _) (l8 _))
      (fun h => depositAllTokenTypesInstruction_error _ _ _ _ _ _ _ _ _ _ _ _ _ _
        (h.imp (err ka a ha0) (fun h' => h'.imp (err kb b hb0) (err kc c hc0))))
    refine ⟨h1, fun i hi => ?_⟩
    obtain ⟨⟨pa, pb, pc⟩, rfl⟩ := h2 i hi
    exact ⟨_, _, _, (ok ka a ha0 pa).2, (ok kb b hb0 pb).2, (ok kc c hc0 pc).2, rfl⟩
  · obtain ⟨h1, h2⟩ := three _ _
      (fun pa pb pc => withdrawAllTokenTypesInstruction_eq _ _ _ _ _ _ _ _ _ _ _ _ _ _ _ _ _ _
        (ok ka a ha0 pa).1 (ok kb b hb0 pb).1 (ok kc c hc0 pc).1 (l8 _) (l8 _) (l8 _))
      (fun h => withdrawAllTokenTypesInstruction_error _ _ _ _ _ _ _ _ _ _ _ _ _ _ _
        (h.imp (err ka a ha0) (fun h' => h'.imp (err kb b hb0) (err kc c hc0))))
    refine ⟨h1, fun i hi => ?_⟩
    obtain ⟨⟨pa, pb, pc⟩, rfl⟩ := h2 i hi
    exact ⟨_, _, _, (ok ka a ha0 pa).2, (ok kb b hb0 pb).2, (ok kc c hc0 pc).2, rfl⟩
  · obtain ⟨h1, h2⟩ := two _ _
      (fun pa pb => depositSingleTokenTypeExactAmountInInstruction_eq _ _ _ _ _ _ _ _ _ _ _ _ _ _
        (ok ka a ha0 pa).1 (ok kb b hb0 pb).1 (l8 _) (l8 _))
      (fun h => depositSingleTokenTypeExactAmountInInstruction_error _ _ _ _ _ _ _ _ _ _ _ _
        (h.imp (err ka a ha0) (err kb b hb0)))
    refine ⟨h1, fun i hi => ?_⟩
    obtain ⟨⟨pa, pb⟩, rfl⟩ := h2 i hi
    exact ⟨_, _, (ok ka a ha0 pa).2, (ok kb b hb0 pb).2, rfl⟩
  · obtain ⟨h1, h2⟩ := two _ _
      (fun pa pb => withdrawSingleTokenTypeExactAmountOutInstruction_eq _ _ _ _ _ _ _ _ _ _ _ _ _
        _ _
        (ok ka a ha0 pa).1 (ok kb b hb0 pb).1 (l8 _) (l8 _))
      (fun h => withdrawSingleTokenTypeExactAmountOutInstruction_error _ _ _ _ _ _ _ _ _ _ _ _ _
        (h.imp (err ka a ha0) (err kb b hb0)))
    refine ⟨h1, fun i hi => ?_⟩
    obtain ⟨⟨pa, pb⟩, rfl⟩ := h2 i hi
    exact ⟨_, _, (ok ka a ha0 pa).2, (ok kb b hb0 pb).2, rfl⟩

/-- Witness of the amended C9 at the amounts `5` held by a `Numberu64`, `2 ^ 53` given as a
number and `0`, all keys equal: the swap builder fails. -/
theorem instruction_fails_iff_witness :
    (∃ e, TokenSwap.swapInstruction ⟨0, by decide⟩ ⟨0, by decide⟩ ⟨0, by decide⟩
        ⟨0, by decide⟩ ⟨0, by decide⟩ ⟨0, by decide⟩ ⟨0, by decide⟩ ⟨0, by decide⟩
        ⟨0, by decide⟩ none ⟨0, by decide⟩ ⟨0, by decide⟩ (Amount.ofInt false 5)
        (Amount.ofInt true (2 ^ 53)) = .error e)
      ↔ (Amount.limit false ≤ 5 ∨ Amount.limit true ≤ 2 ^ 53) :=
  (instruction_fails_iff (fun _ => ⟨0, by decide⟩) none false true false 5 (2 ^ 53) 0
    (by decide) (by decide) (by decide)).1.1

/-! ## The claims on the account layout and on `loadTokenSwap` -/

/-- C10: for every account byte array of the size of the layout whose byte at offset 1
(`isInitialized`) is 0, `loadTokenSwap` on these bytes throws `Invalid token swap state`
and returns no `TokenSwap`, whatever the other bytes and whatever the derivation does. -/
theorem loadTokenSwap_uninitialized {Connection Account : Type}
    (findProgramAddress : List Buffer → PublicKey → Except String (PublicKey × Nat))
    (connection : Connection) (data : Buffer) (address programId : PublicKey) (payer : Account)
    (hlen : data.length = TokenSwapLayout.span) (hinit : data[1]? = some 0) :
    TokenSwap.loadTokenSwap findProgramAddress connection data address programId payer
      = .error "Invalid token swap state" := by
  have hspan : TokenSwapLayout.span = 324 := by decide
  rw [hspan] at hlen
  have h0 : data[0]? = some (data[0]) := List.getElem?_eq_getElem (by omega)
  have h2 : data[2]? = some (data[2]) := List.getElem?_eq_getElem (by omega)
  have h291 : data[291]? = some (data[291]) := List.getElem?_eq_getElem (by omega)
  unfold TokenSwap.loadTokenSwap
  rw [decode_tokenSwapLayout data _ _ _ _ h0 hinit h2 h291]
  rfl

set_option maxRecDepth 100000 in
/-- Witness of C10 at an account whose bytes are `1, 0, 7, 7, ...`. -/
theorem loadTokenSwap_uninitialized_witness :
    TokenSwap.loadTokenSwap (fun _ _ => .ok (⟨5, by decide⟩, 255)) ()
      (1 :: 0 :: List.replicate 322 7) ⟨1, by decide⟩ ⟨2, by decide⟩ ()
      = .error "Invalid token swap state" :=
  loadTokenSwap_uninitialized (fun _ _ => .ok (⟨5, by decide⟩, 255)) ()
    (1 :: 0 :: List.replicate 322 7) ⟨1, by decide⟩ ⟨2, by decide⟩ () (by decide) rfl

/-! ## The claims on `createInitSwapInstruction` -/

/-- C11, as stated, fails: with nonce 7, all fee numerators 1, all fee denominators 1000
and the constant-product curve, the data of the initialize instruction is 99 bytes long,
not 75. -/
theorem init_data_length_ne_75 :
    ∃ i, TokenSwap.createInitSwapInstruction ⟨⟨1, by decide⟩⟩ ⟨2, by decide⟩ ⟨3, by decide⟩
        ⟨4, by decide⟩ ⟨5, by decide⟩ ⟨6, by decide⟩ ⟨7, by decide⟩ ⟨8, by decide⟩
        ⟨9, by decide⟩ 7 1 1000 1 1000 1 1000 1 1000 CurveType.ConstantProduct = .ok i ∧
      i.data.length = 99 ∧ i.data.length ≠ 75 :=
  ⟨_, createInitSwapInstruction_eq _ _ _ _ _ _ _ _ _ 7 1 1000 1 1000 1 1000 1 1000 0
    (by decide) (by decide) (by decide) (by decide) (by decide) (by decide) (by decide)
    (by decide) (by decide) (by decide) (by decide) (by decide), rfl, by decide⟩

/-- C11, amended: for a nonce and a curve type in `0 .. 255` and fee components that are
non-negative integers below `2 ^ 64`, the data of the initialize instruction is exactly
`1 + 1 + 8 * 8 + 1 + 32 = 99` bytes long. -/
theorem init_data_length (tokenSwapAccount : Account) (authority tokenAccountA
    tokenAccountB tokenPool feeAccount tokenAccountPool tokenProgramId swapProgramId : PublicKey)
    (nonce f1 f2 f3 f4 f5 f6 f7 f8 curveType : Int)
    (hn : 0 ≤ nonce ∧ nonce ≤ 255) (hc : 0 ≤ curveType ∧ curveType ≤ 255)
    (hf : ∀ f ∈ [f1, f2, f3, f4, f5, f6, f7, f8], 0 ≤ f ∧ f < 2 ^ 64) :
    ∃ i, TokenSwap.createInitSwapInstruction tokenSwapAccount authority tokenAccountA
        tokenAccountB tokenPool feeAccount tokenAccountPool tokenProgramId swapProgramId nonce
        f1 f2 f3 f4 f5 f6 f7 f8 curveType = .ok i ∧
      i.data.length = 1 + 1 + 8 * 8 + 1 + 32 ∧ i.data.length = 99 :=
  ⟨_, createInitSwapInstruction_eq _ _ _ _ _ _ _ _ _ _ _ _ _ _ _ _ _ _ _ hn.1 hn.2 hc.1 hc.2
    (hf f1 (by simp)) (hf f2 (by simp)) (hf f3 (by simp)) (hf f4 (by simp)) (hf f5 (by simp))
    (hf f6 (by simp)) (hf f7 (by simp)) (hf f8 (by simp)), rfl, rfl⟩

/-- Witness of the amended C11 at the scenario of the claim. -/
theorem init_data_length_witness :
    ∃ i, TokenSwap.createInitSwapInstruction ⟨⟨1, by decide⟩⟩ ⟨2, by decide⟩ ⟨3, by decide⟩
        ⟨4, by decide⟩ ⟨5, by decide⟩ ⟨6, by decide⟩ ⟨7, by decide⟩ ⟨8, by decide⟩
        ⟨9, by decide⟩ 7 1 1000 1 1000 1 1000 1 1000 0 = .ok i ∧
      i.data.length = 1 + 1 + 8 * 8 + 1 + 32 ∧ i.data.length = 99 :=
  init_data_length ⟨⟨1, by decide⟩⟩ ⟨2, by decide⟩ ⟨3, by decide⟩ ⟨4, by decide⟩
    ⟨5, by decide⟩ ⟨6, by decide⟩ ⟨7, by decide⟩ ⟨8, by decide⟩ ⟨9, by decide⟩
    7 1 1000 1 1000 1 1000 1 1000 0 (by decide) (by decide) (by decide)

/-- C12: for a nonce and a curve type in `0 .. 255` and fee components that are non-negative
integers below `2 ^ 64`, the data of the initialize instruction has byte 0 equal to 0, byte 1
equal to the nonce, bytes `2 .. 65` equal to the 8-byte encodings (`Numberu64.toBuffer`) of
the trade fee, the owner trade fee, the owner withdraw fee and the host fee, numerator then
denominator, and byte 66 equal to the curve type. -/
theorem init_data_bytes (tokenSwapAccount : Account) (authority tokenAccountA
    tokenAccountB tokenPool feeAccount tokenAccountPool tokenProgramId swapProgramId : PublicKey)
    (nonce tradeFeeNumerator tradeFeeDenominator ownerTradeFeeNumerator
    ownerTradeFeeDenominator ownerWithdrawFeeNumerator ownerWithdrawFeeDenominator
    hostFeeNumerator hostFeeDenominator curveType : Int)
    (hn : 0 ≤ nonce ∧ nonce ≤ 255) (hc : 0 ≤ curveType ∧ curveType ≤ 255)
    (hf : ∀ f ∈ [tradeFeeNumerator, tradeFeeDenominator, ownerTradeFeeNumerator,
      ownerTradeFeeDenominator, ownerWithdrawFeeNumerator, ownerWithdrawFeeDenominator,
      hostFeeNumerator, hostFeeDenominator], 0 ≤ f ∧ f < 2 ^ 64) :
    ∃ (i : TransactionInstruction) (e1 e2 e3 e4 e5 e6 e7 e8 : Buffer) (b1 b66 : Byte),
      TokenSwap.createInitSwapInstruction tokenSwapAccount authority tokenAccountA
        tokenAccountB tokenPool feeAccount tokenAccountPool tokenProgramId swapProgramId nonce
        tradeFeeNumerator tradeFeeDenominator ownerTradeFeeNumerator ownerTradeFeeDenominator
        ownerWithdrawFeeNumerator ownerWithdrawFeeDenominator hostFeeNumerator
        hostFeeDenominator curveType = .ok i ∧
      (Numberu64.mk tradeFeeNumerator).toBuffer = .ok e1 ∧
      (Numberu64.mk tradeFeeDenominator).toBuffer = .ok e2 ∧
      (Numberu64.mk ownerTradeFeeNumerator).toBuffer = .ok e3 ∧
      (Numberu64.mk ownerTradeFeeDenominator).toBuffer = .ok e4 ∧
      (Numberu64.mk ownerWithdrawFeeNumerator).toBuffer = .ok e5 ∧
      (Numberu64.mk ownerWithdrawFeeDenominator).toBuffer = .ok e6 ∧
      (Numberu64.mk hostFeeNumerator).toBuffer = .ok e7 ∧
      (Numberu64.mk hostFeeDenominator).toBuffer = .ok e8 ∧
      i.data[0]? = some 0 ∧
      i.data[1]? = some b1 ∧ (b1.val : Int) = nonce ∧
      i.data.slice 2 66 = e1 ++ (e2 ++ (e3 ++ (e4 ++ (e5 ++ (e6 ++ (e7 ++ e8)))))) ∧
      i.data[66]? = some b66 ∧ (b66.val : Int) = curveType := by
  have g : ∀ f ∈ [tradeFeeNumerator, tradeFeeDenominator, ownerTradeFeeNumerator,
      ownerTradeFeeDenominator, ownerWithdrawFeeNumerator, ownerWithdrawFeeDenominator,
      hostFeeNumerator, hostFeeDenominator],
      (Numberu64.mk f).toBuffer = .ok (Buffer.from (leBytes 8 f.natAbs)) := fun f hm =>
    toBuffer_of_lt ⟨f⟩ ((natAbs_lt_of_nonneg f (hf f hm).1).2 (hf f hm).2)
  have hbyte : ∀ x : Int, 0 ≤ x → x ≤ 255 → ((Byte.ofNat x.toNat).val : Int) = x := by
    intro x h0 h1
    simp only [Byte.ofNat]
    omega
  exact ⟨_, _, _, _, _, _, _, _, _, _, _,
    createInitSwapInstruction_eq _ _ _ _ _ _ _ _ _ _ _ _ _ _ _ _ _ _ _ hn.1 hn.2 hc.1 hc.2
      (hf _ (by simp)) (hf _ (by simp)) (hf _ (by simp)) (hf _ (by simp)) (hf _ (by simp))
      (hf _ (by simp)) (hf _ (by simp)) (hf _ (by simp)),
    g _ (by simp), g _ (by simp), g _ (by simp), g _ (by simp), g _ (by simp), g _ (by simp),
    g _ (by simp), g _ (by simp), rfl, rfl, hbyte _ hn.1 hn.2, rfl, rfl, hbyte _ hc.1 hc.2⟩

/-- Witness of C12 at nonce 7, fee numerators 1, fee denominators 1000 and curve type 0:
byte 0 is `0x00` and byte 1 is `0x07`. -/
theorem init_data_bytes_witness :
    ∃ i : TransactionInstruction,
      TokenSwap.createInitSwapInstruction ⟨⟨1, by decide⟩⟩ ⟨2, by decide⟩ ⟨3, by decide⟩
        ⟨4, by decide⟩ ⟨5, by decide⟩ ⟨6, by decide⟩ ⟨7, by decide⟩ ⟨8, by decide⟩
        ⟨9, by decide⟩ 7 1 1000 1 1000 1 1000 1 1000 0 = .ok i ∧
      i.data[0]? = some 0 ∧ ∃ b1 : Byte, i.data[1]? = some b1 ∧ (b1.val : Int) = 7 :=
  let ⟨i, _, _, _, _, _, _, _, _, b1, _, h, _, _, _, _, _, _, _, _, h0, h1, h1v, _⟩ :=
    init_data_bytes ⟨⟨1, by decide⟩⟩ ⟨2, by decide⟩ ⟨3, by decide⟩ ⟨4, by decide⟩
      ⟨5, by decide⟩ ⟨6, by decide⟩ ⟨7, by decide⟩ ⟨8, by decide⟩ ⟨9, by decide⟩
      7 1 1000 1 1000 1 1000 1 1000 0 (by decide) (by decide) (by decide)
  ⟨i, h, h0, b1, h1, h1v⟩

/-- C13: for valid arguments, the instruction of `createInitSwapInstruction` has exactly 8
account references, none a signer, in this order: the public key of the pool account
(writable), authority, tokenAccountA, tokenAccountB (read-only), tokenPool (writable),
feeAccount (read-only), tokenAccountPool (writable), tokenProgramId (read-only); its program
is `swapProgramId`. -/
theorem init_keys (tokenSwapAccount : Account) (authority tokenAccountA
    tokenAccountB tokenPool feeAccount tokenAccountPool tokenProgramId swapProgramId : PublicKey)
    (nonce f1 f2 f3 f4 f5 f6 f7 f8 curveType : Int)
    (hn : 0 ≤ nonce ∧ nonce ≤ 255) (hc : 0 ≤ curveType ∧ curveType ≤ 255)
    (hf : ∀ f ∈ [f1, f2, f3, f4, f5, f6, f7, f8], 0 ≤ f ∧ f < 2 ^ 64) :
    ∃ i, TokenSwap.createInitSwapInstruction tokenSwapAccount authority tokenAccountA
        tokenAccountB tokenPool feeAccount tokenAccountPool tokenProgramId swapProgramId nonce
        f1 f2 f3 f4 f5 f6 f7 f8 curveType = .ok i ∧
      i.keys = [
        { pubkey := tokenSwapAccount.publicKey, isSigner := false, isWritable := true },
        { pubkey := authority, isSigner := false, isWritable := false },
        { pubkey := tokenAccountA, isSigner := false, isWritable := false },
        { pubkey := tokenAccountB, isSigner := false, isWritable := false },
        { pubkey := tokenPool, isSigner := false, isWritable := true },
        { pubkey := feeAccount, isSigner := false, isWritable := false },
        { pubkey := tokenAccountPool, isSigner := false, isWritable := true },
        { pubkey := tokenProgramId, isSigner := false, isWritable := false }] ∧
      i.keys.length = 8 ∧ (∀ k ∈ i.keys, k.isSigner = false) ∧
      i.programId = swapProgramId := by
  refine ⟨_, createInitSwapInstruction_eq _ _ _ _ _ _ _ _ _ _ _ _ _ _ _ _ _ _ _ hn.1 hn.2 hc.1
    hc.2 (hf f1 (by simp)) (hf f2 (by simp)) (hf f3 (by simp)) (hf f4 (by simp))
    (hf f5 (by simp)) (hf f6 (by simp)) (hf f7 (by simp)) (hf f8 (by simp)), rfl, rfl, ?_, rfl⟩
  intro k hk
  simp only [List.mem_cons, List.mem_singleton, List.not_mem_nil, or_false] at hk
  rcases hk with h | h | h | h | h | h | h | h <;> rw [h]

/-- Witness of C13 at the keys `1 .. 9`. -/
theorem init_keys_witness :
    ∃ i, TokenSwap.createInitSwapInstruction ⟨⟨1, by decide⟩⟩ ⟨2, by decide⟩ ⟨3, by decide⟩
        ⟨4, by decide⟩ ⟨5, by decide⟩ ⟨6, by decide⟩ ⟨7, by decide⟩ ⟨8, by decide⟩
        ⟨9, by decide⟩ 255 0 1 2 3 4 5 6 (2 ^ 64 - 1) 3 = .ok i ∧
      i.keys.length = 8 ∧ i.programId = ⟨9, by decide⟩ :=
  let ⟨i, h, _, hl, _, hp⟩ :=
    init_keys ⟨⟨1, by decide⟩⟩ ⟨2, by decide⟩ ⟨3, by decide⟩ ⟨4, by decide⟩
      ⟨5, by decide⟩ ⟨6, by decide⟩ ⟨7, by decide⟩ ⟨8, by decide⟩ ⟨9, by decide⟩
      255 0 1 2 3 4 5 6 (2 ^ 64 - 1) 3 (by decide) (by decide) (by decide)
  ⟨i, h, hl, hp⟩

/-! ## The claims on the account references of the builders of opcodes 2 to 5 -/

/-- C14, as stated, fails: with the amounts `1`, `2 ^ 53` and `3`, all below `2 ^ 64`, given
as JavaScript numbers, `depositAllTokenTypesInstruction` throws `Assertion failed` and
returns no account references. -/
theorem depositAll_maximumTokenA_number :
    ((1 : Int) < 2 ^ 64 ∧ (2 ^ 53 : Int) < 2 ^ 64 ∧ (3 : Int) < 2 ^ 64) ∧
    TokenSwap.depositAllTokenTypesInstruction ⟨1, by decide⟩ ⟨2, by decide⟩ ⟨3, by decide⟩
      ⟨4, by decide⟩ ⟨5, by decide⟩ ⟨6, by decide⟩ ⟨7, by decide⟩ ⟨8, by decide⟩ ⟨9, by decide⟩
      ⟨10, by decide⟩ ⟨11, by decide⟩ (.number 1) (.number (2 ^ 53)) (.number 3)
      = .error "Assertion failed" :=
  ⟨by decide, by decide⟩

/-- C14, amended: for amounts of magnitude below `2 ^ 53` when given as a JavaScript
number and below `2 ^ 64` when held by a `Numberu64`,
`depositAllTokenTypesInstruction` gives exactly 10 account references, in this order:
tokenSwap, authority (non-signer, read-only), userTransferAuthority (signer, read-only),
sourceA, sourceB, intoA, intoB, poolToken, poolAccount (non-signer, writable), tokenProgramId
(non-signer, read-only); userTransferAuthority is the only signer. -/
theorem depositAllTokenTypesInstruction_keys (tokenSwap authority userTransferAuthority sourceA
    sourceB intoA intoB poolToken poolAccount swapProgramId tokenProgramId : PublicKey)
    (ka kb kc : Bool) (poolTokenAmount maximumTokenA maximumTokenB : Int)
    (ha : (poolTokenAmount.natAbs : Int) < Amount.limit ka)
    (hb : (maximumTokenA.natAbs : Int) < Amount.limit kb)
    (hc : (maximumTokenB.natAbs : Int) < Amount.limit kc) :
    ∃ i,
        TokenSwap.depositAllTokenTypesInstruction tokenSwap authority userTransferAuthority
          sourceA sourceB intoA intoB poolToken poolAccount swapProgramId tokenProgramId
          (Amount.ofInt ka poolTokenAmount) (Amount.ofInt kb maximumTokenA)
          (Amount.ofInt kc maximumTokenB) = .ok i ∧
      i.keys = [
        { pubkey := tokenSwap, isSigner := false, isWritable := false },
        { pubkey := authority, isSigner := false, isWritable := false },
        { pubkey := userTransferAuthority, isSigner := true, isWritable := false },
        { pubkey := sourceA, isSigner := false, isWritable := true },
        { pubkey := sourceB, isSigner := false, isWritable := true },
        { pubkey := intoA, isSigner := false, isWritable := true },
        { pubkey := intoB, isSigner := false, isWritable := true },
        { pubkey := poolToken, isSigner := false, isWritable := true },
        { pubkey := poolAccount, isSigner := false, isWritable := true },
        { pubkey := tokenProgramId, isSigner := false, isWritable := false }] ∧
      i.keys.length = 10 ∧
      i.keys.filter (fun k => k.isSigner)
        = [{ pubkey := userTransferAuthority, isSigner := true, isWritable := false }] :=
  ⟨_, depositAllTokenTypesInstruction_eq _ _ _ _ _ _ _ _ _ _ _ _ _ _ _ _ _
    (amount_ok _ _ ha) (amount_ok _ _ hb) (amount_ok _ _ hc)
    (by simp [from_length, leBytes_length])
    (by simp [from_length, leBytes_length])
    (by simp [from_length, leBytes_length]), rfl, rfl, rfl⟩

/-- Witness of the amended C14 at the keys `1 .. 11` and the amounts `1`, `2`, `3`, the second
held by a `Numberu64`. -/
theorem depositAllTokenTypesInstruction_keys_witness :
    ∃ i,
        TokenSwap.depositAllTokenTypesInstruction ⟨1, by decide⟩ ⟨2, by decide⟩ ⟨3, by decide⟩
          ⟨4, by decide⟩ ⟨5, by decide⟩ ⟨6, by decide⟩ ⟨7, by decide⟩ ⟨8, by decide⟩
          ⟨9, by decide⟩ ⟨10, by decide⟩ ⟨11, by decide⟩ (Amount.ofInt true 1)
          (Amount.ofInt false 2) (Amount.ofInt true 3) = .ok i ∧
      i.keys.length = 10 ∧
      i.keys.filter (fun k => k.isSigner)
        = [{ pubkey := ⟨3, by decide⟩, isSigner := true, isWritable := false }] :=
  let ⟨i, h, _, hl, hs⟩ :=
    depositAllTokenTypesInstruction_keys ⟨1, by decide⟩ ⟨2, by decide⟩ ⟨3, by decide⟩
      ⟨4, by decide⟩ ⟨5, by decide⟩ ⟨6, by decide⟩ ⟨7, by decide⟩ ⟨8, by decide⟩ ⟨9, by decide⟩
      ⟨10, by decide⟩ ⟨11, by decide⟩ true false true 1 2 3 (by decide) (by decide) (by decide)
  ⟨i, h, hl, hs⟩

/-- C15, as stated, fails: with the amount `2 ^ 62`, below `2 ^ 64`, given as a JavaScript
number, `withdrawAllTokenTypesInstruction` throws `Assertion failed` and returns no account
references. -/
theorem withdrawAll_poolTokenAmount_number :
    ((2 ^ 62 : Int) < 2 ^ 64 ∧ (0 : Int) < 2 ^ 64 ∧ (0 : Int) < 2 ^ 64) ∧
    TokenSwap.withdrawAllTokenTypesInstruction ⟨1, by decide⟩ ⟨2, by decide⟩ ⟨3, by decide⟩
      ⟨4, by decide⟩ ⟨5, by decide⟩ ⟨6, by decide⟩ ⟨7, by decide⟩ ⟨8, by decide⟩ ⟨9, by decide⟩
      ⟨10, by decide⟩ ⟨11, by decide⟩ ⟨12, by decide⟩ (.number (2 ^ 62)) (.number 0) (.number 0)
      = .error "Assertion failed" :=
  ⟨by decide, by decide⟩

/-- C15, amended: for amounts of magnitude below `2 ^ 53` when given as a JavaScript
number and below `2 ^ 64` when held by a `Numberu64`,
`withdrawAllTokenTypesInstruction` gives exactly 11 account references, in this order,
whatever the order of its parameters: tokenSwap, authority (read-only),
userTransferAuthority (signer, read-only), poolMint, sourcePoolAccount, fromA, fromB,
userAccountA, userAccountB, feeAccount (writable), tokenProgramId (read-only). -/
theorem withdrawAllTokenTypesInstruction_keys (tokenSwap authority userTransferAuthority poolMint
    feeAccount sourcePoolAccount fromA fromB userAccountA userAccountB swapProgramId
    tokenProgramId : PublicKey)
    (ka kb kc : Bool) (poolTokenAmount minimumTokenA minimumTokenB : Int)
    (ha : (poolTokenAmount.natAbs : Int) < Amount.limit ka)
    (hb : (minimumTokenA.natAbs : Int) < Amount.limit kb)
    (hc : (minimumTokenB.natAbs : Int) < Amount.limit kc) :
    ∃ i,
        TokenSwap.withdrawAllTokenTypesInstruction tokenSwap authority userTransferAuthority
          poolMint feeAccount sourcePoolAccount fromA fromB userAccountA userAccountB
          swapProgramId tokenProgramId (Amount.ofInt ka poolTokenAmount)
          (Amount.ofInt kb minimumTokenA) (Amount.ofInt kc minimumTokenB) = .ok i ∧
      i.keys = [
        { pubkey := tokenSwap, isSigner := false, isWritable := false },
        { pubkey := authority, isSigner := false, isWritable := false },
        { pubkey := userTransferAuthority, isSigner := true, isWritable := false },
        { pubkey := poolMint, isSigner := false, isWritable := true },
        { pubkey := sourcePoolAccount, isSigner := false, isWritable := true },
        { pubkey := fromA, isSigner := false, isWritable := true },
        { pubkey := fromB, isSigner := false, isWritable := true },
        { pubkey := userAccountA, isSigner := false, isWritable := true },
        { pubkey := userAccountB, isSigner := false, isWritable := true },
        { pubkey := feeAccount, isSigner := false, isWritable := true },
        { pubkey := tokenProgramId, isSigner := false, isWritable := false }] ∧
      i.keys.length = 11 :=
  ⟨_, withdrawAllTokenTypesInstruction_eq _ _ _ _ _ _ _ _ _ _ _ _ _ _ _ _ _ _
    (amount_ok _ _ ha) (amount_ok _ _ hb) (amount_ok _ _ hc)
    (by simp [from_length, leBytes_length])
    (by simp [from_length, leBytes_length])
    (by simp [from_length, leBytes_length]), rfl, rfl⟩

/-- Witness of the amended C15 at the keys `1 .. 12` in the order of the parameters: the fee
account, the fifth parameter, is the tenth reference. -/
theorem withdrawAllTokenTypesInstruction_keys_witness :
    ∃ i,
        TokenSwap.withdrawAllTokenTypesInstruction ⟨1, by decide⟩ ⟨2, by decide⟩ ⟨3, by decide⟩
          ⟨4, by decide⟩ ⟨5, by decide⟩ ⟨6, by decide⟩ ⟨7, by decide⟩ ⟨8, by decide⟩
          ⟨9, by decide⟩ ⟨10, by decide⟩ ⟨11, by decide⟩ ⟨12, by decide⟩ (Amount.ofInt false 1)
          (Amount.ofInt true 2) (Amount.ofInt false 3) = .ok i ∧
      i.keys.map (fun k => k.pubkey.bn) = [1, 2, 3, 4, 6, 7, 8, 9, 10, 5, 12] :=
  let ⟨i, h, hk, _⟩ :=
    withdrawAllTokenTypesInstruction_keys ⟨1, by decide⟩ ⟨2, by decide⟩ ⟨3, by decide⟩
      ⟨4, by decide⟩ ⟨5, by decide⟩ ⟨6, by decide⟩ ⟨7, by decide⟩ ⟨8, by decide⟩ ⟨9, by decide⟩
      ⟨10, by decide⟩ ⟨11, by decide⟩ ⟨12, by decide⟩ false true false 1 2 3 (by decide)
      (by decide) (by decide)
  ⟨i, h, by rw [hk]; rfl⟩

/-- C16, as stated, fails: with the amounts `10` and `2 ^ 53 + 4`, both below `2 ^ 64`, given
as JavaScript numbers, `depositSingleTokenTypeExactAmountInInstruction` throws
`Assertion failed` and returns no account references. -/
theorem depositSingle_minimumPoolTokenAmount_number :
    ((10 : Int) < 2 ^ 64 ∧ (2 ^ 53 + 4 : Int) < 2 ^ 64) ∧
    TokenSwap.depositSingleTokenTypeExactAmountInInstruction ⟨1, by decide⟩ ⟨2, by decide⟩
      ⟨3, by decide⟩ ⟨4, by decide⟩ ⟨5, by decide⟩ ⟨6, by decide⟩ ⟨7, by decide⟩ ⟨8, by decide⟩
      ⟨9, by decide⟩ ⟨10, by decide⟩ (.number 10) (.number (2 ^ 53 + 4))
      = .error "Assertion failed" :=
  ⟨by decide, by decide⟩

/-- C16, amended: for amounts of magnitude below `2 ^ 53` when given as a JavaScript
number and below `2 ^ 64` when held by a `Numberu64`,
`depositSingleTokenTypeExactAmountInInstruction` gives exactly 9 account references, in this
order: tokenSwap, authority (read-only), userTransferAuthority (signer, read-only), source,
intoA, intoB, poolToken, poolAccount (writable), tokenProgramId (read-only). -/
theorem depositSingleTokenTypeExactAmountInInstruction_keys (tokenSwap authority
    userTransferAuthority source intoA intoB poolToken poolAccount swapProgramId tokenProgramId :
    PublicKey)
    (ka kb : Bool) (sourceTokenAmount minimumPoolTokenAmount : Int)
    (ha : (sourceTokenAmount.natAbs : Int) < Amount.limit ka)
    (hb : (minimumPoolTokenAmount.natAbs : Int) < Amount.limit kb) :
    ∃ i,
        TokenSwap.depositSingleTokenTypeExactAmountInInstruction tokenSwap authority
          userTransferAuthority source intoA intoB poolToken poolAccount swapProgramId
          tokenProgramId (Amount.ofInt ka sourceTokenAmount)
          (Amount.ofInt kb minimumPoolTokenAmount) = .ok i ∧
      i.keys = [
        { pubkey := tokenSwap, isSigner := false, isWritable := false },
        { pubkey := authority, isSigner := false, isWritable := false },
        { pubkey := userTransferAuthority, isSigner := true, isWritable := false },
        { pubkey := source, isSigner := false, isWritable := true },
        { pubkey := intoA, isSigner := false, isWritable := true },
        { pubkey := intoB, isSigner := false, isWritable := true },
        { pubkey := poolToken, isSigner := false, isWritable := true },
        { pubkey := poolAccount, isSigner := false, isWritable := true },
        { pubkey := tokenProgramId, isSigner := false, isWritable := false }] ∧
      i.keys.length = 9 :=
  ⟨_, depositSingleTokenTypeExactAmountInInstruction_eq _ _ _ _ _ _ _ _ _ _ _ _ _ _
    (amount_ok _ _ ha) (amount_ok _ _ hb)
    (by simp [from_length, leBytes_length])
    (by simp [from_length, leBytes_length]), rfl, rfl⟩

/-- Witness of the amended C16 at the keys `1 .. 10` and the amounts `5` and `0`. -/
theorem depositSingleTokenTypeExactAmountInInstruction_keys_witness :
    ∃ i,
        TokenSwap.depositSingleTokenTypeExactAmountInInstruction ⟨1, by decide⟩ ⟨2, by decide⟩
          ⟨3, by decide⟩ ⟨4, by decide⟩ ⟨5, by decide⟩ ⟨6, by decide⟩ ⟨7, by decide⟩
          ⟨8, by decide⟩ ⟨9, by decide⟩ ⟨10, by decide⟩ (Amount.ofInt true 5)
          (Amount.ofInt false 0) = .ok i ∧
      i.keys.map (fun k => k.pubkey.bn) = [1, 2, 3, 4, 5, 6, 7, 8, 10] ∧ i.keys.length = 9 :=
  let ⟨i, h, hk, hl⟩ :=
    depositSingleTokenTypeExactAmountInInstruction_keys ⟨1, by decide⟩ ⟨2, by decide⟩
      ⟨3, by decide⟩ ⟨4, by decide⟩ ⟨5, by decide⟩ ⟨6, by decide⟩ ⟨7, by decide⟩ ⟨8, by decide⟩
      ⟨9, by decide⟩ ⟨10, by decide⟩ true false 5 0 (by decide) (by decide)
  ⟨i, h, by rw [hk]; rfl, hl⟩

/-- C17, as stated, fails: with the amounts `2 ^ 54` and `1`, both below `2 ^ 64`, given as
JavaScript numbers, `withdrawSingleTokenTypeExactAmountOutInstruction` throws
`Assertion failed` and returns no account references. -/
theorem withdrawSingle_destinationTokenAmount_number :
    ((2 ^ 54 : Int) < 2 ^ 64 ∧ (1 : Int) < 2 ^ 64) ∧
    TokenSwap.withdrawSingleTokenTypeExactAmountOutInstruction ⟨1, by decide⟩ ⟨2, by decide⟩
      ⟨3, by decide⟩ ⟨4, by decide⟩ ⟨5, by decide⟩ ⟨6, by decide⟩ ⟨7, by decide⟩ ⟨8, by decide⟩
      ⟨9, by decide⟩ ⟨10, by decide⟩ ⟨11, by decide⟩ (.number (2 ^ 54)) (.number 1)
      = .error "Assertion failed" :=
  ⟨by decide, by decide⟩

/-- C17, amended: for amounts of magnitude below `2 ^ 53` when given as a JavaScript
number and below `2 ^ 64` when held by a `Numberu64`,
`withdrawSingleTokenTypeExactAmountOutInstruction` gives exactly 10 account references, in
this order: tokenSwap, authority (read-only), userTransferAuthority (signer, read-only),
poolMint, sourcePoolAccount, fromA, fromB, userAccount, feeAccount (writable),
tokenProgramId (read-only). -/
theorem withdrawSingleTokenTypeExactAmountOutInstruction_keys (tokenSwap authority
    userTransferAuthority poolMint feeAccount sourcePoolAccount fromA fromB userAccount
    swapProgramId tokenProgramId : PublicKey)
    (ka kb : Bool) (destinationTokenAmount maximumPoolTokenAmount : Int)
    (ha : (destinationTokenAmount.natAbs : Int) < Amount.limit ka)
    (hb : (maximumPoolTokenAmount.natAbs : Int) < Amount.limit kb) :
    ∃ i,
        TokenSwap.withdrawSingleTokenTypeExactAmountOutInstruction tokenSwap authority
          userTransferAuthority poolMint feeAccount sourcePoolAccount fromA fromB userAccount
          swapProgramId tokenProgramId (Amount.ofInt ka destinationTokenAmount)
          (Amount.ofInt kb maximumPoolTokenAmount) = .ok i ∧
      i.keys = [
        { pubkey := tokenSwap, isSigner := false, isWritable := false },
        { pubkey := authority, isSigner := false, isWritable := false },
        { pubkey := userTransferAuthority, isSigner := true, isWritable := false },
        { pubkey := poolMint, isSigner := false, isWritable := true },
        { pubkey := sourcePoolAccount, isSigner := false, isWritable := true },
        { pubkey := fromA, isSigner := false, isWritable := true },
        { pubkey := fromB, isSigner := false, isWritable := true },
        { pubkey := userAccount, isSigner := false, isWritable := true },
        { pubkey := feeAccount, isSigner := false, isWritable := true },
        { pubkey := tokenProgramId, isSigner := false, isWritable := false }] ∧
      i.keys.length = 10 :=
  ⟨_, withdrawSingleTokenTypeExactAmountOutInstruction_eq _ _ _ _ _ _ _ _ _ _ _ _ _ _ _
    (amount_ok _ _ ha) (amount_ok _ _ hb)
    (by simp [from_length, leBytes_length])
    (by simp [from_length, leBytes_length]), rfl, rfl⟩

/-- Witness of the amended C17 at the keys `1 .. 11` in the order of the parameters: the fee
account, the fifth parameter, is the ninth reference. -/
theorem withdrawSingleTokenTypeExactAmountOutInstruction_keys_witness :
    ∃ i,
        TokenSwap.withdrawSingleTokenTypeExactAmountOutInstruction ⟨1, by decide⟩ ⟨2, by decide⟩
          ⟨3, by decide⟩ ⟨4, by decide⟩ ⟨5, by decide⟩ ⟨6, by decide⟩ ⟨7, by decide⟩
          ⟨8, by decide⟩ ⟨9, by decide⟩ ⟨10, by decide⟩ ⟨11, by decide⟩ (Amount.ofInt false 7)
          (Amount.ofInt true 9) = .ok i ∧
      i.keys.map (fun k => k.pubkey.bn) = [1, 2, 3, 4, 6, 7, 8, 9, 5, 11] :=
  let ⟨i, h, hk, _⟩ :=
    withdrawSingleTokenTypeExactAmountOutInstruction_keys ⟨1, by decide⟩ ⟨2, by decide⟩
      ⟨3, by decide⟩ ⟨4, by decide⟩ ⟨5, by decide⟩ ⟨6, by decide⟩ ⟨7, by decide⟩ ⟨8, by decide⟩
      ⟨9, by decide⟩ ⟨10, by decide⟩ ⟨11, by decide⟩ false true 7 9 (by decide) (by decide)
  ⟨i, h, by rw [hk]; rfl⟩

/-! ## The claims on the account layout and the decoded pool state -/

/-- C18, as stated, fails: the span of `TokenSwapLayout` is not
`1 + 1 + 1 + 9 * 32 + 8 * 8 + 1 + 32`: the layout has seven public keys, not nine. -/
theorem tokenSwapLayout_span_ne :
    TokenSwapLayout.span ≠ 1 + 1 + 1 + 9 * 32 + 8 * 8 + 1 + 32 := by
  decide

/-- C18, amended: the span of `TokenSwapLayout` is `1` (version) `+ 1` (isInitialized)
`+ 1` (nonce) `+ 7 * 32` (seven public keys) `+ 8 * 8` (eight fee fields) `+ 1` (curve type)
`+ 32` (curve parameters), which is 324. -/
theorem tokenSwapLayout_span :
    TokenSwapLayout.span = 1 + 1 + 1 + 7 * 32 + 8 * 8 + 1 + 32 ∧ TokenSwapLayout.span = 324 := by
  decide

/-- C19: for every account byte array of the size of the layout with a non-zero
`isInitialized` byte, every pool address and program id, and a derivation that gives
`authority` for the bytes of the address and the program id, `loadTokenSwap` returns a pool
state whose address fields are the public keys of the 32-byte slices of the layout, in
layout order, whose fee components are `Numberu64.fromBuffer` of the 8-byte slices, whose
curve type is the curve-type byte, whose pool address and program id are the arguments and
whose authority is the derived one. -/
theorem loadTokenSwap_fields {Connection Account : Type}
    (findProgramAddress : List Buffer → PublicKey → Except String (PublicKey × Nat))
    (connection : Connection) (data : Buffer) (address programId : PublicKey) (payer : Account)
    (authority : PublicKey) (nonce : Nat)
    (hlen : data.length = TokenSwapLayout.span) (hinit : data[1]? ≠ some 0)
    (hfind : findProgramAddress [address.toBuffer] programId = .ok (authority, nonce)) :
    ∃ t : TokenSwap Connection Account,
      TokenSwap.loadTokenSwap findProgramAddress connection data address programId payer
        = .ok t ∧
      t.tokenSwap = address ∧ t.swapProgramId = programId ∧ t.authority = authority ∧
      (PublicKey.new (data.slice 3 35) = .ok t.tokenProgramId ∧
        t.tokenProgramId.toBuffer = data.slice 3 35) ∧
      (PublicKey.new (data.slice 35 67) = .ok t.tokenAccountA ∧
        t.tokenAccountA.toBuffer = data.slice 35 67) ∧
      (PublicKey.new (data.slice 67 99) = .ok t.tokenAccountB ∧
        t.tokenAccountB.toBuffer = data.slice 67 99) ∧
      (PublicKey.new (data.slice 99 131) = .ok t.poolToken ∧
        t.poolToken.toBuffer = data.slice 99 131) ∧
      (PublicKey.new (data.slice 131 163) = .ok t.mintA ∧
        t.mintA.toBuffer = data.slice 131 163) ∧
      (PublicKey.new (data.slice 163 195) = .ok t.mintB ∧
        t.mintB.toBuffer = data.slice 163 195) ∧
      (PublicKey.new (data.slice 195 227) = .ok t.feeAccount ∧
        t.feeAccount.toBuffer = data.slice 195 227) ∧
      Numberu64.fromBuffer (data.slice 227 235) = .ok t.tradeFeeNumerator ∧
      Numberu64.fromBuffer (data.slice 235 243) = .ok t.tradeFeeDenominator ∧
      Numberu64.fromBuffer (data.slice 243 251) = .ok t.ownerTradeFeeNumerator ∧
      Numberu64.fromBuffer (data.slice 251 259) = .ok t.ownerTradeFeeDenominator ∧
      Numberu64.fromBuffer (data.slice 259 267) = .ok t.ownerWithdrawFeeNumerator ∧
      Numberu64.fromBuffer (data.slice 267 275) = .ok t.ownerWithdrawFeeDenominator ∧
      Numberu64.fromBuffer (data.slice 275 283) = .ok t.hostFeeNumerator ∧
      Numberu64.fromBuffer (data.slice 283 291) = .ok t.hostFeeDenominator ∧
      ∃ c : Byte, data[291]? = some c ∧ t.curveType = .num c.val := by
  have hspan : TokenSwapLayout.span = 324 := by decide
  rw [hspan] at hlen
  have h1 : data[1]? = some (data[1]) := List.getElem?_eq_getElem (by omega)
  have h291 : data[291]? = some (data[291]) := List.getElem?_eq_getElem (by omega)
  have hne : data[1] ≠ 0 := fun h => hinit (by rw [h1, h])
  obtain ⟨t, ht, -, -, a1, a2, a3, k1, k2, k3, k4, k5, k6, k7, f1, f2, f3, f4, f5, f6, f7, f8,
    hc⟩ := loadTokenSwap_initialized findProgramAddress connection data address programId payer
      authority nonce _ _ (by omega) h1 hne h291 hfind
  have hs : ∀ start stop, stop ≤ 324 → (data.slice start stop).length = stop - start :=
    fun start stop h => slice_length data start stop (by omega)
  have key : ∀ (k : PublicKey) (start stop : Nat), stop ≤ 324 → stop - start = 32 →
      PublicKey.new (data.slice start stop) = .ok k → k.toBuffer = data.slice start stop := by
    intro k start stop hle h32 hk
    have hl : (data.slice start stop).length = 32 := by rw [hs _ _ hle, h32]
    obtain ⟨k', hk', hbn⟩ := new_of_length _ hl
    rw [hk] at hk'
    cases hk'
    exact toBuffer_of_bn k _ hl hbn
  exact ⟨t, ht, a1, a2, a3, ⟨k1, key _ _ _ (by decide) rfl k1⟩,
    ⟨k2, key _ _ _ (by decide) rfl k2⟩, ⟨k3, key _ _ _ (by decide) rfl k3⟩,
    ⟨k4, key _ _ _ (by decide) rfl k4⟩, ⟨k5, key _ _ _ (by decide) rfl k5⟩,
    ⟨k6, key _ _ _ (by decide) rfl k6⟩, ⟨k7, key _ _ _ (by decide) rfl k7⟩,
    f1, f2, f3, f4, f5, f6, f7, f8, _, h291, hc⟩

set_option maxRecDepth 100000 in
/-- Witness of C19 at an account of 324 bytes `1, 1, 7, 7, ...`, whose fee components are
all `0x0707070707070707`. -/
theorem loadTokenSwap_fields_witness :
    ∃ t : TokenSwap Unit Unit,
      TokenSwap.loadTokenSwap (fun _ _ => .ok (⟨5, by decide⟩, 255)) ()
        (1 :: 1 :: List.replicate 322 7) ⟨1, by decide⟩ ⟨2, by decide⟩ () = .ok t ∧
      t.tokenSwap = ⟨1, by decide⟩ ∧ t.swapProgramId = ⟨2, by decide⟩ ∧
      t.authority = ⟨5, by decide⟩ :=
  let ⟨t, h, a1, a2, a3, _⟩ :=
    loadTokenSwap_fields (fun _ _ => .ok (⟨5, by decide⟩, 255)) ()
      (1 :: 1 :: List.replicate 322 7) ⟨1, by decide⟩ ⟨2, by decide⟩ () ⟨5, by decide⟩ 255
      (by decide) (by decide) rfl
  ⟨t, h, a1, a2, a3⟩

set_option maxRecDepth 100000 in
/-- C20, as stated, fails: an account of the size of the layout whose curve-type byte is 2,
which is none of the values of `CurveType`, is decoded to a pool state with curve type 2. -/
theorem loadTokenSwap_curveType_two :
    (2 : Int) ≠ CurveType.ConstantProduct ∧ (2 : Int) ≠ CurveType.ConstantPrice ∧
    (2 : Int) ≠ CurveType.Offset ∧
    ∃ t : TokenSwap Unit Unit,
      TokenSwap.loadTokenSwap (fun _ _ => .ok (⟨5, by decide⟩, 255)) ()
        (1 :: 1 :: (List.replicate 289 0 ++ 2 :: List.replicate 32 0)) ⟨1, by decide⟩
        ⟨2, by decide⟩ () = .ok t ∧
      t.curveType = .num 2 :=
  ⟨by decide, by decide, by decide,
    let ⟨t, h, _, _, _, _, _, _, _, _, _, _, _, _, _, _, _, _, _, _, _, _, hc⟩ :=
      loadTokenSwap_initialized (fun _ _ => .ok (⟨5, by decide⟩, 255)) ()
        (1 :: 1 :: (List.replicate 289 0 ++ 2 :: List.replicate 32 0)) ⟨1, by decide⟩
        ⟨2, by decide⟩ () ⟨5, by decide⟩ 255 1 2 (by decide) (by decide) (by decide)
        (by decide) rfl
    ⟨t, h, hc⟩⟩

/-- C20, amended: for every account byte array of the size of the layout with a non-zero
`isInitialized` byte and a derivation that gives a result, `loadTokenSwap` returns a pool
state whose curve type is the curve-type byte (offset 291), whatever its value: the client
checks the byte against no set of curve types. -/
theorem loadTokenSwap_curveType {Connection Account : Type}
    (findProgramAddress : List Buffer → PublicKey → Except String (PublicKey × Nat))
    (connection : Connection) (data : Buffer) (address programId : PublicKey) (payer : Account)
    (authority : PublicKey) (nonce : Nat) (c : Byte)
    (hlen : data.length = TokenSwapLayout.span) (hinit : data[1]? ≠ some 0)
    (hcurve : data[291]? = some c)
    (hfind : findProgramAddress [address.toBuffer] programId = .ok (authority, nonce)) :
    ∃ t : TokenSwap Connection Account,
      TokenSwap.loadTokenSwap findProgramAddress connection data address programId payer
        = .ok t ∧
      t.curveType = .num c.val := by
  have hspan : TokenSwapLayout.span = 324 := by decide
  rw [hspan] at hlen
  have h1 : data[1]? = some (data[1]) := List.getElem?_eq_getElem (by omega)
  have hne : data[1] ≠ 0 := fun h => hinit (by rw [h1, h])
  obtain ⟨t, ht, -, -, -, -, -, -, -, -, -, -, -, -, -, -, -, -, -, -, -, -, hc⟩ :=
    loadTokenSwap_initialized findProgramAddress connection data address programId payer
      authority nonce _ c (by omega) h1 hne hcurve hfind
  exact ⟨t, ht, hc⟩

set_option maxRecDepth 100000 in
/-- Witness of the amended C20 at an account whose curve-type byte is 4. -/
theorem loadTokenSwap_curveType_witness :
    ∃ t : TokenSwap Unit Unit,
      TokenSwap.loadTokenSwap (fun _ _ => .ok (⟨5, by decide⟩, 255)) ()
        (1 :: 1 :: (List.replicate 289 0 ++ 4 :: List.replicate 32 0)) ⟨1, by decide⟩
        ⟨2, by decide⟩ () = .ok t ∧
      t.curveType = .num ((4 : Byte).val) :=
  loadTokenSwap_curveType (fun _ _ => .ok (⟨5, by decide⟩, 255)) ()
    (1 :: 1 :: (List.replicate 289 0 ++ 4 :: List.replicate 32 0)) ⟨1, by decide⟩
    ⟨2, by decide⟩ () ⟨5, by decide⟩ 255 4 (by decide) (by decide) (by decide) rfl

/-! ## The codec in the other direction and on negative numbers -/

/-- C23: for every 8-byte sequence `b`, `Numberu64.fromBuffer(b).toBuffer()` succeeds and
is `b` byte for byte; the number in between lies in `[0, 2 ^ 64)`. -/
theorem toBuffer_fromBuffer (b : Buffer) (h : b.length = 8) :
    (Numberu64.fromBuffer b >>= Numberu64.toBuffer) = .ok b ∧
    ∃ x : Numberu64, Numberu64.fromBuffer b = .ok x ∧ x.toBuffer = .ok b ∧
      0 ≤ x.value ∧ x.value < 2 ^ 64 := by
  have hlt : leValue b < 2 ^ 64 := by
    have := leValue_lt b
    rw [h] at this
    simpa using this
  refine ⟨?_, _, fromBuffer_of_length b h, toBuffer_fromBuffer_of_length b h,
    Int.ofNat_nonneg _, ?_⟩
  · rw [fromBuffer_of_length b h, ok_bind, toBuffer_fromBuffer_of_length b h]
  · show (leValue b : Int) < 2 ^ 64
    exact_mod_cast hlt

/-- Witness of C23 at the all-zero buffer. -/
theorem toBuffer_fromBuffer_witness :
    (Numberu64.fromBuffer [0, 0, 0, 0, 0, 0, 0, 0] >>= Numberu64.toBuffer)
      = .ok [0, 0, 0, 0, 0, 0, 0, 0] :=
  (toBuffer_fromBuffer [0, 0, 0, 0, 0, 0, 0, 0] rfl).1

/-- C25, as stated, fails: for the negative integer `-(2 ^ 53)`, of magnitude below
`2 ^ 64`, given as a JavaScript number, `new Numberu64(v)` itself throws `Assertion failed`,
so `new Numberu64(v).toBuffer()` fails, and so does the swap builder with it as amount. -/
theorem toBuffer_negative_number :
    (-(2 ^ 53) : Int) < 0 ∧ (-(2 ^ 53) : Int).natAbs < 2 ^ 64 ∧
    (Numberu64.new (.number (-(2 ^ 53))) >>= BNObject.toBuffer) = .error "Assertion failed" ∧
    TokenSwap.swapInstruction ⟨1, by decide⟩ ⟨2, by decide⟩ ⟨3, by decide⟩ ⟨4, by decide⟩
      ⟨5, by decide⟩ ⟨6, by decide⟩ ⟨7, by decide⟩ ⟨8, by decide⟩ ⟨9, by decide⟩ none
      ⟨11, by decide⟩ ⟨12, by decide⟩ (.number (-(2 ^ 53))) (.number 0)
      = .error "Assertion failed" :=
  ⟨by decide, by decide, by decide, by decide⟩

/-- C25, amended: for every negative integer `v` with `|v| < 2 ^ 64`, the `toBuffer` of a
`Numberu64` holding `v` does not fail: it is the 8-byte little-endian encoding of `-v`, the
same bytes as for a `Numberu64` holding `-v`. Every builder of opcode `1 .. 5` gives the
same result for amounts `a`, `b`, `c` as for `|a|`, `|b|`, `|c|`, each given as a JavaScript
number or held by a `Numberu64`; and with `v` as every amount, held by a `Numberu64` or,
when `|v| < 2 ^ 53`, given as a JavaScript number, it returns an instruction whose data
holds the encoding of `-v`. -/
theorem toBuffer_negative (k : Nat → PublicKey) (host : Option PublicKey) (v : Int)
    (hneg : v < 0) (hlt : -v < 2 ^ 64) :
    ∃ e : Buffer,
      (Numberu64.mk v).toBuffer = .ok e ∧ (Numberu64.mk (-v)).toBuffer = .ok e ∧
      e.length = 8 ∧
      (∀ i (hi : i < e.length), ((e.get ⟨i, hi⟩).val : Int) = -v / 256 ^ i % 256) ∧
      (∀ (ka kb kc : Bool) (a b c : Int),
        TokenSwap.swapInstruction (k 0) (k 1) (k 2) (k 3) (k 4) (k 5) (k 6) (k 7) (k 8) host (k 9)
          (k 10) (Amount.ofInt ka a) (Amount.ofInt kb b)
          =
          TokenSwap.swapInstruction (k 0) (k 1) (k 2) (k 3) (k 4) (k 5) (k 6) (k 7) (k 8) host
            (k 9) (k 10) (Amount.ofInt ka ((a.natAbs : Nat) : Int))
            (Amount.ofInt kb ((b.natAbs : Nat) : Int)) ∧
        TokenSwap.depositAllTokenTypesInstruction (k 0) (k 1) (k 2) (k 3) (k 4) (k 5) (k 6) (k 7)
          (k 8) (k 9) (k 10) (Amount.ofInt ka a) (Amount.ofInt kb b) (Amount.ofInt kc c)
          =
          TokenSwap.depositAllTokenTypesInstruction (k 0) (k 1) (k 2) (k 3) (k 4) (k 5) (k 6)
            (k 7) (k 8) (k 9) (k 10) (Amount.ofInt ka ((a.natAbs : Nat) : Int))
            (Amount.ofInt kb ((b.natAbs : Nat) : Int)) (Amount.ofInt kc ((c.natAbs : Nat) : Int)) ∧
        TokenSwap.withdrawAllTokenTypesInstruction (k 0) (k 1) (k 2) (k 3) (k 4) (k 5) (k 6) (k 7)
          (k 8) (k 9) (k 10) (k 11) (Amount.ofInt ka a) (Amount.ofInt kb b) (Amount.ofInt kc c)
          =
          TokenSwap.withdrawAllTokenTypesInstruction (k 0) (k 1) (k 2) (k 3) (k 4) (k 5) (k 6)
            (k 7) (k 8) (k 9) (k 10) (k 11) (Amount.ofInt ka ((a.natAbs : Nat) : Int))
            (Amount.ofInt kb ((b.natAbs : Nat) : Int)) (Amount.ofInt kc ((c.natAbs : Nat) : Int)) ∧
        TokenSwap.depositSingleTokenTypeExactAmountInInstruction (k 0) (k 1) (k 2) (k 3) (k 4)
          (k 5) (k 6) (k 7) (k 8) (k 9) (Amount.ofInt ka a) (Amount.ofInt kb b)
          =
          TokenSwap.depositSingleTokenTypeExactAmountInInstruction (k 0) (k 1) (k 2) (k 3) (k 4)
            (k 5) (k 6) (k 7) (k 8) (k 9) (Amount.ofInt ka ((a.natAbs : Nat) : Int))
            (Amount.ofInt kb ((b.natAbs : Nat) : Int)) ∧
        TokenSwap.withdrawSingleTokenTypeExactAmountOutInstruction (k 0) (k 1) (k 2) (k 3) (k 4)
          (k 5) (k 6) (k 7) (k 8) (k 9) (k 10) (Amount.ofInt ka a) (Amount.ofInt kb b)
          =
          TokenSwap.withdrawSingleTokenTypeExactAmountOutInstruction (k 0) (k 1) (k 2) (k 3) (k 4)
            (k 5) (k 6) (k 7) (k 8) (k 9) (k 10) (Amount.ofInt ka ((a.natAbs : Nat) : Int))
            (Amount.ofInt kb ((b.natAbs : Nat) : Int))) ∧
      ∀ asNumber : Bool, -v < Amount.limit asNumber →
        (∃ i,
            TokenSwap.swapInstruction (k 0) (k 1) (k 2) (k 3) (k 4) (k 5) (k 6) (k 7) (k 8) host
              (k 9) (k 10) (Amount.ofInt asNumber v) (Amount.ofInt asNumber v) = .ok i ∧
          i.data = 1 :: (e ++ e)) ∧
        (∃ i,
            TokenSwap.depositAllTokenTypesInstruction (k 0) (k 1) (k 2) (k 3) (k 4) (k 5) (k 6)
              (k 7) (k 8) (k 9) (k 10) (Amount.ofInt asNumber v) (Amount.ofInt asNumber v)
              (Amount.ofInt asNumber v) = .ok i ∧
          i.data = 2 :: (e ++ (e ++ e))) ∧
        (∃ i,
            TokenSwap.withdrawAllTokenTypesInstruction (k 0) (k 1) (k 2) (k 3) (k 4) (k 5) (k 6)
              (k 7) (k 8) (k 9) (k 10) (k 11) (Amount.ofInt asNumber v) (Amount.ofInt asNumber v)
              (Amount.ofInt asNumber v) = .ok i ∧
          i.data = 3 :: (e ++ (e ++ e))) ∧
        (∃ i,
            TokenSwap.depositSingleTokenTypeExactAmountInInstruction (k 0) (k 1) (k 2) (k 3) (k 4)
              (k 5) (k 6) (k 7) (k 8) (k 9) (Amount.ofInt asNumber v) (Amount.ofInt asNumber v) =
                .ok i ∧
          i.data = 4 :: (e ++ e)) ∧
        (∃ i,
            TokenSwap.withdrawSingleTokenTypeExactAmountOutInstruction (k 0) (k 1) (k 2) (k 3)
              (k 4) (k 5) (k 6) (k 7) (k 8) (k 9) (k 10) (Amount.ofInt asNumber v)
              (Amount.ofInt asNumber v) = .ok i ∧
          i.data = 5 :: (e ++ e)) := by
  have habs : v.natAbs < 2 ^ 64 := by omega
  have habs' : (-v).natAbs < 2 ^ 64 := by omega
  have hsame : (-v).natAbs = v.natAbs := Int.natAbs_neg v
  have hv : (Numberu64.mk v).toBuffer = .ok (Buffer.from (leBytes 8 v.natAbs)) :=
    toBuffer_of_lt _ habs
  have he : (Numberu64.mk (-v)).toBuffer = .ok (Buffer.from (leBytes 8 v.natAbs)) := by
    rw [toBuffer_of_lt _ habs']
    simp only [hsame]
  have hcast : ((v.natAbs : Nat) : Int) = -v := by omega
  have l8 : (Buffer.from (leBytes 8 v.natAbs)).length = 8 := by
    simp [from_length, leBytes_length]
  refine ⟨Buffer.from (leBytes 8 v.natAbs), hv, he, l8,
    fun i hi => by rw [from_leBytes_get, hcast], ?_, ?_⟩
  · intro ka kb kc a b c
    refine ⟨?_, ?_, ?_, ?_, ?_⟩
    · unfold TokenSwap.swapInstruction
      rw [amount_natAbs ka a, amount_natAbs kb b]
    · unfold TokenSwap.depositAllTokenTypesInstruction
      rw [amount_natAbs ka a, amount_natAbs kb b, amount_natAbs kc c]
    · unfold TokenSwap.withdrawAllTokenTypesInstruction
      rw [amount_natAbs ka a, amount_natAbs kb b, amount_natAbs kc c]
    · unfold TokenSwap.depositSingleTokenTypeExactAmountInInstruction
      rw [amount_natAbs ka a, amount_natAbs kb b]
    · unfold TokenSwap.withdrawSingleTokenTypeExactAmountOutInstruction
      rw [amount_natAbs ka a, amount_natAbs kb b]
  · intro asNumber hlim
    have hk := amount_ok asNumber v (by omega)
    exact ⟨⟨_, swapInstruction_eq _ _ _ _ _ _ _ _ _ host _ _ _ _ _ _
        hk hk l8 l8, rfl⟩,
      ⟨_, depositAllTokenTypesInstruction_eq _ _ _ _ _ _ _ _ _ _ _ _ _ _ _ _ _
        hk hk hk l8 l8 l8, rfl⟩,
      ⟨_, withdrawAllTokenTypesInstruction_eq _ _ _ _ _ _ _ _ _ _ _ _ _ _ _ _ _ _
        hk hk hk l8 l8 l8, rfl⟩,
      ⟨_, depositSingleTokenTypeExactAmountInInstruction_eq _ _ _ _ _ _ _ _ _ _ _ _ _ _
        hk hk l8 l8, rfl⟩,
      ⟨_, withdrawSingleTokenTypeExactAmountOutInstruction_eq _ _ _ _ _ _ _ _ _ _ _ _ _ _ _
        hk hk l8 l8, rfl⟩⟩

/-- Witness of the amended C25 at `v = -258`: the bytes are those of `258`, also in the data
of the swap builder with `-258` given as a number. -/
theorem toBuffer_negative_witness :
    ∃ e : Buffer,
      (Numberu64.mk (-258)).toBuffer = .ok e ∧ (Numberu64.mk (- -258)).toBuffer = .ok e ∧
      e.length = 8 ∧
      ∃ i, TokenSwap.swapInstruction ⟨0, by decide⟩ ⟨0, by decide⟩ ⟨0, by decide⟩
          ⟨0, by decide⟩ ⟨0, by decide⟩ ⟨0, by decide⟩ ⟨0, by decide⟩ ⟨0, by decide⟩
          ⟨0, by decide⟩ none ⟨0, by decide⟩ ⟨0, by decide⟩ (Amount.ofInt true (-258))
          (Amount.ofInt true (-258)) = .ok i ∧
        i.data = 1 :: (e ++ e) :=
  let ⟨e, h1, h2, h3, _, _, h4⟩ :=
    toBuffer_negative (fun _ => ⟨0, by decide⟩) none (-258) (by decide) (by decide)
  ⟨e, h1, h2, h3, (h4 true (by decide)).1⟩

/-! ## The account layout on byte arrays of another length -/

set_option maxRecDepth 100000 in
/-- C21, as stated, fails: byte arrays of 325 and of 323 bytes, one more and one less than
the span of the layout, are decoded by `TokenSwapLayout.decode` and by `loadTokenSwap`. -/
theorem decode_other_length :
    ((List.replicate 325 1 : Buffer).length ≠ TokenSwapLayout.span ∧
      (∃ o, TokenSwapLayout.decode (List.replicate 325 1) = .ok o) ∧
      ∃ t : TokenSwap Unit Unit,
        TokenSwap.loadTokenSwap (fun _ _ => .ok (⟨5, by decide⟩, 255)) ()
          (List.replicate 325 1) ⟨1, by decide⟩ ⟨2, by decide⟩ () = .ok t) ∧
    ((List.replicate 323 1 : Buffer).length ≠ TokenSwapLayout.span ∧
      (∃ o, TokenSwapLayout.decode (List.replicate 323 1) = .ok o) ∧
      ∃ t : TokenSwap Unit Unit,
        TokenSwap.loadTokenSwap (fun _ _ => .ok (⟨5, by decide⟩, 255)) ()
          (List.replicate 323 1) ⟨1, by decide⟩ ⟨2, by decide⟩ () = .ok t) :=
  ⟨⟨by decide,
      ⟨_, decode_tokenSwapLayout _ 1 1 1 1 (by decide) (by decide) (by decide) (by decide)⟩,
      let ⟨t, h, _⟩ :=
        loadTokenSwap_initialized (fun _ _ => .ok (⟨5, by decide⟩, 255)) ()
          (List.replicate 325 1) ⟨1, by decide⟩ ⟨2, by decide⟩ () ⟨5, by decide⟩ 255 1 1
          (by decide) (by decide) (by decide) (by decide) rfl
      ⟨t, h⟩⟩,
    ⟨by decide,
      ⟨_, decode_tokenSwapLayout _ 1 1 1 1 (by decide) (by decide) (by decide) (by decide)⟩,
      let ⟨t, h, _⟩ :=
        loadTokenSwap_initialized (fun _ _ => .ok (⟨5, by decide⟩, 255)) ()
          (List.replicate 323 1) ⟨1, by decide⟩ ⟨2, by decide⟩ () ⟨5, by decide⟩ 255 1 1
          (by decide) (by decide) (by decide) (by decide) rfl
      ⟨t, h⟩⟩⟩

/-- C21, amended: `TokenSwapLayout.decode` fails exactly on the byte arrays shorter than 292
bytes, those on which the curve-type byte at offset 291 cannot be read; on such an array
`loadTokenSwap` throws the same `RangeError`. A longer array, of the span of the layout or
not, is decoded. -/
theorem decode_fails_iff {Connection Account : Type}
    (findProgramAddress : List Buffer → PublicKey → Except String (PublicKey × Nat))
    (connection : Connection) (data : Buffer) (address programId : PublicKey)
    (payer : Account) :
    ((∃ e, TokenSwapLayout.decode data = .error e) ↔ data.length < 292) ∧
    ((∃ o, TokenSwapLayout.decode data = .ok o) ↔ 292 ≤ data.length) ∧
    (data.length < 292 →
      TokenSwapLayout.decode data = .error "RangeError" ∧
      TokenSwap.loadTokenSwap findProgramAddress connection data address programId payer
        = .error "RangeError") := by
  refine ⟨decode_error_iff data, ?_, ?_⟩
  · constructor
    · rintro ⟨o, ho⟩
      by_contra hlt
      obtain ⟨e, he⟩ := (decode_error_iff data).2 (by omega)
      rw [ho] at he
      exact Except.noConfusion he
    · intro hge
      cases hd : TokenSwapLayout.decode data with
      | ok o => exact ⟨o, rfl⟩
      | error e =>
        have := (decode_error_iff data).1 ⟨e, hd⟩
        omega
  · intro hlt
    have hd := decode_of_short data (List.getElem?_eq_none (by omega))
    refine ⟨hd, ?_⟩
    unfold TokenSwap.loadTokenSwap
    rw [hd]
    rfl

set_option maxRecDepth 100000 in
/-- Witness of the amended C21 at an array of 291 bytes. -/
theorem decode_fails_iff_witness :
    TokenSwapLayout.decode (List.replicate 291 1) = .error "RangeError" ∧
    TokenSwap.loadTokenSwap (fun _ _ => .ok (⟨5, by decide⟩, 255)) ()
      (List.replicate 291 1) ⟨1, by decide⟩ ⟨2, by decide⟩ () = .error "RangeError" :=
  (decode_fails_iff (fun _ _ => .ok (⟨5, by decide⟩, 255)) ()
    (List.replicate 291 1) ⟨1, by decide⟩ ⟨2, by decide⟩ ()).2.2 (by decide)

/-! ## The fee components and the curve parameters of `createInitSwapInstruction` -/

set_option maxRecDepth 100000 in
/-- C22, as stated, fails: with the trade fee numerator `-1` every fee component is below
`2 ^ 64`, but `createInitSwapInstruction` throws a `RangeError` and returns no payload,
while `Numberu64.toBuffer` of `-1` succeeds: the fee components are checked by the 64-bit
field of the layout, not by the `Numberu64` codec. -/
theorem init_negative_fee :
    (∀ f ∈ [(-1 : Int), 1000, 1, 1000, 1, 1000, 1, 1000], f < 2 ^ 64) ∧
    TokenSwap.createInitSwapInstruction ⟨⟨1, by decide⟩⟩ ⟨2, by decide⟩ ⟨3, by decide⟩
      ⟨4, by decide⟩ ⟨5, by decide⟩ ⟨6, by decide⟩ ⟨7, by decide⟩ ⟨8, by decide⟩
      ⟨9, by decide⟩ 7 (-1) 1000 1 1000 1 1000 1 1000 0 = .error "RangeError" ∧
    (Numberu64.mk (-1)).toBuffer = .ok [1, 0, 0, 0, 0, 0, 0, 0] :=
  ⟨by decide, by decide, by decide⟩

/-- C22, amended: `createInitSwapInstruction` validates each of its eight fee components
with the range check of the 64-bit field of its layout: whenever a fee component is negative
or at least `2 ^ 64` the construction fails, whatever the other arguments; whenever the
nonce and the curve type are in `0 .. 255` and all fee components are in `0 .. 2 ^ 64 - 1`,
an instruction is returned and each of its eight fee fields is `Numberu64.toBuffer` of that
component; and an instruction is returned only if every fee component is in that range. -/
theorem init_fee_validation (tokenSwapAccount : Account) (authority tokenAccountA
    tokenAccountB tokenPool feeAccount tokenAccountPool tokenProgramId swapProgramId : PublicKey)
    (nonce f1 f2 f3 f4 f5 f6 f7 f8 curveType : Int) :
    ((∃ f ∈ [f1, f2, f3, f4, f5, f6, f7, f8], f < 0 ∨ 2 ^ 64 ≤ f) →
      ∃ e, TokenSwap.createInitSwapInstruction tokenSwapAccount authority tokenAccountA
        tokenAccountB tokenPool feeAccount tokenAccountPool tokenProgramId swapProgramId nonce
        f1 f2 f3 f4 f5 f6 f7 f8 curveType = .error e) ∧
    ((0 ≤ nonce ∧ nonce ≤ 255) → (0 ≤ curveType ∧ curveType ≤ 255) →
      (∀ f ∈ [f1, f2, f3, f4, f5, f6, f7, f8], 0 ≤ f ∧ f < 2 ^ 64) →
      ∃ i, TokenSwap.createInitSwapInstruction tokenSwapAccount authority tokenAccountA
          tokenAccountB tokenPool feeAccount tokenAccountPool tokenProgramId swapProgramId nonce
          f1 f2 f3 f4 f5 f6 f7 f8 curveType = .ok i ∧
        (Numberu64.mk f1).toBuffer = .ok (i.data.slice 2 10) ∧
        (Numberu64.mk f2).toBuffer = .ok (i.data.slice 10 18) ∧
        (Numberu64.mk f3).toBuffer = .ok (i.data.slice 18 26) ∧
        (Numberu64.mk f4).toBuffer = .ok (i.data.slice 26 34) ∧
        (Numberu64.mk f5).toBuffer = .ok (i.data.slice 34 42) ∧
        (Numberu64.mk f6).toBuffer = .ok (i.data.slice 42 50) ∧
        (Numberu64.mk f7).toBuffer = .ok (i.data.slice 50 58) ∧
        (Numberu64.mk f8).toBuffer = .ok (i.data.slice 58 66)) ∧
    (∀ i, TokenSwap.createInitSwapInstruction tokenSwapAccount authority tokenAccountA
        tokenAccountB tokenPool feeAccount tokenAccountPool tokenProgramId swapProgramId nonce
        f1 f2 f3 f4 f5 f6 f7 f8 curveType = .ok i →
      ∀ f ∈ [f1, f2, f3, f4, f5, f6, f7, f8], 0 ≤ f ∧ f < 2 ^ 64) := by
  refine ⟨?_, ?_, ?_⟩
  · rintro ⟨f, hf, hbad⟩
    exact createInitSwapInstruction_error _ _ _ _ _ _ _ _ _ _ _ _ _ _ _ _ _ _ _
      (Or.inr (Or.inr ⟨f, hf, hbad⟩))
  · intro hn hc hf
    have g : ∀ f ∈ [f1, f2, f3, f4, f5, f6, f7, f8],
        (Numberu64.mk f).toBuffer = .ok (Buffer.from (leBytes 8 f.natAbs)) := fun f hm =>
      toBuffer_of_lt ⟨f⟩ ((natAbs_lt_of_nonneg f (hf f hm).1).2 (hf f hm).2)
    exact ⟨_, createInitSwapInstruction_eq _ _ _ _ _ _ _ _ _ _ _ _ _ _ _ _ _ _ _ hn.1 hn.2 hc.1
      hc.2 (hf f1 (by simp)) (hf f2 (by simp)) (hf f3 (by simp)) (hf f4 (by simp))
      (hf f5 (by simp)) (hf f6 (by simp)) (hf f7 (by simp)) (hf f8 (by simp)),
      g f1 (by simp), g f2 (by simp), g f3 (by simp), g f4 (by simp), g f5 (by simp),
      g f6 (by simp), g f7 (by simp), g f8 (by simp)⟩
  · intro i hi
    exact (createInitSwapInstruction_valid _ _ _ _ _ _ _ _ _ _ _ _ _ _ _ _ _ _ _ i hi).2.2

/-- Witness of the amended C22: with the host fee denominator `-5` the construction fails. -/
theorem init_fee_validation_witness :
    ∃ e, TokenSwap.createInitSwapInstruction ⟨⟨1, by decide⟩⟩ ⟨2, by decide⟩ ⟨3, by decide⟩
      ⟨4, by decide⟩ ⟨5, by decide⟩ ⟨6, by decide⟩ ⟨7, by decide⟩ ⟨8, by decide⟩
      ⟨9, by decide⟩ 7 25 1000 1 1000 1 1000 1 (-5) 0 = .error e :=
  (init_fee_validation ⟨⟨1, by decide⟩⟩ ⟨2, by decide⟩ ⟨3, by decide⟩ ⟨4, by decide⟩
    ⟨5, by decide⟩ ⟨6, by decide⟩ ⟨7, by decide⟩ ⟨8, by decide⟩ ⟨9, by decide⟩
    7 25 1000 1 1000 1 1000 1 (-5) 0).1 ⟨-5, by simp, by decide⟩

/-- C24: in every instruction that `createInitSwapInstruction` returns, the data is 99 bytes
long and the 32 bytes after the curve-type byte, the curve parameters, are all zero. -/
theorem init_curve_parameters (tokenSwapAccount : Account) (authority tokenAccountA
    tokenAccountB tokenPool feeAccount tokenAccountPool tokenProgramId swapProgramId : PublicKey)
    (nonce f1 f2 f3 f4 f5 f6 f7 f8 curveType : Int) (i : TransactionInstruction)
    (h : TokenSwap.createInitSwapInstruction tokenSwapAccount authority tokenAccountA
      tokenAccountB tokenPool feeAccount tokenAccountPool tokenProgramId swapProgramId nonce f1
      f2 f3 f4 f5 f6 f7 f8 curveType = .ok i) :
    i.data.length = 99 ∧ i.data.drop 67 = List.replicate 32 0 ∧
      i.data.slice 67 99 = List.replicate 32 0 := by
  obtain ⟨hn, hc, hf⟩ := createInitSwapInstruction_valid _ _ _ _ _ _ _ _ _ _ _ _ _ _ _ _ _ _ _
    i h
  rw [createInitSwapInstruction_eq _ _ _ _ _ _ _ _ _ _ _ _ _ _ _ _ _ _ _ hn.1 hn.2 hc.1
    hc.2 (hf f1 (by simp)) (hf f2 (by simp)) (hf f3 (by simp)) (hf f4 (by simp))
    (hf f5 (by simp)) (hf f6 (by simp)) (hf f7 (by simp)) (hf f8 (by simp))] at h
  cases h
  exact ⟨rfl, rfl, rfl⟩

/-- Witness of C24 at nonce 255, fee components `0 .. 6` and `2 ^ 64 - 1`, curve type 3. -/
theorem init_curve_parameters_witness :
    ∃ i, TokenSwap.createInitSwapInstruction ⟨⟨1, by decide⟩⟩ ⟨2, by decide⟩ ⟨3, by decide⟩
        ⟨4, by decide⟩ ⟨5, by decide⟩ ⟨6, by decide⟩ ⟨7, by decide⟩ ⟨8, by decide⟩
        ⟨9, by decide⟩ 255 0 1 2 3 4 5 6 (2 ^ 64 - 1) 3 = .ok i ∧
      i.data.length = 99 ∧ i.data.drop 67 = List.replicate 32 0 ∧
      i.data.slice 67 99 = List.replicate 32 0 :=
  ⟨_, createInitSwapInstruction_eq ⟨⟨1, by decide⟩⟩ ⟨2, by decide⟩ ⟨3, by decide⟩
      ⟨4, by decide⟩ ⟨5, by decide⟩ ⟨6, by decide⟩ ⟨7, by decide⟩ ⟨8, by decide⟩
      ⟨9, by decide⟩ 255 0 1 2 3 4 5 6 (2 ^ 64 - 1) 3 (by decide) (by decide) (by decide)
      (by decide) (by decide) (by decide) (by decide) (by decide) (by decide) (by decide)
      (by decide) (by decide),
    init_curve_parameters ⟨⟨1, by decide⟩⟩ ⟨2, by decide⟩ ⟨3, by decide⟩
      ⟨4, by decide⟩ ⟨5, by decide⟩ ⟨6, by decide⟩ ⟨7, by decide⟩ ⟨8, by decide⟩
      ⟨9, by decide⟩ 255 0 1 2 3 4 5 6 (2 ^ 64 - 1) 3 _
      (createInitSwapInstruction_eq ⟨⟨1, by decide⟩⟩ ⟨2, by decide⟩ ⟨3, by decide⟩
        ⟨4, by decide⟩ ⟨5, by decide⟩ ⟨6, by decide⟩ ⟨7, by decide⟩ ⟨8, by decide⟩
        ⟨9, by decide⟩ 255 0 1 2 3 4 5 6 (2 ^ 64 - 1) 3 (by decide) (by decide) (by decide)
        (by decide) (by decide) (by decide) (by decide) (by decide) (by decide) (by decide)
        (by decide) (by decide))⟩

end Client
